import Mathlib

/-!
Attribution triple store of GIMP (app/core/gimpattribution.c)

A shallow embedding of the attribution object and of the operations on its RDF
model.  A `GimpAttribution` carries one RDF model; the RDF store itself is the
Redland library, whose operations are modelled from the specification's
description of the Model (an insertion-ordered collection of statements in
which duplicates are kept).  A C pointer that may be `NULL` is an `Option`.
-/

set_option autoImplicit false

/-! ## Data model -/

/-- An RDF node: a resource named by a URI, a literal, or a blank node. -/
inductive librdf_node where
  | resource (uri : String)
  | literal (value : String) (datatype : Option String) (language : Option String)
  | blank (id : String)
  deriving DecidableEq, Repr

/-- A stored statement: a complete (subject, predicate, object) triple. -/
structure librdf_statement where
  subject : librdf_node
  predicate : librdf_node
  object : librdf_node
  deriving DecidableEq, Repr

/-- A statement used as a query pattern: a field left `none` (a `NULL` node in
the C code) is unbound and matches anything. -/
structure librdf_pattern where
  subject : Option librdf_node
  predicate : Option librdf_node
  object : Option librdf_node
  deriving DecidableEq, Repr

/-- Modelled from the spec: the Model of the Redland store, "an
ordered-insertion collection of Statements (duplicates allowed)". -/
abbrev librdf_model := List librdf_statement

/-- Modelled from the spec: a stream is the "finite, one-shot sequence" of the
statements it still has to deliver, in insertion order. -/
structure librdf_stream where
  pending : List librdf_statement
  deriving DecidableEq, Repr

/-- The attribution object; of `_GimpAttributionPrivate` only the model carries
data (world, storage and parser are handles of the library). -/
structure GimpAttribution where
  model : librdf_model
  deriving DecidableEq, Repr

/-! ## Operations of the store -/

/-- Modelled from the spec: `add(statement)` "appends statement; no uniqueness
enforced". -/
def librdf_model_add_statement (m : librdf_model) (st : librdf_statement) : librdf_model :=
  m ++ [st]

/-- Modelled from the spec: `librdf_model_add` builds the statement from three
nodes and adds it. -/
def librdf_model_add (m : librdf_model) (s p o : librdf_node) : librdf_model :=
  librdf_model_add_statement m ⟨s, p, o⟩

/-- Modelled from the spec: `contains(statement)` is the "boolean exact-match
test (all three fields bound)". -/
def librdf_model_contains_statement (m : librdf_model) (st : librdf_statement) : Bool :=
  m.contains st

/-- Modelled from the spec: `as_stream()` delivers "all Statements in insertion
order". -/
def librdf_model_as_stream (m : librdf_model) : librdf_stream :=
  ⟨m⟩

/-- Modelled from the spec: the stream is at its end when nothing is pending. -/
def librdf_stream_end (s : librdf_stream) : Bool :=
  s.pending.isEmpty

/-- Modelled from the spec: the current statement of the stream, `NULL` at the
end. -/
def librdf_stream_get_object (s : librdf_stream) : Option librdf_statement :=
  s.pending.head?

/-- Modelled from the spec: advance the stream by one statement. -/
def librdf_stream_next (s : librdf_stream) : librdf_stream :=
  ⟨s.pending.tail⟩

/-- Modelled from the spec: `librdf_model_add_statements` adds every statement
the stream still delivers, one `add` each, and leaves the stream at its end. -/
def librdf_model_add_statements (m : librdf_model) (s : librdf_stream) :
    librdf_model × librdf_stream :=
  (s.pending.foldl librdf_model_add_statement m, ⟨[]⟩)

/-- Modelled from the spec: the number of stored statements. -/
def librdf_model_size (m : librdf_model) : Nat :=
  m.length

/-- Modelled from the spec: one field of a pattern against one node, "unbound
fields match anything". -/
def librdf_node_match (bound : Option librdf_node) (n : librdf_node) : Bool :=
  match bound with
  | none => true
  | some b => decide (n = b)

/-- Modelled from the spec: "every bound field of `partial_statement` matches
exactly". -/
def librdf_statement_match (st : librdf_statement) (p : librdf_pattern) : Bool :=
  librdf_node_match p.subject st.subject
    && librdf_node_match p.predicate st.predicate
    && librdf_node_match p.object st.object

/-- Modelled from the spec: `find(partial_statement)` walks the stored
statements in insertion order and delivers those that match the pattern. -/
def librdf_model_find_statements (m : librdf_model) (p : librdf_pattern) : librdf_stream :=
  ⟨m.filter (fun st => librdf_statement_match st p)⟩

/-! ## Nodes, URIs and patterns -/

/-- Modelled from the spec: a URI object of the library is its URI string
("URIs are absolute strings", compared byte-exact). -/
def librdf_new_uri (uri_string : String) : Option String :=
  some uri_string

/-- Modelled from the spec: a copy of a URI object is the same URI; there is
nothing to copy for `NULL`, and `NULL` comes back. -/
def librdf_new_uri_from_uri (old_uri : Option String) : Option String :=
  old_uri

/-- Modelled from the spec: the `Resource{uri}` node for a URI object; no node
(`NULL`) when the URI object is `NULL`. -/
def librdf_new_node_from_uri (uri : Option String) : Option librdf_node :=
  uri.map librdf_node.resource

/-- Modelled from the spec: the `Resource{uri}` node for a URI string. -/
def librdf_new_node_from_uri_string (uri_string : String) : librdf_node :=
  librdf_node.resource uri_string

/-- Modelled from the spec: the URI of a node.  Of the three variants only
`Resource{uri}` has one; for a literal or a blank node the library has no URI
object to return and returns `NULL`. -/
def librdf_node_get_uri (n : librdf_node) : Option String :=
  match n with
  | librdf_node.resource uri => some uri
  | _ => none

/-- Modelled from the spec: a new statement of the library has no field set; as
a query it is the fully wildcard partial statement. -/
def librdf_new_statement : librdf_pattern :=
  ⟨none, none, none⟩

/-- Modelled from the spec: set the subject field; a `NULL` node leaves the
field unbound. -/
def librdf_statement_set_subject (p : librdf_pattern) (n : Option librdf_node) : librdf_pattern :=
  { p with subject := n }

/-- Modelled from the spec: set the predicate field; a `NULL` node leaves the
field unbound. -/
def librdf_statement_set_predicate (p : librdf_pattern) (n : Option librdf_node) : librdf_pattern :=
  { p with predicate := n }

/-! ## gimpattribution.c -/

/-- The `gimp_attribution_new` constructor: `gimp_attribution_init` creates an
empty model in memory storage. -/
def gimp_attribution_new : GimpAttribution :=
  ⟨[]⟩

/-- The `gimp_attribution_combine (attrib, other)` call: stream `other` and add
the stream to `attrib`.  Returns both objects as they are after the call. -/
def gimp_attribution_combine (attrib other : GimpAttribution) :
    GimpAttribution × GimpAttribution :=
  let other_stream := librdf_model_as_stream other.model
  let added := librdf_model_add_statements attrib.model other_stream
  ({ attrib with model := added.1 }, other)

/-- The `while (!librdf_stream_end (other_stream))` loop of
`gimp_attribution_combine_check`, over the statements the stream of `other`
still delivers: a statement that `other` does not contain is added to `other`.
Returns the model of `other` and the stream as they are after the loop. -/
def gimp_attribution_combine_check_loop :
    List librdf_statement → librdf_model → librdf_model × librdf_stream
  | [], other_model => (other_model, ⟨[]⟩)
  | other_statement :: rest, other_model =>
      let other_model :=
        if !librdf_model_contains_statement other_model other_statement then
          librdf_model_add_statement other_model other_statement
        else
          other_model
      gimp_attribution_combine_check_loop rest other_model

/-- The `gimp_attribution_combine_check (attrib, other)` call: run the loop on
the stream of `other`, then add what the same stream still delivers to
`attrib`.  Returns both objects as they are after the call. -/
def gimp_attribution_combine_check (attrib other : GimpAttribution) :
    GimpAttribution × GimpAttribution :=
  let other_stream := librdf_model_as_stream other.model
  let looped := gimp_attribution_combine_check_loop other_stream.pending other.model
  let added := librdf_model_add_statements attrib.model looped.2
  ({ attrib with model := added.1 }, { other with model := looped.1 })

/-- The `attrib_predicates` table of `gimp_attribution_has_attribution_subject`. -/
def attrib_predicates : List String :=
  [ "http://purl.org/dc/elements/1.1/contributor",
    "http://purl.org/dc/terms/contributor",
    "http://purl.org/dc/elements/1.1/creator",
    "http://purl.org/dc/terms/creator",
    "http://www.w3.org/1999/xhtml/vocab#license",
    "http://purl.org/dc/terms/license",
    "http://creativecommons.org/ns#license" ]

/-- The `gimp_attribution_has_attribution_subject (attrib, subject_uri)` call:
for each entry of `attrib_predicates` in turn, find the statements with the
given subject and that predicate; the result becomes `TRUE` when the stream has
a first statement. -/
def gimp_attribution_has_attribution_subject (attrib : GimpAttribution)
    (subject_uri : Option String) : Bool :=
  attrib_predicates.foldl
    (fun result predicate_string =>
      let subject_uri_local := librdf_new_uri_from_uri subject_uri
      let subject_node := librdf_new_node_from_uri subject_uri_local
      let predicate_uri := librdf_new_uri predicate_string
      let predicate_node := librdf_new_node_from_uri predicate_uri
      let pattern := librdf_new_statement
      let pattern := librdf_statement_set_subject pattern subject_node
      let pattern := librdf_statement_set_predicate pattern predicate_node
      let stream := librdf_model_find_statements attrib.model pattern
      if (librdf_stream_get_object stream).isSome then true else result)
    false

/-- The `gimp_attribution_has_attribution (attrib)` call: `TRUE` at once when
`about:this` has attribution properties; otherwise every object of a statement
(about:this, dc:source, object) is asked for its URI and that URI is checked. -/
def gimp_attribution_has_attribution (attrib : GimpAttribution) : Bool :=
  let subject_uri := librdf_new_uri "about:this"
  if gimp_attribution_has_attribution_subject attrib subject_uri then
    true
  else
    let subject_node := librdf_new_node_from_uri subject_uri
    let predicate_node :=
      librdf_new_node_from_uri_string "http://purl.org/dc/elements/1.1/source"
    let pattern := librdf_new_statement
    let pattern := librdf_statement_set_subject pattern subject_node
    let pattern := librdf_statement_set_predicate pattern (some predicate_node)
    let stream := librdf_model_find_statements attrib.model pattern
    stream.pending.foldl
      (fun result statement =>
        let source_object := statement.object
        let source_uri := librdf_node_get_uri source_object
        if gimp_attribution_has_attribution_subject attrib source_uri then true else result)
      false

/-- The `gimp_attribution_is_empty (attrib)` call. -/
def gimp_attribution_is_empty (attrib : GimpAttribution) : Bool :=
  librdf_model_size attrib.model == 0

/-- Modelled from the spec: a serializer object of the library: its syntax
name, the features set on it and the namespaces set on it as (URI, short name),
each in the order of the calls. -/
structure librdf_serializer where
  name : String
  features : List (String × String)
  namespaces : List (String × String)
  deriving DecidableEq, Repr

/-- Modelled from the spec: a new serializer for a syntax, nothing set. -/
def librdf_new_serializer (name : String) : librdf_serializer :=
  ⟨name, [], []⟩

/-- Modelled from the spec: set a feature of the serializer to a literal value. -/
def librdf_serializer_set_feature (s : librdf_serializer) (feature value : String) :
    librdf_serializer :=
  { s with features := s.features ++ [(feature, value)] }

/-- Modelled from the spec: set a namespace of the serializer ("ordered mapping
of short-name → URI"). -/
def librdf_serializer_set_namespace (s : librdf_serializer) (uri pfx : String) :
    librdf_serializer :=
  { s with namespaces := s.namespaces ++ [(uri, pfx)] }

/-- The serializer as `gimp_attribution_serialize_rdf` configures it: syntax
`rdfxml-abbrev`, two features, five namespaces. -/
def gimp_attribution_serializer : librdf_serializer :=
  let uri_dc := "http://purl.org/dc/elements/1.1/"
  let uri_dcterms := "http://purl.org/dc/terms/"
  let uri_cc := "http://creativecommons.org/ns#"
  let uri_xhv := "http://www.w3.org/1999/xhtml/vocab#"
  let uri_og := "http://ogp.me/ns#"
  let serializer := librdf_new_serializer "rdfxml-abbrev"
  let serializer := librdf_serializer_set_feature serializer
    "http://feature.librdf.org/raptor-relativeURIs" "1"
  let serializer := librdf_serializer_set_feature serializer
    "http://feature.librdf.org/raptor-writeBaseURI" "0"
  let serializer := librdf_serializer_set_namespace serializer uri_dc "dc"
  let serializer := librdf_serializer_set_namespace serializer uri_dcterms "dcterms"
  let serializer := librdf_serializer_set_namespace serializer uri_cc "cc"
  let serializer := librdf_serializer_set_namespace serializer uri_xhv "xhv"
  let serializer := librdf_serializer_set_namespace serializer uri_og "og"
  serializer

/-- The models a run of `gimp_attribution_serialize_rdf` can touch: the model
of `attrib`, the model of `image_attrib` when that is not `NULL`, and the
scratch model `serialize_model`. -/
structure serialize_rdf_state where
  attrib : GimpAttribution
  image_attrib : Option GimpAttribution
  serialize_model : librdf_model
  deriving DecidableEq, Repr

/-- The body of `gimp_attribution_serialize_rdf` up to the call of the
serializer: the scratch model is filled from the stream of `attrib`, and when
`image_attrib` is not `NULL` with the link statement and the stream of
`image_attrib`.  Returns the base URI and the state of the three models. -/
def gimp_attribution_serialize_rdf_fill (attrib : GimpAttribution)
    (image_attrib : Option GimpAttribution) : String × serialize_rdf_state :=
  let st : serialize_rdf_state := ⟨attrib, image_attrib, []⟩
  let orig_stream := librdf_model_as_stream st.attrib.model
  let st := { st with
    serialize_model := (librdf_model_add_statements st.serialize_model orig_stream).1 }
  match st.image_attrib with
  | some image =>
      let base_uri := "about:that"
      let st := { st with
        serialize_model := librdf_model_add st.serialize_model
          (librdf_new_node_from_uri_string "about:that")
          (librdf_new_node_from_uri_string "http://purl.org/dc/elements/1.1/source")
          (librdf_new_node_from_uri_string "about:this") }
      let other_stream := librdf_model_as_stream image.model
      let st := { st with
        serialize_model := (librdf_model_add_statements st.serialize_model other_stream).1 }
      (base_uri, st)
  | none =>
      let base_uri := "about:this"
      (base_uri, st)

/-- The `gimp_attribution_serialize_rdf (attrib, image_attrib)` call.  The
serializer of the library is the parameter
`librdf_serializer_serialize_model_to_string`; the result is what it returns
for the configured serializer, the base URI and the scratch model, together
with `attrib` and `image_attrib` as they are after the call (the scratch model
is freed). -/
def gimp_attribution_serialize_rdf {α : Type}
    (librdf_serializer_serialize_model_to_string :
      librdf_serializer → String → librdf_model → α)
    (attrib : GimpAttribution) (image_attrib : Option GimpAttribution) :
    α × GimpAttribution × Option GimpAttribution :=
  let filled := gimp_attribution_serialize_rdf_fill attrib image_attrib
  let base_uri := filled.1
  let st := filled.2
  let serializer := gimp_attribution_serializer
  let result := librdf_serializer_serialize_model_to_string serializer base_uri st.serialize_model
  (result, st.attrib, st.image_attrib)

/-! ## Loading (gimpattribution.c) -/

/-- Modelled from the spec: glib's `g_strstr_len (haystack, -1, needle)` is the
offset of "the first" occurrence of `needle` in `haystack`, `NULL` when there
is none. -/
def g_strstr_len : List Char → List Char → Option Nat
  | [], needle => if needle.isPrefixOf [] then some 0 else none
  | c :: rest, needle =>
      if needle.isPrefixOf (c :: rest) then some 0
      else (g_strstr_len rest needle).map (fun k => k + 1)

/-- Modelled from the spec: glib's `g_strrstr (haystack, needle)` is the offset
of the "last" occurrence of `needle` in `haystack`, `NULL` when there is none. -/
def g_strrstr : List Char → List Char → Option Nat
  | [], needle => if needle.isPrefixOf [] then some 0 else none
  | c :: rest, needle =>
      match g_strrstr rest needle with
      | some k => some (k + 1)
      | none => if needle.isPrefixOf (c :: rest) then some 0 else none

/-- The conversion of a pointer difference to the unsigned `gsize` parameter of
`g_strndup` (64 bits). -/
def gsize_of_ptrdiff (d : Int) : Nat :=
  (d % 2 ^ 64).toNat

/-- Modelled from the spec: glib's `g_strndup (str, n)` for `str` not `NULL`:
the first `n` characters of the string, all of it when it is shorter (the
allocation of the `n + 1` characters of the copy is taken to succeed). -/
def g_strndup (str : List Char) (n : Nat) : List Char :=
  str.take n

/-- The `gimp_attribution_load_from_string_with_uri` call.  The parser of the
library is the parameter `librdf_parser_parse_string_into_model`: from the
text, the base URI and the model it gives an error code and the model as the
parser leaves it. -/
def gimp_attribution_load_from_string_with_uri
    (librdf_parser_parse_string_into_model :
      List Char → Option String → librdf_model → Int × librdf_model)
    (attrib : GimpAttribution) (rdf_xml : List Char) (uri : Option String) :
    Bool × GimpAttribution :=
  let parsed := librdf_parser_parse_string_into_model rdf_xml uri attrib.model
  let error := parsed.1
  (error == 0, { attrib with model := parsed.2 })

/-- The `gimp_attribution_load_from_file_with_uri` call.  `g_file_get_contents`
gives the contents of a file, or `none` when it fails; the parser of the
library takes in addition the length of the contents. -/
def gimp_attribution_load_from_file_with_uri
    (g_file_get_contents : String → Option (List Char))
    (librdf_parser_parse_counted_string_into_model :
      List Char → Nat → Option String → librdf_model → Int × librdf_model)
    (attrib : GimpAttribution) (filename : String) (uri : Option String) :
    Bool × GimpAttribution :=
  match g_file_get_contents filename with
  | some contents =>
      let length := contents.length
      let parsed :=
        librdf_parser_parse_counted_string_into_model contents length uri attrib.model
      let error := parsed.1
      (error == 0, { attrib with model := parsed.2 })
  | none => (false, attrib)

/-- The `gimp_attribution_load_from_string` call: base URI about:this. -/
def gimp_attribution_load_from_string
    (librdf_parser_parse_string_into_model :
      List Char → Option String → librdf_model → Int × librdf_model)
    (attrib : GimpAttribution) (rdf_xml : List Char) : Bool × GimpAttribution :=
  let uri := librdf_new_uri "about:this"
  gimp_attribution_load_from_string_with_uri librdf_parser_parse_string_into_model
    attrib rdf_xml uri

/-- The `gimp_attribution_load_from_file` call: base URI about:this. -/
def gimp_attribution_load_from_file
    (g_file_get_contents : String → Option (List Char))
    (librdf_parser_parse_counted_string_into_model :
      List Char → Nat → Option String → librdf_model → Int × librdf_model)
    (attrib : GimpAttribution) (filename : String) : Bool × GimpAttribution :=
  let uri := librdf_new_uri "about:this"
  gimp_attribution_load_from_file_with_uri g_file_get_contents
    librdf_parser_parse_counted_string_into_model attrib filename uri

/-- The ways `gimp_attribution_load_from_xmp` leaves its body without
`return result`. -/
inductive load_from_xmp_fault where
  /-- `g_strrstr (...) + 10` with `g_strrstr` returning `NULL`: arithmetic on
  the null pointer, which has no defined result. -/
  | null_pointer_arithmetic
  /-- `g_return_if_fail (rdf != NULL)` in a function that returns `gboolean`:
  a `return` without a value. -/
  | return_without_value
  deriving DecidableEq, Repr

/-- The `gimp_attribution_load_from_xmp (attrib, packet, base_uri)` call.
`rdf_start` and the result of `g_strrstr` are offsets into `packet`, `none`
for `NULL`; `g_strndup` of a `NULL` string is `NULL`.  On the path that reaches
the parser the result is that of `gimp_attribution_load_from_string_with_uri`. -/
def gimp_attribution_load_from_xmp
    (librdf_parser_parse_string_into_model :
      List Char → Option String → librdf_model → Int × librdf_model)
    (attrib : GimpAttribution) (packet : List Char) (base_uri : String) :
    Except load_from_xmp_fault (Bool × GimpAttribution) :=
  let rdf_start := g_strstr_len packet "<rdf:RDF".toList
  match g_strrstr packet "</rdf:RDF>".toList with
  | none => Except.error load_from_xmp_fault.null_pointer_arithmetic
  | some last =>
      let rdf_end := last + 10
      let rdf := rdf_start.map (fun start =>
        g_strndup (packet.drop start) (gsize_of_ptrdiff ((rdf_end : Int) - (start : Int))))
      match rdf with
      | none => Except.error load_from_xmp_fault.return_without_value
      | some rdf =>
          let attrib := { attrib with
            model := librdf_model_add attrib.model
              (librdf_new_node_from_uri_string "about:this")
              (librdf_new_node_from_uri_string "http://purl.org/dc/elements/1.1/source")
              (librdf_new_node_from_uri_string base_uri) }
          let uri := librdf_new_uri base_uri
          Except.ok (gimp_attribution_load_from_string_with_uri
            librdf_parser_parse_string_into_model attrib rdf uri)

/-! ## gimpvocab.c -/

/-- A namespace of the raptor library: a short name and the namespace URI. -/
structure raptor_namespace where
  pfx : String
  uri : String
  deriving DecidableEq, Repr

/-- The namespace stack of the raptor library, most recently started namespace
first. -/
abbrev raptor_namespace_stack := List raptor_namespace

/-- A qualified name of the raptor library: a namespace and a local name. -/
structure raptor_qname where
  nspace : raptor_namespace
  local_name : String
  deriving DecidableEq, Repr

/-- The vocabulary object; of `_GimpVocabPrivate` only the namespace stack
carries data. -/
structure GimpVocab where
  namespaces : raptor_namespace_stack
  deriving DecidableEq, Repr

/-- Modelled from the spec: `raptor_namespaces_start_namespace_full` registers
one more "prefix → base-URI" pair on the stack. -/
def raptor_namespaces_start_namespace_full (nstack : raptor_namespace_stack)
    (pfx ns_uri : String) : raptor_namespace_stack :=
  ⟨pfx, ns_uri⟩ :: nstack

/-- The `gimp_vocab_init` initialiser.  The stack that the library call
`raptor_new_namespaces (world, 3)` returns is the parameter
`raptor_new_namespaces` applied to 3; the five namespaces are started on it. -/
def gimp_vocab_init (raptor_new_namespaces : Nat → raptor_namespace_stack) : GimpVocab :=
  let namespaces := raptor_new_namespaces 3
  let namespaces := raptor_namespaces_start_namespace_full namespaces
    "dc" "http://purl.org/dc/elements/1.1/"
  let namespaces := raptor_namespaces_start_namespace_full namespaces
    "dcterms" "http://purl.org/dc/terms/"
  let namespaces := raptor_namespaces_start_namespace_full namespaces
    "cc" "http://creativecommons.org/ns#"
  let namespaces := raptor_namespaces_start_namespace_full namespaces
    "xhv" "http://www.w3.org/1999/xhtml/vocab#"
  let namespaces := raptor_namespaces_start_namespace_full namespaces
    "og" "http://ogp.me/ns#"
  ⟨namespaces⟩

/-- Modelled from the spec: a URI object of raptor is its URI string; there is
none (`NULL`) for the empty string. -/
def raptor_new_uri (uri_string : String) : Option String :=
  if uri_string = "" then none else some uri_string

/-- Modelled from the spec: `raptor_new_qname_from_namespace_uri`, the lookup
of a URI among the registered namespaces (the registry is "looked up by
longest-matching URI prefix").  The library walks the stack and takes the first
namespace whose URI is a proper initial part of the URI and leaves a rest that
`raptor_xml_name_check` accepts as a name of the given XML version; it makes
the qualified name of that namespace and that rest, and `NULL` when there is
none.  When no registered namespace URI is an initial part of another, at most
one namespace matches and the first match is the longest.  The name check of
the library is a parameter. -/
def raptor_new_qname_from_namespace_uri (raptor_xml_name_check : String → Nat → Bool)
    (nstack : raptor_namespace_stack) (uri : Option String) (xml_version : Nat) :
    Option raptor_qname :=
  match uri with
  | none => none
  | some uri_string =>
      (nstack.find? (fun ns =>
          decide (ns.uri.data.length < uri_string.data.length)
            && ns.uri.data.isPrefixOf uri_string.data
            && raptor_xml_name_check
                (String.mk (uri_string.data.drop ns.uri.data.length)) xml_version)).map
        (fun ns => ⟨ns, String.mk (uri_string.data.drop ns.uri.data.length)⟩)

/-- The `gimp_vocab_get_short_uri (vocab, uri)` call: the URI itself when no
qualified name is found, otherwise the short name of the namespace, a colon and
the local name. -/
def gimp_vocab_get_short_uri (raptor_xml_name_check : String → Nat → Bool)
    (vocab : GimpVocab) (uri : String) : String :=
  let ruri := raptor_new_uri uri
  let qname := raptor_new_qname_from_namespace_uri raptor_xml_name_check
    vocab.namespaces ruri 10
  match qname with
  | none => uri
  | some qname =>
      let local_name := qname.local_name
      let pfx := qname.nspace.pfx
      pfx ++ ":" ++ local_name

/-! ## Queries and metadata (gimp_attribution_write_metadata) -/

/-- A term of a triple pattern: a variable `?name` or a URI (a prefixed name is
written with its prefix expanded). -/
inductive sparql_term where
  | var (name : String)
  | uri (u : String)
  deriving DecidableEq, Repr

/-- A triple pattern of a query. -/
structure sparql_triple where
  s : sparql_term
  p : sparql_term
  o : sparql_term
  deriving DecidableEq, Repr

/-- The filter expressions the queries use: `isLiteral(?v)`, `isURI(?v)`,
`a || b` and `?v != <u>`. -/
inductive sparql_expr where
  | isLiteral (v : String)
  | isURI (v : String)
  | or (a b : sparql_expr)
  | ne_uri (v : String) (u : String)
  deriving DecidableEq, Repr

/-- A graph pattern: a triple pattern, the conjunction of two patterns of one
group, `UNION`, and a group with a `FILTER`. -/
inductive sparql_pattern where
  | triple (t : sparql_triple)
  | join (a b : sparql_pattern)
  | union (a b : sparql_pattern)
  | filter (e : sparql_expr) (a : sparql_pattern)
  deriving DecidableEq, Repr

/-- A query `SELECT ?v1 ?v2 ... WHERE { pattern }`. -/
structure sparql_query where
  select : List String
  pattern : sparql_pattern
  deriving DecidableEq, Repr

/-- Modelled from the spec: a binding row, a "mapping from variable name to
Node", in the order in which the variables were bound. -/
abbrev sparql_binding := List (String × librdf_node)

/-- Modelled from the spec: the node bound to a variable in a row, `NULL` when
the variable is not bound. -/
def librdf_query_results_get_binding_value_by_name (row : sparql_binding) (name : String) :
    Option librdf_node :=
  row.lookup name

/-- Modelled from the spec: one term of a triple pattern against one node of a
statement under a candidate row: a URI must be that resource, a bound variable
must be bound to that node ("joining on shared variables"), an unbound variable
becomes bound to it. -/
def sparql_match_term (t : sparql_term) (n : librdf_node) (row : sparql_binding) :
    Option sparql_binding :=
  match t with
  | sparql_term.uri u => if n = librdf_node.resource u then some row else none
  | sparql_term.var v =>
      match librdf_query_results_get_binding_value_by_name row v with
      | some bound => if bound = n then some row else none
      | none => some (row ++ [(v, n)])

/-- Modelled from the spec: a triple pattern against one statement under a
candidate row: subject, predicate and object in turn. -/
def sparql_match_triple (t : sparql_triple) (st : librdf_statement) (row : sparql_binding) :
    Option sparql_binding :=
  (sparql_match_term t.s st.subject row).bind (fun row =>
    (sparql_match_term t.p st.predicate row).bind (fun row =>
      sparql_match_term t.o st.object row))

/-- Modelled from the spec: a `FILTER` expression on a row; an expression over
an unbound variable does not hold. -/
def sparql_expr_holds (row : sparql_binding) : sparql_expr → Bool
  | sparql_expr.isLiteral v =>
      match librdf_query_results_get_binding_value_by_name row v with
      | some (librdf_node.literal _ _ _) => true
      | _ => false
  | sparql_expr.isURI v =>
      match librdf_query_results_get_binding_value_by_name row v with
      | some (librdf_node.resource _) => true
      | _ => false
  | sparql_expr.or a b => sparql_expr_holds row a || sparql_expr_holds row b
  | sparql_expr.ne_uri v u =>
      match librdf_query_results_get_binding_value_by_name row v with
      | some n => decide (n ≠ librdf_node.resource u)
      | none => false

/-- Modelled from the spec: the evaluation of a graph pattern from a candidate
row: "for each triple pattern within the branch conjunction, narrow the
candidate binding set by pattern-matching against the Model (joining on shared
variables across patterns within the same branch); apply FILTER predicates to
prune candidate rows; concatenate results across branches (UNION is row-level
union, not deduplicated)".  The statements are matched in insertion order. -/
def sparql_eval : sparql_pattern → librdf_model → sparql_binding → List sparql_binding
  | sparql_pattern.triple t, m, row => m.filterMap (fun st => sparql_match_triple t st row)
  | sparql_pattern.join a b, m, row =>
      (sparql_eval a m row).flatMap (fun row => sparql_eval b m row)
  | sparql_pattern.union a b, m, row => sparql_eval a m row ++ sparql_eval b m row
  | sparql_pattern.filter e a, m, row =>
      (sparql_eval a m row).filter (fun row => sparql_expr_holds row e)

/-- Modelled from the spec: the execution of a query "produces a sequence of
binding rows"; a row keeps the variables of the `SELECT` clause. -/
def librdf_model_query_execute (m : librdf_model) (q : sparql_query) : List sparql_binding :=
  (sparql_eval q.pattern m []).map (fun row => row.filter (fun b => q.select.contains b.1))

/-- The group `{ ?subject <p> ?o . }` of one triple pattern with a URI
predicate. -/
def sparql_subject_pattern (p : String) (o : String) : sparql_pattern :=
  sparql_pattern.triple ⟨sparql_term.var "subject", sparql_term.uri p, sparql_term.var o⟩

/-- The expression `isLiteral(?label) || isURI(?label)`. -/
def sparql_label_is_value : sparql_expr :=
  sparql_expr.or (sparql_expr.isLiteral "label") (sparql_expr.isURI "label")

/-- The pattern `?node a <container> .` (`a` is rdf:type). -/
def sparql_node_type (container : String) : sparql_pattern :=
  sparql_pattern.triple ⟨sparql_term.var "node",
    sparql_term.uri "http://www.w3.org/1999/02/22-rdf-syntax-ns#type",
    sparql_term.uri container⟩

/-- The `source_query_string` of `gimp_attribution_write_metadata`, with the
prefixes dc, dcterms and rdf expanded: four groups joined by `UNION`. -/
def source_query : sparql_query :=
  { select := ["subject", "label"],
    pattern :=
      sparql_pattern.union
        (sparql_pattern.union
          (sparql_pattern.union
            -- { ?subject dc:source ?label } UNION { ?subject dcterms:source ?label }
            -- FILTER(isLiteral(?label) || isURI(?label))
            (sparql_pattern.filter sparql_label_is_value
              (sparql_pattern.union
                (sparql_subject_pattern "http://purl.org/dc/elements/1.1/source" "label")
                (sparql_subject_pattern "http://purl.org/dc/terms/source" "label")))
            -- ... ?node a rdf:Seq . ?node ?pred ?label . FILTER(...) FILTER(?label != rdf:Seq)
            (sparql_pattern.filter
              (sparql_expr.ne_uri "label" "http://www.w3.org/1999/02/22-rdf-syntax-ns#Seq")
              (sparql_pattern.filter sparql_label_is_value
                (sparql_pattern.join
                  (sparql_pattern.join
                    (sparql_pattern.union
                      (sparql_subject_pattern "http://purl.org/dc/elements/1.1/source" "node")
                      (sparql_subject_pattern "http://purl.org/dc/terms/source" "node"))
                    (sparql_node_type "http://www.w3.org/1999/02/22-rdf-syntax-ns#Seq"))
                  (sparql_pattern.triple ⟨sparql_term.var "node", sparql_term.var "pred",
                    sparql_term.var "label"⟩)))))
          -- ... ?node a rdf:Bag . ?node ?pred ?label . FILTER(...) FILTER(?label != rdf:Bag)
          (sparql_pattern.filter
            (sparql_expr.ne_uri "label" "http://www.w3.org/1999/02/22-rdf-syntax-ns#Bag")
            (sparql_pattern.filter sparql_label_is_value
              (sparql_pattern.join
                (sparql_pattern.join
                  (sparql_pattern.union
                    (sparql_subject_pattern "http://purl.org/dc/elements/1.1/source" "node")
                    (sparql_subject_pattern "http://purl.org/dc/terms/source" "node"))
                  (sparql_node_type "http://www.w3.org/1999/02/22-rdf-syntax-ns#Bag"))
                (sparql_pattern.triple ⟨sparql_term.var "node", sparql_term.var "pred",
                  sparql_term.var "label"⟩)))))
        -- ... ?node a rdf:Alt . ?node rdf:_1 ?label . FILTER(...)
        (sparql_pattern.filter sparql_label_is_value
          (sparql_pattern.join
            (sparql_pattern.join
              (sparql_pattern.union
                (sparql_subject_pattern "http://purl.org/dc/elements/1.1/source" "node")
                (sparql_subject_pattern "http://purl.org/dc/terms/source" "node"))
              (sparql_node_type "http://www.w3.org/1999/02/22-rdf-syntax-ns#Alt"))
            (sparql_pattern.triple ⟨sparql_term.var "node",
              sparql_term.uri "http://www.w3.org/1999/02/22-rdf-syntax-ns#_1",
              sparql_term.var "label"⟩))) }

/-- The `creator_query_string` of `gimp_attribution_write_metadata`, with the
prefixes dc, dcterms and rdf expanded; `<twitter:creator>` and
`<cc:attributionName>` are written as URIs in the query and stay as they are. -/
def creator_query : sparql_query :=
  { select := ["subject", "label"],
    pattern :=
      sparql_pattern.union
        (sparql_pattern.union
          (sparql_pattern.union
            (sparql_pattern.filter sparql_label_is_value
              (sparql_pattern.union
                (sparql_pattern.union
                  (sparql_pattern.union
                    (sparql_subject_pattern "http://purl.org/dc/elements/1.1/creator" "label")
                    (sparql_subject_pattern "http://purl.org/dc/terms/creator" "label"))
                  (sparql_subject_pattern "twitter:creator" "label"))
                (sparql_subject_pattern "cc:attributionName" "label")))
            (sparql_pattern.filter
              (sparql_expr.ne_uri "label" "http://www.w3.org/1999/02/22-rdf-syntax-ns#Seq")
              (sparql_pattern.filter sparql_label_is_value
                (sparql_pattern.join
                  (sparql_pattern.join
                    (sparql_pattern.union
                      (sparql_subject_pattern "http://purl.org/dc/elements/1.1/creator" "node")
                      (sparql_subject_pattern "http://purl.org/dc/terms/creator" "node"))
                    (sparql_node_type "http://www.w3.org/1999/02/22-rdf-syntax-ns#Seq"))
                  (sparql_pattern.triple ⟨sparql_term.var "node", sparql_term.var "pred",
                    sparql_term.var "label"⟩)))))
          (sparql_pattern.filter
            (sparql_expr.ne_uri "label" "http://www.w3.org/1999/02/22-rdf-syntax-ns#Bag")
            (sparql_pattern.filter sparql_label_is_value
              (sparql_pattern.join
                (sparql_pattern.join
                  (sparql_pattern.union
                    (sparql_subject_pattern "http://purl.org/dc/elements/1.1/creator" "node")
                    (sparql_subject_pattern "http://purl.org/dc/terms/creator" "node"))
                  (sparql_node_type "http://www.w3.org/1999/02/22-rdf-syntax-ns#Bag"))
                (sparql_pattern.triple ⟨sparql_term.var "node", sparql_term.var "pred",
                  sparql_term.var "label"⟩)))))
        (sparql_pattern.filter sparql_label_is_value
          (sparql_pattern.join
            (sparql_pattern.join
              (sparql_pattern.union
                (sparql_subject_pattern "http://purl.org/dc/elements/1.1/creator" "node")
                (sparql_subject_pattern "http://purl.org/dc/terms/creator" "node"))
              (sparql_node_type "http://www.w3.org/1999/02/22-rdf-syntax-ns#Alt"))
            (sparql_pattern.triple ⟨sparql_term.var "node",
              sparql_term.uri "http://www.w3.org/1999/02/22-rdf-syntax-ns#_1",
              sparql_term.var "label"⟩))) }

/-- Modelled from the spec: the tag store of the metadata object, for each tag
name an "ordered sequence of string". -/
abbrev GExiv2Metadata := String → List String

/-- Modelled from the spec: `get_tag_multiple(name)`. -/
def gexiv2_metadata_get_tag_multiple (metadata : GExiv2Metadata) (tagname : String) :
    List String :=
  metadata tagname

/-- Modelled from the spec: `set_tag_multiple(name, values)`. -/
def gexiv2_metadata_set_tag_multiple (metadata : GExiv2Metadata) (tagname : String)
    (values : List String) : GExiv2Metadata :=
  fun t => if t = tagname then values else metadata t

/-- Modelled from the spec: `clear_tag(name)`. -/
def gexiv2_metadata_clear_tag (metadata : GExiv2Metadata) (tagname : String) :
    GExiv2Metadata :=
  fun t => if t = tagname then [] else metadata t

/-- The `while (values[length - 1] != NULL)` loop of the static
`gimp_metadata_append_tag_value` of gimpattribution.c, over the entries from
index `length - 1` on: `none` when an entry equals `value` (the function
returns), otherwise the final `length`. -/
def gimp_metadata_append_tag_value_scan (value : String) : List String → Nat → Option Nat
  | [], length => some length
  | v :: rest, length =>
      if v = value then none
      else gimp_metadata_append_tag_value_scan value rest (length + 1)

/-- The static `gimp_metadata_append_tag_value (metadata, tagname, value)` of
gimpattribution.c: nothing when the value is in the list, otherwise the first
`length - 1` entries are copied, the value is put behind them and the list is
set. -/
def gimp_metadata_append_tag_value (metadata : GExiv2Metadata) (tagname value : String) :
    GExiv2Metadata :=
  let values := gexiv2_metadata_get_tag_multiple metadata tagname
  match gimp_metadata_append_tag_value_scan value values 1 with
  | none => metadata
  | some length =>
      let temp := values.take (length - 1) ++ [value]
      gexiv2_metadata_set_tag_multiple metadata tagname temp

/-- The value that a pass of a `while (!librdf_query_results_finished ...)`
loop of `gimp_attribution_write_metadata` takes from the node bound to `label`:
the string of a literal, the URI of a resource, `NULL` for a blank node (a
message is printed) and for no node. -/
def gimp_attribution_write_metadata_value (node : Option librdf_node) : Option String :=
  match node with
  | some (librdf_node.literal value _ _) => some value
  | some (librdf_node.resource uri) => some uri
  | some (librdf_node.blank _) => none
  | none => none

/-- A `while (!librdf_query_results_finished (results))` loop of
`gimp_attribution_write_metadata` over the result rows: a value that is not
`NULL` is appended to the tag, and the loop goes on to the next row. -/
def gimp_attribution_write_metadata_rows (tagname : String) :
    List sparql_binding → GExiv2Metadata → GExiv2Metadata
  | [], metadata => metadata
  | row :: rest, metadata =>
      let node := librdf_query_results_get_binding_value_by_name row "label"
      let value := gimp_attribution_write_metadata_value node
      let metadata :=
        match value with
        | some value => gimp_metadata_append_tag_value metadata tagname value
        | none => metadata
      gimp_attribution_write_metadata_rows tagname rest metadata

/-- The `gimp_attribution_write_metadata (attrib, metadata)` call: the tag
Xmp.dc.source is cleared and filled from the rows of the source query, then the
tag Xmp.dc.creator from the rows of the creator query. -/
def gimp_attribution_write_metadata (attrib : GimpAttribution) (metadata : GExiv2Metadata) :
    GExiv2Metadata :=
  let metadata := gexiv2_metadata_clear_tag metadata "Xmp.dc.source"
  let results := librdf_model_query_execute attrib.model source_query
  let metadata := gimp_attribution_write_metadata_rows "Xmp.dc.source" results metadata
  let metadata := gexiv2_metadata_clear_tag metadata "Xmp.dc.creator"
  let results := librdf_model_query_execute attrib.model creator_query
  let metadata := gimp_attribution_write_metadata_rows "Xmp.dc.creator" results metadata
  metadata

/-- Modelled from the spec: the URI of the container membership property
rdf:_k (`rdf:_1`, `rdf:_2`, ...). -/
def rdf_li (k : Nat) : String :=
  "http://www.w3.org/1999/02/22-rdf-syntax-ns#_" ++ toString k

/-! ## attribution-dialog.c -/

/-- Modelled from the spec: `remove(statement)` "removes one matching occurrence
(by value equality), if present; no-op if absent". -/
def librdf_model_remove_statement (m : librdf_model) (st : librdf_statement) : librdf_model :=
  m.erase st

/-- Modelled from the spec: a statement built from three nodes, each of which
may be `NULL`; as a query "any field" may be "Unbound". -/
def librdf_new_statement_from_nodes (s p o : Option librdf_node) : librdf_pattern :=
  ⟨s, p, o⟩

/-- Modelled from the spec: the string of a `Literal{value, ...}` node; `NULL`
for a node of another variant. -/
def librdf_node_get_literal_value (n : librdf_node) : Option String :=
  match n with
  | librdf_node.literal value _ _ => some value
  | _ => none

/-- The `attrib_dialog_get_property_value (attrib, uri)` call: the literal
value of the object of the first statement (about:this, uri, any object),
`NULL` when there is no such statement. -/
def attrib_dialog_get_property_value (attrib : GimpAttribution) (uri : String) :
    Option String :=
  let pattern := librdf_new_statement_from_nodes
    (some (librdf_new_node_from_uri_string "about:this"))
    (some (librdf_new_node_from_uri_string uri))
    none
  let stream := librdf_model_find_statements attrib.model pattern
  let statement := librdf_stream_get_object stream
  match statement with
  | some statement =>
      let node := statement.object
      librdf_node_get_literal_value node
  | none => none

/-- The `while (!librdf_stream_end (stream))` loop of
`attrib_dialog_set_property_value`, over the statements the stream still
delivers: each one is removed from the model. -/
def attrib_dialog_set_property_value_loop : List librdf_statement → librdf_model → librdf_model
  | [], model => model
  | statement :: rest, model =>
      attrib_dialog_set_property_value_loop rest (librdf_model_remove_statement model statement)

/-- The `attrib_dialog_set_property_value (attrib, uri, value)` call: the
statements found for (about:this, uri, any object) are removed, then the
statement (about:this, uri, literal value) is added. -/
def attrib_dialog_set_property_value (attrib : GimpAttribution) (uri value : String) :
    GimpAttribution :=
  let pattern := librdf_new_statement_from_nodes
    (some (librdf_new_node_from_uri_string "about:this"))
    (some (librdf_new_node_from_uri_string uri))
    none
  let stream := librdf_model_find_statements attrib.model pattern
  let model := attrib_dialog_set_property_value_loop stream.pending attrib.model
  let statement : librdf_statement :=
    ⟨librdf_new_node_from_uri_string "about:this", librdf_new_node_from_uri_string uri,
      librdf_node.literal value none none⟩
  { attrib with model := librdf_model_add_statement model statement }

/-- Modelled from the spec: a row of the "tree-structured view" of the display
interface: the row it hangs under (`none` for a top-level row) and the
"(name, value)" pair of its two columns. -/
structure GtkTreeRow where
  parent : Option Nat
  name : Option String
  value : Option String
  deriving DecidableEq, Repr

/-- Modelled from the spec: the tree store of the display interface, its rows
in the order in which they were appended; an iterator is the index of a row. -/
abbrev GtkTreeStore := List GtkTreeRow

/-- Modelled from the spec: `gtk_tree_store_append (model, &iter, parent)`
followed by `gtk_tree_store_set` of the two columns: a new row under `parent`;
gives the store and the iterator of the new row. -/
def gtk_tree_store_append_set (model : GtkTreeStore) (parent : Option Nat)
    (name value : Option String) : GtkTreeStore × Nat :=
  (model ++ [⟨parent, name, value⟩], model.length)

/-- The `attrib_dialog_fill_model (attrib, subject, model, iter, vocab)` call.
For every statement with the given subject a row is appended under `iter`; for
a resource object of a dc:source statement a top-level row `(source)` is
appended and the function calls itself on the object, and for a blank object it
calls itself on the object under the new row.  The first argument bounds the
depth of these calls: `none` means that the bound was reached before the call
returned. -/
def attrib_dialog_fill_model (raptor_xml_name_check : String → Nat → Bool) :
    Nat → GimpAttribution → librdf_node → GtkTreeStore → Option Nat → GimpVocab →
      Option GtkTreeStore
  | 0, _, _, _, _, _ => none
  | depth + 1, attrib, subject, model, iter, vocab =>
      let dc_source :=
        librdf_new_node_from_uri_string "http://purl.org/dc/elements/1.1/source"
      let pattern := librdf_new_statement_from_nodes (some subject) none none
      let stream := librdf_model_find_statements attrib.model pattern
      stream.pending.foldlM
        (fun model statement =>
          let object := statement.object
          let predicate := statement.predicate
          let name := (librdf_node_get_uri predicate).map
            (gimp_vocab_get_short_uri raptor_xml_name_check vocab)
          match object with
          | librdf_node.literal value _ _ =>
              some (gtk_tree_store_append_set model iter name (some value)).1
          | librdf_node.resource uri =>
              let value := gimp_vocab_get_short_uri raptor_xml_name_check vocab uri
              let model := (gtk_tree_store_append_set model iter name (some value)).1
              if predicate = dc_source then
                let appended := gtk_tree_store_append_set model none (some "(source)")
                  (some value)
                attrib_dialog_fill_model raptor_xml_name_check depth attrib object
                  appended.1 (some appended.2) vocab
              else
                some model
          | librdf_node.blank _ =>
              let appended := gtk_tree_store_append_set model iter name (some "Blank node")
              attrib_dialog_fill_model raptor_xml_name_check depth attrib object
                appended.1 (some appended.2) vocab)
        model

/-! ## libgimpbase/gimpmetadata.c -/

/-- The `tiff_tags` table. -/
def tiff_tags : List String :=
  [ "Xmp.tiff",
    "Exif.Image.ImageWidth",
    "Exif.Image.ImageLength",
    "Exif.Image.BitsPerSample",
    "Exif.Image.Compression",
    "Exif.Image.PhotometricInterpretation",
    "Exif.Image.FillOrder",
    "Exif.Image.SamplesPerPixel",
    "Exif.Image.StripOffsets",
    "Exif.Image.RowsPerStrip",
    "Exif.Image.StripByteCounts",
    "Exif.Image.PlanarConfiguration" ]

/-- The `jpeg_tags` table. -/
def jpeg_tags : List String :=
  [ "Exif.Image.JPEGProc",
    "Exif.Image.JPEGInterchangeFormat",
    "Exif.Image.JPEGInterchangeFormatLength",
    "Exif.Image.JPEGRestartInterval",
    "Exif.Image.JPEGLosslessPredictors",
    "Exif.Image.JPEGPointTransforms",
    "Exif.Image.JPEGQTables",
    "Exif.Image.JPEGDCTables",
    "Exif.Image.JPEGACTables" ]

/-- The `unsupported_tags` table. -/
def unsupported_tags : List String :=
  [ "Exif.Image.SubIFDs",
    "Exif.Image.ClipPath",
    "Exif.Image.XClipPathUnits",
    "Exif.Image.YClipPathUnits",
    "Xmp.xmpMM.History",
    "Exif.Image.XPTitle",
    "Exif.Image.XPComment",
    "Exif.Image.XPAuthor",
    "Exif.Image.XPKeywords",
    "Exif.Image.XPSubject",
    "Exif.Image.DNGVersion",
    "Exif.Image.DNGBackwardVersion",
    "Exif.Iop" ]

/-- The glib call `g_str_has_prefix (str, pfx)`: `str` begins with `pfx`. -/
def g_str_has_prefix (str pfx : String) : Bool :=
  pfx.data.isPrefixOf str.data

/-- The `gimp_metadata_is_tag_supported (tag, mime_type)` call: each `for` loop
returns `FALSE` at the first table entry the tag begins with. -/
def gimp_metadata_is_tag_supported (tag mime_type : String) : Bool :=
  if unsupported_tags.any (fun entry => g_str_has_prefix tag entry) then
    false
  else if mime_type = "image/jpeg" then
    if tiff_tags.any (fun entry => g_str_has_prefix tag entry) then false else true
  else if mime_type = "image/tiff" then
    if jpeg_tags.any (fun entry => g_str_has_prefix tag entry) then false else true
  else
    true

/-- The `NULL`-terminated array that `gexiv2_metadata_get_tag_multiple` returns
for a list of values: the values, then `NULL`. -/
def g_strv_of_values (values : List String) : List (Option String) :=
  values.map some ++ [none]

/-- The list of values that a `NULL`-terminated array stands for: its entries
before the first `NULL`. -/
def g_strv_values : List (Option String) → List String
  | [] => []
  | none :: _ => []
  | some v :: rest => v :: g_strv_values rest

/-- The entry `values[i]` that C code reads: the entry of the array when `i` is
an index of it, and otherwise what lies behind the array in memory, which is
the parameter `beyond`. -/
def g_strv_read (values : List (Option String)) (beyond : Nat → Option String) (i : Nat) :
    Option String :=
  if h : i < values.length then values.get ⟨i, h⟩ else beyond i

/-- The `while (values[length - 1] != NULL) length++;` loop of
`gimp_metadata_append_tag_value` in gimpmetadata.c, over the entries from index
`length - 1` on: the final `length`. -/
def libgimpbase_append_tag_value_length : List (Option String) → Nat → Nat
  | [], length => length
  | none :: _, length => length
  | some _ :: rest, length => libgimpbase_append_tag_value_length rest (length + 1)

/-- The `gimp_metadata_append_tag_value (metadata, tagname, value)` call of
gimpmetadata.c (the function of gimpattribution.c with the same name is
static).  The copy loop `for (i = 0; i < length + 1; i++) temp[i] = values[i]`
reads the indices below `length + 1`; then `temp[length - 1]` becomes the value
and `temp[length]` becomes `NULL`.  Gives the metadata after the call and the
indices of `values` that the copy loop read. -/
def libgimpbase_gimp_metadata_append_tag_value (beyond : Nat → Option String)
    (metadata : GExiv2Metadata) (tagname value : String) : GExiv2Metadata × List Nat :=
  let values := g_strv_of_values (gexiv2_metadata_get_tag_multiple metadata tagname)
  let length := libgimpbase_append_tag_value_length values 1
  let reads := List.range (length + 1)
  let temp := reads.map (fun i => g_strv_read values beyond i)
  let temp := temp.set (length - 1) (some value)
  let temp := temp.set length none
  (gexiv2_metadata_set_tag_multiple metadata tagname (g_strv_values temp), reads)

/-- The `gimp_metadata_merge_creator (metadata1, metadata2)` call: both loops
append to the tag Xmp.dc.creator of `metadata1`, the first the values of
Xmp.dc.creator of `metadata2`, the second the values of its Xmp.dc.source.
Gives both metadata objects as they are after the call. -/
def gimp_metadata_merge_creator (beyond : Nat → Option String)
    (metadata1 metadata2 : GExiv2Metadata) : GExiv2Metadata × GExiv2Metadata :=
  let values := gexiv2_metadata_get_tag_multiple metadata2 "Xmp.dc.creator"
  let metadata1 := values.foldl
    (fun md value =>
      (libgimpbase_gimp_metadata_append_tag_value beyond md "Xmp.dc.creator" value).1)
    metadata1
  let values := gexiv2_metadata_get_tag_multiple metadata2 "Xmp.dc.source"
  let metadata1 := values.foldl
    (fun md value =>
      (libgimpbase_gimp_metadata_append_tag_value beyond md "Xmp.dc.creator" value).1)
    metadata1
  (metadata1, metadata2)

/-! ## Shared lemmas -/

theorem foldl_add_statement_eq_append (l : List librdf_statement) (m : librdf_model) :
    l.foldl librdf_model_add_statement m = m ++ l := by
  induction l generalizing m with
  | nil => simp
  | cons st rest ih => simp [List.foldl, ih, librdf_model_add_statement]

theorem librdf_model_add_statements_model (m : librdf_model) (s : librdf_stream) :
    (librdf_model_add_statements m s).1 = m ++ s.pending := by
  simp [librdf_model_add_statements, foldl_add_statement_eq_append]

theorem combine_check_loop_of_subset (rest : List librdf_statement) (m : librdf_model)
    (h : ∀ st ∈ rest, st ∈ m) :
    gimp_attribution_combine_check_loop rest m = (m, ⟨[]⟩) := by
  induction rest generalizing m with
  | nil => rfl
  | cons st rest ih =>
    have hst : st ∈ m := h st (List.mem_cons_self _ _)
    have hrest : ∀ x ∈ rest, x ∈ m := fun x hx => h x (List.mem_cons_of_mem _ hx)
    simp [gimp_attribution_combine_check_loop, librdf_model_contains_statement, hst, ih m hrest]

theorem combine_check_eq (attrib other : GimpAttribution) :
    gimp_attribution_combine_check attrib other = (attrib, other) := by
  simp [gimp_attribution_combine_check, librdf_model_as_stream,
    combine_check_loop_of_subset other.model other.model (fun _ h => h),
    librdf_model_add_statements]

theorem foldl_or_eq_any {α : Type} (f : α → Bool) (l : List α) (b : Bool) :
    l.foldl (fun result x => if f x then true else result) b = (b || l.any f) := by
  induction l generalizing b with
  | nil => simp
  | cons x rest ih =>
    simp only [List.foldl, List.any_cons, ih]
    cases b <;> cases f x <;> simp

/-! ## Claims -/

/-- C1: after `gimp_attribution_combine (attrib, other)` the statements of
`attrib` are its old statements followed by all statements of `other` in their
order, so their number is the sum of both; `other` is unchanged; combining the
same `other` a second time appends its statements a second time. -/
theorem gimp_attribution_combine_appends (a b : GimpAttribution) :
    (gimp_attribution_combine a b).1.model = a.model ++ b.model
    ∧ (gimp_attribution_combine a b).1.model.length = a.model.length + b.model.length
    ∧ (gimp_attribution_combine a b).2 = b
    ∧ (gimp_attribution_combine (gimp_attribution_combine a b).1
          (gimp_attribution_combine a b).2).1.model = a.model ++ b.model ++ b.model
    ∧ ∀ st, (gimp_attribution_combine (gimp_attribution_combine a b).1
          (gimp_attribution_combine a b).2).1.model.count st
        = a.model.count st + 2 * b.model.count st := by
  have h1 : ∀ x y : GimpAttribution, (gimp_attribution_combine x y).1.model = x.model ++ y.model := by
    intro x y
    simp [gimp_attribution_combine, librdf_model_add_statements_model, librdf_model_as_stream]
  have h2 : ∀ x y : GimpAttribution, (gimp_attribution_combine x y).2 = y := fun _ _ => rfl
  refine ⟨h1 a b, ?_, h2 a b, ?_, ?_⟩
  · rw [h1, List.length_append]
  · rw [h1, h2, h1]
  · intro st
    rw [h1, h2, h1, List.count_append, List.count_append]
    omega

/-- C2, evaluated on the code: `gimp_attribution_combine_check (attrib, other)`
leaves `attrib` as it was for all arguments; with `attrib` empty and `other`
holding the one statement (about:this, dc:creator, "Alice"), the model of
`attrib` is still empty after the call and does not contain that statement,
which `other` still holds. -/
theorem gimp_attribution_combine_check_adds_nothing :
    (∀ a b : GimpAttribution, (gimp_attribution_combine_check a b).1 = a)
    ∧ (gimp_attribution_combine_check gimp_attribution_new
        ⟨[⟨librdf_node.resource "about:this",
            librdf_node.resource "http://purl.org/dc/elements/1.1/creator",
            librdf_node.literal "Alice" none none⟩]⟩).1.model = []
    ∧ librdf_model_contains_statement
        (gimp_attribution_combine_check gimp_attribution_new
          ⟨[⟨librdf_node.resource "about:this",
              librdf_node.resource "http://purl.org/dc/elements/1.1/creator",
              librdf_node.literal "Alice" none none⟩]⟩).1.model
        ⟨librdf_node.resource "about:this",
          librdf_node.resource "http://purl.org/dc/elements/1.1/creator",
          librdf_node.literal "Alice" none none⟩ = false
    ∧ (gimp_attribution_combine_check gimp_attribution_new
        ⟨[⟨librdf_node.resource "about:this",
            librdf_node.resource "http://purl.org/dc/elements/1.1/creator",
            librdf_node.literal "Alice" none none⟩]⟩).2.model
        = [⟨librdf_node.resource "about:this",
            librdf_node.resource "http://purl.org/dc/elements/1.1/creator",
            librdf_node.literal "Alice" none none⟩] := by
  refine ⟨fun a b => by rw [combine_check_eq], by decide, by decide, by decide⟩

theorem find_first_isSome_iff (m : librdf_model) (p : librdf_pattern) :
    (librdf_stream_get_object (librdf_model_find_statements m p)).isSome = true
      ↔ ∃ st ∈ m, librdf_statement_match st p = true := by
  simp only [librdf_stream_get_object, librdf_model_find_statements]
  cases h : List.filter (fun st => librdf_statement_match st p) m with
  | nil =>
    simp only [List.head?_nil, Option.isSome_none, Bool.false_eq_true, false_iff]
    rintro ⟨st, hst, hm⟩
    have : st ∈ List.filter (fun st => librdf_statement_match st p) m :=
      List.mem_filter.mpr ⟨hst, hm⟩
    rw [h] at this
    exact List.not_mem_nil _ this
  | cons x rest =>
    simp only [List.head?_cons, Option.isSome_some, true_iff]
    have : x ∈ List.filter (fun st => librdf_statement_match st p) m := by
      rw [h]; exact List.mem_cons_self _ _
    exact ⟨x, (List.mem_filter.mp this).1, (List.mem_filter.mp this).2⟩

theorem has_attribution_subject_iff_any (attrib : GimpAttribution) (u : Option String) :
    gimp_attribution_has_attribution_subject attrib u = true
      ↔ ∃ p ∈ attrib_predicates, ∃ st ∈ attrib.model,
          librdf_node_match (u.map librdf_node.resource) st.subject = true
            ∧ st.predicate = librdf_node.resource p := by
  unfold gimp_attribution_has_attribution_subject
  rw [foldl_or_eq_any (fun predicate_string =>
      (librdf_stream_get_object (librdf_model_find_statements attrib.model
        (librdf_statement_set_predicate
          (librdf_statement_set_subject librdf_new_statement
            (librdf_new_node_from_uri (librdf_new_uri_from_uri u)))
          (librdf_new_node_from_uri (librdf_new_uri predicate_string))))).isSome)]
  simp only [Bool.false_or, List.any_eq_true, find_first_isSome_iff]
  constructor
  · rintro ⟨p, hp, st, hst, hm⟩
    refine ⟨p, hp, st, hst, ?_⟩
    simpa [librdf_statement_match, librdf_node_match, librdf_statement_set_predicate,
      librdf_statement_set_subject, librdf_new_statement, librdf_new_node_from_uri,
      librdf_new_uri_from_uri, librdf_new_uri] using hm
  · rintro ⟨p, hp, st, hst, hm⟩
    refine ⟨p, hp, st, hst, ?_⟩
    simpa [librdf_statement_match, librdf_node_match, librdf_statement_set_predicate,
      librdf_statement_set_subject, librdf_new_statement, librdf_new_node_from_uri,
      librdf_new_uri_from_uri, librdf_new_uri] using hm

/-- C4: `gimp_attribution_has_attribution_subject (attrib, s)` is `TRUE` exactly
when the model holds a statement with subject `s` whose predicate is one of the
seven listed URIs, whatever its object. -/
theorem gimp_attribution_has_attribution_subject_iff (attrib : GimpAttribution) (s : String) :
    gimp_attribution_has_attribution_subject attrib (some s) = true
      ↔ ∃ st ∈ attrib.model, st.subject = librdf_node.resource s
          ∧ (st.predicate = librdf_node.resource "http://purl.org/dc/elements/1.1/contributor"
            ∨ st.predicate = librdf_node.resource "http://purl.org/dc/terms/contributor"
            ∨ st.predicate = librdf_node.resource "http://purl.org/dc/elements/1.1/creator"
            ∨ st.predicate = librdf_node.resource "http://purl.org/dc/terms/creator"
            ∨ st.predicate = librdf_node.resource "http://www.w3.org/1999/xhtml/vocab#license"
            ∨ st.predicate = librdf_node.resource "http://purl.org/dc/terms/license"
            ∨ st.predicate = librdf_node.resource "http://creativecommons.org/ns#license") := by
  rw [has_attribution_subject_iff_any]
  constructor
  · rintro ⟨p, hp, st, hst, hs, hpred⟩
    refine ⟨st, hst, by simpa [librdf_node_match] using hs, ?_⟩
    simp only [attrib_predicates, List.mem_cons, List.mem_singleton, List.not_mem_nil,
      or_false] at hp
    rcases hp with h | h | h | h | h | h | h <;> subst h <;> simp [hpred]
  · rintro ⟨st, hst, hs, hpred⟩
    have hs2 : librdf_node_match (Option.map librdf_node.resource (some s)) st.subject = true := by
      simp [librdf_node_match, hs]
    rcases hpred with h | h | h | h | h | h | h
    all_goals first
      | exact ⟨_, by simp [attrib_predicates], st, hst, hs2, h⟩

theorem has_attribution_iff (attrib : GimpAttribution) :
    gimp_attribution_has_attribution attrib = true
      ↔ gimp_attribution_has_attribution_subject attrib (some "about:this") = true
        ∨ ∃ st ∈ attrib.model,
            st.subject = librdf_node.resource "about:this"
              ∧ st.predicate = librdf_node.resource "http://purl.org/dc/elements/1.1/source"
              ∧ gimp_attribution_has_attribution_subject attrib
                  (librdf_node_get_uri st.object) = true := by
  unfold gimp_attribution_has_attribution
  simp only [librdf_new_uri]
  by_cases h : gimp_attribution_has_attribution_subject attrib (some "about:this") = true
  · simp [h]
  · simp only [h, Bool.false_eq_true, if_false, false_or]
    rw [foldl_or_eq_any (fun statement : librdf_statement =>
      gimp_attribution_has_attribution_subject attrib (librdf_node_get_uri statement.object))]
    simp only [Bool.false_or, List.any_eq_true, librdf_model_find_statements, List.mem_filter]
    constructor
    · rintro ⟨st, ⟨hst, hm⟩, hs⟩
      refine ⟨st, hst, ?_⟩
      simp [librdf_statement_match, librdf_node_match, librdf_statement_set_predicate,
        librdf_statement_set_subject, librdf_new_statement, librdf_new_node_from_uri,
        librdf_new_node_from_uri_string] at hm
      exact ⟨hm.1, hm.2, hs⟩
    · rintro ⟨st, hst, h1, h2, hs⟩
      refine ⟨st, ⟨hst, ?_⟩, hs⟩
      simp [librdf_statement_match, librdf_node_match, librdf_statement_set_predicate,
        librdf_statement_set_subject, librdf_new_statement, librdf_new_node_from_uri,
        librdf_new_node_from_uri_string, h1, h2]

theorem has_attribution_examples :
    gimp_attribution_has_attribution
        ⟨[⟨librdf_node.resource "about:this",
            librdf_node.resource "http://purl.org/dc/elements/1.1/source",
            librdf_node.resource "http://example.org/x"⟩,
          ⟨librdf_node.resource "http://example.org/x",
            librdf_node.resource "http://purl.org/dc/elements/1.1/creator",
            librdf_node.literal "Alice" none none⟩]⟩ = true
    ∧ gimp_attribution_has_attribution
        ⟨[⟨librdf_node.resource "about:this",
            librdf_node.resource "http://purl.org/dc/elements/1.1/title",
            librdf_node.literal "T" none none⟩]⟩ = false := by
  decide

/-- C5, evaluated on the code: on the model holding (about:this, dc:source,
"Old print") with a literal object and (http://example.org/other, dc:creator,
"Bob"), `gimp_attribution_has_attribution` returns `TRUE`, although
`about:this` has no attribution property and no dc:source object of
`about:this` is a resource. -/
theorem gimp_attribution_has_attribution_literal_source :
    gimp_attribution_has_attribution
        ⟨[⟨librdf_node.resource "about:this",
            librdf_node.resource "http://purl.org/dc/elements/1.1/source",
            librdf_node.literal "Old print" none none⟩,
          ⟨librdf_node.resource "http://example.org/other",
            librdf_node.resource "http://purl.org/dc/elements/1.1/creator",
            librdf_node.literal "Bob" none none⟩]⟩ = true
    ∧ gimp_attribution_has_attribution_subject
        ⟨[⟨librdf_node.resource "about:this",
            librdf_node.resource "http://purl.org/dc/elements/1.1/source",
            librdf_node.literal "Old print" none none⟩,
          ⟨librdf_node.resource "http://example.org/other",
            librdf_node.resource "http://purl.org/dc/elements/1.1/creator",
            librdf_node.literal "Bob" none none⟩]⟩ (some "about:this") = false
    ∧ ¬ ∃ st ∈ [(⟨librdf_node.resource "about:this",
            librdf_node.resource "http://purl.org/dc/elements/1.1/source",
            librdf_node.literal "Old print" none none⟩ : librdf_statement),
          ⟨librdf_node.resource "http://example.org/other",
            librdf_node.resource "http://purl.org/dc/elements/1.1/creator",
            librdf_node.literal "Bob" none none⟩],
        ∃ x : String, st.subject = librdf_node.resource "about:this"
          ∧ st.predicate = librdf_node.resource "http://purl.org/dc/elements/1.1/source"
          ∧ st.object = librdf_node.resource x := by
  refine ⟨by decide, by decide, ?_⟩
  simp

theorem librdf_statement_match_iff (st : librdf_statement) (p : librdf_pattern) :
    librdf_statement_match st p = true
      ↔ (p.subject = none ∨ p.subject = some st.subject)
        ∧ (p.predicate = none ∨ p.predicate = some st.predicate)
        ∧ (p.object = none ∨ p.object = some st.object) := by
  have hn : ∀ (b : Option librdf_node) (n : librdf_node),
      librdf_node_match b n = true ↔ (b = none ∨ b = some n) := by
    intro b n
    cases b with
    | none => simp [librdf_node_match]
    | some x =>
      simp [librdf_node_match, eq_comm]
  simp only [librdf_statement_match, Bool.and_eq_true, hn, and_assoc]

/-- C6: the stream of `find` delivers exactly the stored statements, in
insertion order and once per stored occurrence, whose subject, predicate and
object equal every bound field of the pattern; with no field bound it delivers
every stored statement, duplicates included. -/
theorem librdf_model_find_statements_exact (m : librdf_model) (p : librdf_pattern) :
    (librdf_model_find_statements m p).pending
        = m.filter (fun st => decide
            ((p.subject = none ∨ p.subject = some st.subject)
              ∧ (p.predicate = none ∨ p.predicate = some st.predicate)
              ∧ (p.object = none ∨ p.object = some st.object)))
    ∧ List.Sublist (librdf_model_find_statements m p).pending m
    ∧ (∀ st, (p.subject = none ∨ p.subject = some st.subject)
              ∧ (p.predicate = none ∨ p.predicate = some st.predicate)
              ∧ (p.object = none ∨ p.object = some st.object) →
          (librdf_model_find_statements m p).pending.count st = m.count st)
    ∧ (∀ st, ¬ ((p.subject = none ∨ p.subject = some st.subject)
              ∧ (p.predicate = none ∨ p.predicate = some st.predicate)
              ∧ (p.object = none ∨ p.object = some st.object)) →
          (librdf_model_find_statements m p).pending.count st = 0)
    ∧ (librdf_model_find_statements m ⟨none, none, none⟩).pending = m := by
  refine ⟨?_, ?_, ?_, ?_, ?_⟩
  · simp only [librdf_model_find_statements]
    apply List.filter_congr
    intro st _
    rw [Bool.eq_iff_iff, librdf_statement_match_iff, decide_eq_true_iff]
  · exact List.filter_sublist _
  · intro st h
    have h2 : (fun x => librdf_statement_match x p) st = true :=
      (librdf_statement_match_iff st p).mpr h
    exact List.count_filter h2
  · intro st h
    simp only [librdf_model_find_statements]
    rw [List.count_eq_zero, List.mem_filter]
    rintro ⟨_, hm⟩
    exact h ((librdf_statement_match_iff st p).mp hm)
  · simp [librdf_model_find_statements, librdf_statement_match, librdf_node_match]

/-- C7: on the empty model `gimp_attribution_is_empty` is `TRUE`,
`gimp_attribution_has_attribution` is `FALSE`, every `find` delivers the empty
sequence with no first statement, and `gimp_attribution_combine (a, m)` leaves
every `a` (and the empty `m`) as it was. -/
theorem gimp_attribution_empty_model_safe :
    gimp_attribution_is_empty gimp_attribution_new = true
    ∧ gimp_attribution_has_attribution gimp_attribution_new = false
    ∧ (∀ s : Option String,
        gimp_attribution_has_attribution_subject gimp_attribution_new s = false)
    ∧ (∀ p : librdf_pattern,
        (librdf_model_find_statements gimp_attribution_new.model p).pending = []
          ∧ librdf_stream_end (librdf_model_find_statements gimp_attribution_new.model p) = true
          ∧ librdf_stream_get_object
              (librdf_model_find_statements gimp_attribution_new.model p) = none)
    ∧ (∀ a : GimpAttribution,
        gimp_attribution_combine a gimp_attribution_new = (a, gimp_attribution_new))
    ∧ (∀ a : GimpAttribution,
        gimp_attribution_combine gimp_attribution_new a = (a, a)) := by
  refine ⟨by decide, by decide, ?_, ?_, ?_, ?_⟩
  · intro s
    cases h : gimp_attribution_has_attribution_subject gimp_attribution_new s with
    | false => rfl
    | true =>
      obtain ⟨_, _, st, hst, _⟩ := (has_attribution_subject_iff_any _ _).mp h
      simp [gimp_attribution_new] at hst
  · intro p
    simp [librdf_model_find_statements, gimp_attribution_new, librdf_stream_end,
      librdf_stream_get_object]
  · intro a
    simp [gimp_attribution_combine, gimp_attribution_new, librdf_model_add_statements,
      librdf_model_as_stream]
  · intro a
    simp [gimp_attribution_combine, gimp_attribution_new, librdf_model_add_statements,
      librdf_model_as_stream, foldl_add_statement_eq_append]

/-- C9: with `image_attrib` given, the serializer receives the base URI
about:that and the scratch model made of the statements of `attrib`, the link
statement (about:that, dc:source, about:this) and the statements of
`image_attrib`, in this order; with `image_attrib` `NULL` it receives the base
URI about:this and exactly the statements of `attrib`. -/
theorem gimp_attribution_serialize_rdf_scratch_model {α : Type}
    (ser : librdf_serializer → String → librdf_model → α)
    (attrib image : GimpAttribution) :
    (gimp_attribution_serialize_rdf ser attrib (some image)).1
        = ser gimp_attribution_serializer "about:that"
            (attrib.model
              ++ [⟨librdf_node.resource "about:that",
                    librdf_node.resource "http://purl.org/dc/elements/1.1/source",
                    librdf_node.resource "about:this"⟩]
              ++ image.model)
    ∧ (gimp_attribution_serialize_rdf ser attrib none).1
        = ser gimp_attribution_serializer "about:this" attrib.model
    ∧ gimp_attribution_serialize_rdf_fill attrib (some image)
        = ("about:that", ⟨attrib, some image,
            attrib.model
              ++ [⟨librdf_node.resource "about:that",
                    librdf_node.resource "http://purl.org/dc/elements/1.1/source",
                    librdf_node.resource "about:this"⟩]
              ++ image.model⟩)
    ∧ gimp_attribution_serialize_rdf_fill attrib none
        = ("about:this", ⟨attrib, none, attrib.model⟩) := by
  simp [gimp_attribution_serialize_rdf, gimp_attribution_serialize_rdf_fill,
    librdf_model_add_statements, librdf_model_as_stream, foldl_add_statement_eq_append,
    librdf_model_add, librdf_model_add_statement, librdf_new_node_from_uri_string]

/-- C10: after `gimp_attribution_serialize_rdf (attrib, image_attrib)` the
models of `attrib` and of `image_attrib` hold the same statement sequences as
before the call, whatever the serializer returns; the link statement went into
the scratch model only. -/
theorem gimp_attribution_serialize_rdf_frame {α : Type}
    (ser : librdf_serializer → String → librdf_model → α)
    (attrib : GimpAttribution) (image_attrib : Option GimpAttribution) :
    (gimp_attribution_serialize_rdf ser attrib image_attrib).2.1.model = attrib.model
    ∧ (gimp_attribution_serialize_rdf ser attrib image_attrib).2.2 = image_attrib
    ∧ (gimp_attribution_serialize_rdf_fill attrib image_attrib).2.attrib = attrib
    ∧ (gimp_attribution_serialize_rdf_fill attrib image_attrib).2.image_attrib
        = image_attrib := by
  cases image_attrib <;>
    simp [gimp_attribution_serialize_rdf, gimp_attribution_serialize_rdf_fill]

/-! ## Loading -/

theorem g_strstr_len_none (needle : List Char) (packet : List Char)
    (h : ∀ k, ¬ needle <+: packet.drop k) : g_strstr_len packet needle = none := by
  induction packet with
  | nil =>
    have h0 : ¬ needle.isPrefixOf [] = true := by
      rw [List.isPrefixOf_iff_prefix]; simpa using h 0
    simp [g_strstr_len, h0]
  | cons c rest ih =>
    have h0 : ¬ needle.isPrefixOf (c :: rest) = true := by
      rw [List.isPrefixOf_iff_prefix]; simpa using h 0
    have hrec : g_strstr_len rest needle = none :=
      ih (fun k => by simpa using h (k + 1))
    simp [g_strstr_len, h0, hrec]

theorem g_strrstr_none (needle : List Char) (packet : List Char)
    (h : ∀ k, ¬ needle <+: packet.drop k) : g_strrstr packet needle = none := by
  induction packet with
  | nil =>
    have h0 : ¬ needle.isPrefixOf [] = true := by
      rw [List.isPrefixOf_iff_prefix]; simpa using h 0
    simp [g_strrstr, h0]
  | cons c rest ih =>
    have h0 : ¬ needle.isPrefixOf (c :: rest) = true := by
      rw [List.isPrefixOf_iff_prefix]; simpa using h 0
    have hrec : g_strrstr rest needle = none :=
      ih (fun k => by simpa using h (k + 1))
    simp [g_strrstr, h0, hrec]

theorem g_strrstr_some (needle : List Char) (packet : List Char) (k : Nat)
    (h : needle <+: packet.drop k) (hk : k ≤ packet.length) :
    ∃ j, g_strrstr packet needle = some j := by
  induction packet generalizing k with
  | nil =>
    have h0 : needle.isPrefixOf [] = true := by
      rw [List.isPrefixOf_iff_prefix]; simpa using h
    exact ⟨0, by simp [g_strrstr, h0]⟩
  | cons c rest ih =>
    cases hr : g_strrstr rest needle with
    | some j => exact ⟨j + 1, by simp [g_strrstr, hr]⟩
    | none =>
      cases k with
      | zero =>
        have h0 : needle.isPrefixOf (c :: rest) = true := by
          rw [List.isPrefixOf_iff_prefix]; simpa using h
        exact ⟨0, by simp [g_strrstr, hr, h0]⟩
      | succ n =>
        obtain ⟨j, hj⟩ := ih n (by simpa using h) (by simpa using hk)
        rw [hr] at hj
        cases hj

/-- C11: when `g_file_get_contents` cannot read the file,
`gimp_attribution_load_from_file` returns `FALSE` and the attribution object,
with the statements of its model, is the one it was before the call; the parser
is not reached. -/
theorem gimp_attribution_load_from_file_unreadable
    (g_file_get_contents : String → Option (List Char))
    (parse : List Char → Nat → Option String → librdf_model → Int × librdf_model)
    (attrib : GimpAttribution) (filename : String)
    (hfail : g_file_get_contents filename = none) :
    gimp_attribution_load_from_file g_file_get_contents parse attrib filename
      = (false, attrib)
    ∧ (gimp_attribution_load_from_file g_file_get_contents parse attrib filename).2.model
      = attrib.model := by
  simp [gimp_attribution_load_from_file, gimp_attribution_load_from_file_with_uri, hfail]

theorem gimp_attribution_load_from_file_unreadable_witness :
    (gimp_attribution_load_from_file (fun _ => none)
        (fun _ _ _ m =>
          (0, m ++ [⟨librdf_node.resource "about:this",
            librdf_node.resource "http://purl.org/dc/elements/1.1/title",
            librdf_node.literal "T" none none⟩]))
        ⟨[⟨librdf_node.resource "about:this",
            librdf_node.resource "http://purl.org/dc/elements/1.1/creator",
            librdf_node.literal "Alice" none none⟩]⟩ "missing.rdf")
      = (false, ⟨[⟨librdf_node.resource "about:this",
            librdf_node.resource "http://purl.org/dc/elements/1.1/creator",
            librdf_node.literal "Alice" none none⟩]⟩)
    ∧ (gimp_attribution_load_from_file (fun _ => none)
        (fun _ _ _ m =>
          (0, m ++ [⟨librdf_node.resource "about:this",
            librdf_node.resource "http://purl.org/dc/elements/1.1/title",
            librdf_node.literal "T" none none⟩]))
        ⟨[⟨librdf_node.resource "about:this",
            librdf_node.resource "http://purl.org/dc/elements/1.1/creator",
            librdf_node.literal "Alice" none none⟩]⟩ "missing.rdf").2.model
      = [⟨librdf_node.resource "about:this",
            librdf_node.resource "http://purl.org/dc/elements/1.1/creator",
            librdf_node.literal "Alice" none none⟩] :=
  gimp_attribution_load_from_file_unreadable (fun _ => none) _ _ "missing.rdf" rfl

/-- C13, evaluated on the code: for every packet in which `</rdf:RDF>` does not
occur, `gimp_attribution_load_from_xmp` adds 10 to the `NULL` that `g_strrstr`
returns; for every packet in which `</rdf:RDF>` occurs and `<rdf:RDF` does not,
`rdf` is `NULL` and `g_return_if_fail` returns without a value.  So for the
packets `<x:xmpmeta></x:xmpmeta>`, `<rdf:RDF><rdf:Description/>` and
`<rdf:Description/></rdf:RDF>` the call does not return `FALSE`. -/
theorem gimp_attribution_load_from_xmp_missing_markers :
    (∀ (parse : List Char → Option String → librdf_model → Int × librdf_model)
        (attrib : GimpAttribution) (packet : List Char) (base_uri : String),
      (∀ k, ¬ "</rdf:RDF>".toList <+: packet.drop k) →
        gimp_attribution_load_from_xmp parse attrib packet base_uri
          = Except.error load_from_xmp_fault.null_pointer_arithmetic)
    ∧ (∀ (parse : List Char → Option String → librdf_model → Int × librdf_model)
        (attrib : GimpAttribution) (packet : List Char) (base_uri : String) (j : Nat),
      "</rdf:RDF>".toList <+: packet.drop j →
      (∀ k, ¬ "<rdf:RDF".toList <+: packet.drop k) →
        gimp_attribution_load_from_xmp parse attrib packet base_uri
          = Except.error load_from_xmp_fault.return_without_value)
    ∧ (∀ (parse : List Char → Option String → librdf_model → Int × librdf_model)
        (attrib : GimpAttribution) (base_uri : String),
      gimp_attribution_load_from_xmp parse attrib "<x:xmpmeta></x:xmpmeta>".toList base_uri
          = Except.error load_from_xmp_fault.null_pointer_arithmetic
        ∧ gimp_attribution_load_from_xmp parse attrib "<rdf:RDF><rdf:Description/>".toList
            base_uri
          = Except.error load_from_xmp_fault.null_pointer_arithmetic
        ∧ gimp_attribution_load_from_xmp parse attrib "<rdf:Description/></rdf:RDF>".toList
            base_uri
          = Except.error load_from_xmp_fault.return_without_value)
    ∧ (∀ (parse : List Char → Option String → librdf_model → Int × librdf_model)
        (attrib : GimpAttribution) (base_uri : String) (after : GimpAttribution),
      gimp_attribution_load_from_xmp parse attrib "<x:xmpmeta></x:xmpmeta>".toList base_uri
          ≠ Except.ok (false, after)) := by
  have h1 : g_strrstr "<x:xmpmeta></x:xmpmeta>".toList "</rdf:RDF>".toList = none := by decide
  have h2 : g_strrstr "<rdf:RDF><rdf:Description/>".toList "</rdf:RDF>".toList = none := by
    decide
  have h3 : g_strrstr "<rdf:Description/></rdf:RDF>".toList "</rdf:RDF>".toList = some 18 := by
    decide
  have h4 : g_strstr_len "<rdf:Description/></rdf:RDF>".toList "<rdf:RDF".toList = none := by
    decide
  refine ⟨?_, ?_, fun parse attrib base_uri => ⟨?_, ?_, ?_⟩, fun parse attrib base_uri after => ?_⟩
  · intro parse attrib packet base_uri hno
    simp only [gimp_attribution_load_from_xmp, g_strrstr_none _ packet hno]
  · intro parse attrib packet base_uri j hj hno
    have hjl : j ≤ packet.length := by
      by_contra hc
      have hlen := hj.length_le
      rw [List.length_drop] at hlen
      have h10 : ("</rdf:RDF>".toList).length = 10 := by decide
      omega
    obtain ⟨last, hlast⟩ := g_strrstr_some _ packet j hj hjl
    simp only [gimp_attribution_load_from_xmp, hlast, g_strstr_len_none _ packet hno,
      Option.map_none']
  · simp only [gimp_attribution_load_from_xmp, h1]
  · simp only [gimp_attribution_load_from_xmp, h2]
  · simp only [gimp_attribution_load_from_xmp, h3, h4, Option.map_none']
  · simp only [gimp_attribution_load_from_xmp, h1]
    exact fun h => by cases h

/-! ## Vocabulary -/

theorem qname_lookup_none (check : String → Nat → Bool) (nstack : raptor_namespace_stack)
    (uri : String) (h : ∀ ns ∈ nstack, ¬ ns.uri.data <+: uri.data) :
    raptor_new_qname_from_namespace_uri check nstack (raptor_new_uri uri) 10 = none := by
  unfold raptor_new_qname_from_namespace_uri raptor_new_uri
  split
  · rfl
  · rename_i u heq
    have hu : u = uri := by
      split at heq
      · cases heq
      · exact (Option.some.inj heq).symm
    subst hu
    rw [Option.map_eq_none', List.find?_eq_none]
    intro ns hns
    have := h ns hns
    simp only [Bool.and_eq_true, decide_eq_true_eq, List.isPrefixOf_iff_prefix]
    rintro ⟨⟨_, hp⟩, _⟩
    exact this hp

/-- C14: for every namespace registered in the vocabulary of `gimp_vocab_init`
(no registered namespace URI being an initial part of another) and every
non-empty local name that the name check of XML 1.0 accepts,
`gimp_vocab_get_short_uri` turns the namespace URI followed by the local name
into the short name, a colon and the local name. -/
theorem gimp_vocab_get_short_uri_registered
    (raptor_new_namespaces : Nat → raptor_namespace_stack) (check : String → Nat → Bool)
    (hnp : ∀ a ∈ (gimp_vocab_init raptor_new_namespaces).namespaces,
      ∀ b ∈ (gimp_vocab_init raptor_new_namespaces).namespaces,
        a.uri.data <+: b.uri.data → a = b)
    (ns : raptor_namespace)
    (hreg : ns ∈ (gimp_vocab_init raptor_new_namespaces).namespaces)
    (l : String) (hl : l ≠ "") (hvalid : check l 10 = true) :
    gimp_vocab_get_short_uri check (gimp_vocab_init raptor_new_namespaces) (ns.uri ++ l)
      = ns.pfx ++ ":" ++ l := by
  have hldata : l.data ≠ [] := by
    intro h
    apply hl
    exact String.ext (by simpa using h)
  have hlpos : 0 < l.data.length := List.length_pos.mpr hldata
  have hne : ns.uri ++ l ≠ "" := by
    intro h
    have := congrArg String.data h
    simp only [String.data_append] at this
    have h2 : l.data = [] := by
      have := congrArg List.length this
      simp only [List.length_append] at this
      have h3 : ("" : String).data.length = 0 := rfl
      rw [h3] at this
      exact List.length_eq_zero.mp (by omega)
    exact hldata h2
  have hdrop : ∀ a : raptor_namespace, a = ns →
      String.mk ((ns.uri ++ l).data.drop a.uri.data.length) = l := by
    intro a ha
    subst ha
    apply String.ext
    simp [String.data_append]
  have hP : (decide (ns.uri.data.length < (ns.uri ++ l).data.length)
      && ns.uri.data.isPrefixOf (ns.uri ++ l).data
      && check (String.mk ((ns.uri ++ l).data.drop ns.uri.data.length)) 10) = true := by
    rw [hdrop ns rfl, hvalid]
    simp only [String.data_append, List.length_append, Bool.and_true, Bool.and_eq_true,
      decide_eq_true_eq, List.isPrefixOf_iff_prefix]
    exact ⟨by omega, List.prefix_append _ _⟩
  unfold gimp_vocab_get_short_uri raptor_new_qname_from_namespace_uri raptor_new_uri
  simp only [hne, if_false]
  cases hf : List.find? (fun a : raptor_namespace =>
      decide (a.uri.data.length < (ns.uri ++ l).data.length)
        && a.uri.data.isPrefixOf (ns.uri ++ l).data
        && check (String.mk ((ns.uri ++ l).data.drop a.uri.data.length)) 10)
      (gimp_vocab_init raptor_new_namespaces).namespaces with
  | none =>
    exfalso
    have := List.find?_eq_none.mp hf ns hreg
    exact this hP
  | some a =>
    have hmem : a ∈ (gimp_vocab_init raptor_new_namespaces).namespaces :=
      List.mem_of_find?_eq_some hf
    have hPa := List.find?_some hf
    simp only [Bool.and_eq_true, decide_eq_true_eq, List.isPrefixOf_iff_prefix] at hPa
    have hpa : a.uri.data <+: (ns.uri ++ l).data := hPa.1.2
    have hpn : ns.uri.data <+: (ns.uri ++ l).data := by
      rw [String.data_append]; exact List.prefix_append _ _
    have hEq : a = ns := by
      rcases Nat.le_total a.uri.data.length ns.uri.data.length with hle | hle
      · exact hnp a hmem ns hreg (List.prefix_of_prefix_length_le hpa hpn hle)
      · exact (hnp ns hreg a hmem (List.prefix_of_prefix_length_le hpn hpa hle)).symm
    simp only [Option.map_some']
    rw [hdrop a hEq, hEq]

theorem gimp_vocab_get_short_uri_registered_witness :
    gimp_vocab_get_short_uri (fun name _ => name.data.all Char.isAlphanum)
        (gimp_vocab_init (fun _ =>
          [⟨"owl", "http://www.w3.org/2002/07/owl#"⟩,
           ⟨"xsd", "http://www.w3.org/2001/XMLSchema#"⟩,
           ⟨"rdfs", "http://www.w3.org/2000/01/rdf-schema#"⟩,
           ⟨"rdf", "http://www.w3.org/1999/02/22-rdf-syntax-ns#"⟩,
           ⟨"xml", "http://www.w3.org/XML/1998/namespace"⟩]))
        ("http://purl.org/dc/elements/1.1/" ++ "creator")
      = "dc" ++ ":" ++ "creator" :=
  gimp_vocab_get_short_uri_registered
    (fun _ =>
      [⟨"owl", "http://www.w3.org/2002/07/owl#"⟩,
       ⟨"xsd", "http://www.w3.org/2001/XMLSchema#"⟩,
       ⟨"rdfs", "http://www.w3.org/2000/01/rdf-schema#"⟩,
       ⟨"rdf", "http://www.w3.org/1999/02/22-rdf-syntax-ns#"⟩,
       ⟨"xml", "http://www.w3.org/XML/1998/namespace"⟩])
    (fun name _ => name.data.all Char.isAlphanum)
    (by decide)
    ⟨"dc", "http://purl.org/dc/elements/1.1/"⟩ (by decide) "creator" (by decide) (by decide)

/-- C15: `gimp_vocab_get_short_uri` is a total function from strings to
strings, and for every input of which no registered namespace URI is an initial
part (the empty string among them) it returns the input unchanged. -/
theorem gimp_vocab_get_short_uri_identity
    (raptor_new_namespaces : Nat → raptor_namespace_stack) (check : String → Nat → Bool)
    (uri : String)
    (hno : ∀ ns ∈ (gimp_vocab_init raptor_new_namespaces).namespaces,
      ¬ ns.uri.data <+: uri.data) :
    gimp_vocab_get_short_uri check (gimp_vocab_init raptor_new_namespaces) uri = uri := by
  unfold gimp_vocab_get_short_uri
  simp only [qname_lookup_none check _ uri hno]

theorem gimp_vocab_get_short_uri_identity_witness :
    gimp_vocab_get_short_uri (fun name _ => name.data.all Char.isAlphanum)
        (gimp_vocab_init (fun _ =>
          [⟨"owl", "http://www.w3.org/2002/07/owl#"⟩,
           ⟨"xsd", "http://www.w3.org/2001/XMLSchema#"⟩,
           ⟨"rdfs", "http://www.w3.org/2000/01/rdf-schema#"⟩,
           ⟨"rdf", "http://www.w3.org/1999/02/22-rdf-syntax-ns#"⟩,
           ⟨"xml", "http://www.w3.org/XML/1998/namespace"⟩]))
        "http://example.com/x"
      = "http://example.com/x" :=
  gimp_vocab_get_short_uri_identity
    (fun _ =>
      [⟨"owl", "http://www.w3.org/2002/07/owl#"⟩,
       ⟨"xsd", "http://www.w3.org/2001/XMLSchema#"⟩,
       ⟨"rdfs", "http://www.w3.org/2000/01/rdf-schema#"⟩,
       ⟨"rdf", "http://www.w3.org/1999/02/22-rdf-syntax-ns#"⟩,
       ⟨"xml", "http://www.w3.org/XML/1998/namespace"⟩])
    (fun name _ => name.data.all Char.isAlphanum)
    "http://example.com/x" (by decide)

theorem gimp_vocab_get_short_uri_cases
    (raptor_new_namespaces : Nat → raptor_namespace_stack) (check : String → Nat → Bool)
    (uri : String) :
    gimp_vocab_get_short_uri check (gimp_vocab_init raptor_new_namespaces) uri = uri
    ∨ ∃ ns ∈ (gimp_vocab_init raptor_new_namespaces).namespaces, ∃ l : String,
        uri = ns.uri ++ l
          ∧ gimp_vocab_get_short_uri check (gimp_vocab_init raptor_new_namespaces) uri
              = ns.pfx ++ ":" ++ l := by
  unfold gimp_vocab_get_short_uri raptor_new_qname_from_namespace_uri raptor_new_uri
  by_cases hu : uri = ""
  · left; simp [hu]
  · simp only [hu, if_false]
    cases hf : List.find? (fun a : raptor_namespace =>
        decide (a.uri.data.length < uri.data.length)
          && a.uri.data.isPrefixOf uri.data
          && check (String.mk (uri.data.drop a.uri.data.length)) 10)
        (gimp_vocab_init raptor_new_namespaces).namespaces with
    | none => left; rfl
    | some a =>
      right
      have hPa := List.find?_some hf
      simp only [Bool.and_eq_true, decide_eq_true_eq, List.isPrefixOf_iff_prefix] at hPa
      refine ⟨a, List.mem_of_find?_eq_some hf, String.mk (uri.data.drop a.uri.data.length),
        ?_, rfl⟩
      apply String.ext
      rw [String.data_append]
      have := List.prefix_iff_eq_take.mp hPa.1.2
      conv_lhs => rw [← List.take_append_drop a.uri.data.length uri.data]
      rw [← this]

/-- C16, counterexample: when `raptor_new_namespaces (world, 3)` returns a
stack that already holds the namespaces xml, rdf, rdfs, xsd and owl, the
registry of `gimp_vocab_init` has ten entries and maps the short name `rdf`,
which is none of dc, dcterms, cc, xhv, og. -/
theorem gimp_vocab_init_not_only_five :
    ¬ (∀ ns ∈ (gimp_vocab_init (fun _ =>
          [⟨"owl", "http://www.w3.org/2002/07/owl#"⟩,
           ⟨"xsd", "http://www.w3.org/2001/XMLSchema#"⟩,
           ⟨"rdfs", "http://www.w3.org/2000/01/rdf-schema#"⟩,
           ⟨"rdf", "http://www.w3.org/1999/02/22-rdf-syntax-ns#"⟩,
           ⟨"xml", "http://www.w3.org/XML/1998/namespace"⟩])).namespaces,
        ns.pfx ∈ ["dc", "dcterms", "cc", "xhv", "og"])
    ∧ (gimp_vocab_init (fun _ =>
          [⟨"owl", "http://www.w3.org/2002/07/owl#"⟩,
           ⟨"xsd", "http://www.w3.org/2001/XMLSchema#"⟩,
           ⟨"rdfs", "http://www.w3.org/2000/01/rdf-schema#"⟩,
           ⟨"rdf", "http://www.w3.org/1999/02/22-rdf-syntax-ns#"⟩,
           ⟨"xml", "http://www.w3.org/XML/1998/namespace"⟩])).namespaces.length = 10
    ∧ gimp_vocab_get_short_uri (fun name _ => name.data.all Char.isAlphanum)
        (gimp_vocab_init (fun _ =>
          [⟨"owl", "http://www.w3.org/2002/07/owl#"⟩,
           ⟨"xsd", "http://www.w3.org/2001/XMLSchema#"⟩,
           ⟨"rdfs", "http://www.w3.org/2000/01/rdf-schema#"⟩,
           ⟨"rdf", "http://www.w3.org/1999/02/22-rdf-syntax-ns#"⟩,
           ⟨"xml", "http://www.w3.org/XML/1998/namespace"⟩]))
        "http://www.w3.org/1999/02/22-rdf-syntax-ns#type" = "rdf:type" := by
  refine ⟨by decide, by decide, by decide⟩

/-- C16, amended: the registry built by `gimp_vocab_init` is the stack that
`raptor_new_namespaces (world, 3)` returns with exactly five namespaces started
on it, dc, dcterms, cc, xhv and og with their URIs in this order, and these are
the five pairs, in the same order, that `gimp_attribution_serialize_rdf` sets on
the serializer. -/
theorem gimp_vocab_init_registry (raptor_new_namespaces : Nat → raptor_namespace_stack) :
    (gimp_vocab_init raptor_new_namespaces).namespaces
      = [⟨"og", "http://ogp.me/ns#"⟩,
         ⟨"xhv", "http://www.w3.org/1999/xhtml/vocab#"⟩,
         ⟨"cc", "http://creativecommons.org/ns#"⟩,
         ⟨"dcterms", "http://purl.org/dc/terms/"⟩,
         ⟨"dc", "http://purl.org/dc/elements/1.1/"⟩] ++ raptor_new_namespaces 3
    ∧ (gimp_vocab_init (fun _ => [])).namespaces.reverse
      = [⟨"dc", "http://purl.org/dc/elements/1.1/"⟩,
         ⟨"dcterms", "http://purl.org/dc/terms/"⟩,
         ⟨"cc", "http://creativecommons.org/ns#"⟩,
         ⟨"xhv", "http://www.w3.org/1999/xhtml/vocab#"⟩,
         ⟨"og", "http://ogp.me/ns#"⟩]
    ∧ gimp_attribution_serializer.namespaces
      = (gimp_vocab_init (fun _ => [])).namespaces.reverse.map (fun ns => (ns.uri, ns.pfx)) := by
  refine ⟨rfl, rfl, by decide⟩

/-! ## Query evaluation -/

theorem filterMap_ite_eq_map_filter {α β : Type} (p : α → Bool) (f : α → β) (l : List α) :
    l.filterMap (fun x => if p x = true then some (f x) else none) = (l.filter p).map f := by
  induction l with
  | nil => rfl
  | cons x rest ih =>
    by_cases h : p x = true
    · simp [List.filterMap_cons, List.filter_cons, h, ih]
    · simp [List.filterMap_cons, List.filter_cons, h, ih]

theorem eval_subject_pattern (p o : String) (ho : o ≠ "subject") (m : librdf_model) :
    sparql_eval (sparql_subject_pattern p o) m []
      = (m.filter (fun st => decide (st.predicate = librdf_node.resource p))).map
          (fun st => [("subject", st.subject), (o, st.object)]) := by
  rw [← filterMap_ite_eq_map_filter]
  simp only [sparql_eval, sparql_subject_pattern]
  congr 1
  funext st
  have hb : (o == "subject") = false := by simpa using ho
  by_cases h : st.predicate = librdf_node.resource p
  · simp [sparql_match_triple, sparql_match_term,
      librdf_query_results_get_binding_value_by_name, List.lookup, h, hb]
  · simp [sparql_match_triple, sparql_match_term,
      librdf_query_results_get_binding_value_by_name, List.lookup, h]

theorem eval_node_type (c : String) (s n : librdf_node) (m : librdf_model) :
    sparql_eval (sparql_node_type c) m [("subject", s), ("node", n)]
      = (m.filter (fun st => decide (st.subject = n
            ∧ st.predicate
                = librdf_node.resource "http://www.w3.org/1999/02/22-rdf-syntax-ns#type"
            ∧ st.object = librdf_node.resource c))).map
          (fun _ => [("subject", s), ("node", n)]) := by
  rw [← filterMap_ite_eq_map_filter]
  simp only [sparql_eval, sparql_node_type]
  congr 1
  funext st
  by_cases h1 : st.subject = n
  · by_cases h2 : st.predicate
        = librdf_node.resource "http://www.w3.org/1999/02/22-rdf-syntax-ns#type"
    · by_cases h3 : st.object = librdf_node.resource c
      · simp [sparql_match_triple, sparql_match_term,
          librdf_query_results_get_binding_value_by_name, List.lookup, h1, h2, h3]
      · simp [sparql_match_triple, sparql_match_term,
          librdf_query_results_get_binding_value_by_name, List.lookup, h1, h2, h3]
    · simp [sparql_match_triple, sparql_match_term,
        librdf_query_results_get_binding_value_by_name, List.lookup, h1, h2]
  · have h1b : ¬ n = st.subject := fun h => h1 h.symm
    simp [sparql_match_triple, sparql_match_term,
      librdf_query_results_get_binding_value_by_name, List.lookup, h1, h1b]

theorem eval_node_pred_label (s n : librdf_node) (m : librdf_model) :
    sparql_eval (sparql_pattern.triple ⟨sparql_term.var "node", sparql_term.var "pred",
        sparql_term.var "label"⟩) m [("subject", s), ("node", n)]
      = (m.filter (fun st => decide (st.subject = n))).map
          (fun st => [("subject", s), ("node", n), ("pred", st.predicate),
            ("label", st.object)]) := by
  rw [← filterMap_ite_eq_map_filter]
  simp only [sparql_eval]
  congr 1
  funext st
  by_cases h1 : st.subject = n
  · simp [sparql_match_triple, sparql_match_term,
      librdf_query_results_get_binding_value_by_name, List.lookup, h1]
  · have h1b : ¬ n = st.subject := fun h => h1 h.symm
    simp [sparql_match_triple, sparql_match_term,
      librdf_query_results_get_binding_value_by_name, List.lookup, h1, h1b]

theorem eval_node_member_label (q : String) (s n : librdf_node) (m : librdf_model) :
    sparql_eval (sparql_pattern.triple ⟨sparql_term.var "node", sparql_term.uri q,
        sparql_term.var "label"⟩) m [("subject", s), ("node", n)]
      = (m.filter (fun st => decide (st.subject = n
            ∧ st.predicate = librdf_node.resource q))).map
          (fun st => [("subject", s), ("node", n), ("label", st.object)]) := by
  rw [← filterMap_ite_eq_map_filter]
  simp only [sparql_eval]
  congr 1
  funext st
  by_cases h1 : st.subject = n
  · by_cases h2 : st.predicate = librdf_node.resource q
    · simp [sparql_match_triple, sparql_match_term,
        librdf_query_results_get_binding_value_by_name, List.lookup, h1, h2]
    · simp [sparql_match_triple, sparql_match_term,
        librdf_query_results_get_binding_value_by_name, List.lookup, h1, h2]
  · have h1b : ¬ n = st.subject := fun h => h1 h.symm
    simp [sparql_match_triple, sparql_match_term,
      librdf_query_results_get_binding_value_by_name, List.lookup, h1, h1b]

theorem sparql_eval_join (a b : sparql_pattern) (m : librdf_model) (row : sparql_binding) :
    sparql_eval (sparql_pattern.join a b) m row
      = (sparql_eval a m row).flatMap (fun r => sparql_eval b m r) := by
  rw [sparql_eval]

theorem sparql_eval_union (a b : sparql_pattern) (m : librdf_model) (row : sparql_binding) :
    sparql_eval (sparql_pattern.union a b) m row
      = sparql_eval a m row ++ sparql_eval b m row := by
  rw [sparql_eval]

theorem sparql_eval_filter (e : sparql_expr) (a : sparql_pattern) (m : librdf_model)
    (row : sparql_binding) :
    sparql_eval (sparql_pattern.filter e a) m row
      = (sparql_eval a m row).filter (fun r => sparql_expr_holds r e) := by
  rw [sparql_eval]

theorem eval_container_any (p1 p2 c : String) (m : librdf_model) :
    sparql_eval
        (sparql_pattern.join
          (sparql_pattern.join
            (sparql_pattern.union (sparql_subject_pattern p1 "node")
              (sparql_subject_pattern p2 "node"))
            (sparql_node_type c))
          (sparql_pattern.triple ⟨sparql_term.var "node", sparql_term.var "pred",
            sparql_term.var "label"⟩)) m []
      = (m.filter (fun st => decide (st.predicate = librdf_node.resource p1))
          ++ m.filter (fun st => decide (st.predicate = librdf_node.resource p2))).flatMap
          (fun st0 =>
            (m.filter (fun st => decide (st.subject = st0.object
              ∧ st.predicate
                  = librdf_node.resource "http://www.w3.org/1999/02/22-rdf-syntax-ns#type"
              ∧ st.object = librdf_node.resource c))).flatMap
              (fun _ =>
                (m.filter (fun st => decide (st.subject = st0.object))).map
                  (fun st2 => [("subject", st0.subject), ("node", st0.object),
                    ("pred", st2.predicate), ("label", st2.object)]))) := by
  rw [sparql_eval_join, sparql_eval_join, sparql_eval_union,
    eval_subject_pattern p1 "node" (by decide), eval_subject_pattern p2 "node" (by decide),
    ← List.map_append, List.flatMap_map, List.flatMap_assoc]
  simp only [Function.comp, eval_node_type, eval_node_pred_label, List.flatMap_map]

theorem eval_container_first (p1 p2 c q : String) (m : librdf_model) :
    sparql_eval
        (sparql_pattern.join
          (sparql_pattern.join
            (sparql_pattern.union (sparql_subject_pattern p1 "node")
              (sparql_subject_pattern p2 "node"))
            (sparql_node_type c))
          (sparql_pattern.triple ⟨sparql_term.var "node", sparql_term.uri q,
            sparql_term.var "label"⟩)) m []
      = (m.filter (fun st => decide (st.predicate = librdf_node.resource p1))
          ++ m.filter (fun st => decide (st.predicate = librdf_node.resource p2))).flatMap
          (fun st0 =>
            (m.filter (fun st => decide (st.subject = st0.object
              ∧ st.predicate
                  = librdf_node.resource "http://www.w3.org/1999/02/22-rdf-syntax-ns#type"
              ∧ st.object = librdf_node.resource c))).flatMap
              (fun _ =>
                (m.filter (fun st => decide (st.subject = st0.object
                    ∧ st.predicate = librdf_node.resource q))).map
                  (fun st2 => [("subject", st0.subject), ("node", st0.object),
                    ("label", st2.object)]))) := by
  rw [sparql_eval_join, sparql_eval_join, sparql_eval_union,
    eval_subject_pattern p1 "node" (by decide), eval_subject_pattern p2 "node" (by decide),
    ← List.map_append, List.flatMap_map, List.flatMap_assoc]
  simp only [Function.comp, eval_node_type, eval_node_member_label, List.flatMap_map]

theorem alt_rows_of_pattern (p1 p2 : String) (direct : sparql_pattern) (m : librdf_model)
    (id : String)
    (hdirect : ∀ row ∈ sparql_eval direct m [],
      librdf_query_results_get_binding_value_by_name row "node" = none)
    (honly : ∀ st ∈ m, st.subject = librdf_node.blank id →
      st.predicate = librdf_node.resource "http://www.w3.org/1999/02/22-rdf-syntax-ns#type" →
      st.object = librdf_node.resource "http://www.w3.org/1999/02/22-rdf-syntax-ns#Alt")
    (row : sparql_binding)
    (hrow : row ∈ sparql_eval
      (sparql_pattern.union
        (sparql_pattern.union
          (sparql_pattern.union
            (sparql_pattern.filter sparql_label_is_value direct)
            (sparql_pattern.filter
              (sparql_expr.ne_uri "label" "http://www.w3.org/1999/02/22-rdf-syntax-ns#Seq")
              (sparql_pattern.filter sparql_label_is_value
                (sparql_pattern.join
                  (sparql_pattern.join
                    (sparql_pattern.union (sparql_subject_pattern p1 "node")
                      (sparql_subject_pattern p2 "node"))
                    (sparql_node_type "http://www.w3.org/1999/02/22-rdf-syntax-ns#Seq"))
                  (sparql_pattern.triple ⟨sparql_term.var "node", sparql_term.var "pred",
                    sparql_term.var "label"⟩)))))
          (sparql_pattern.filter
            (sparql_expr.ne_uri "label" "http://www.w3.org/1999/02/22-rdf-syntax-ns#Bag")
            (sparql_pattern.filter sparql_label_is_value
              (sparql_pattern.join
                (sparql_pattern.join
                  (sparql_pattern.union (sparql_subject_pattern p1 "node")
                    (sparql_subject_pattern p2 "node"))
                  (sparql_node_type "http://www.w3.org/1999/02/22-rdf-syntax-ns#Bag"))
                (sparql_pattern.triple ⟨sparql_term.var "node", sparql_term.var "pred",
                  sparql_term.var "label"⟩)))))
        (sparql_pattern.filter sparql_label_is_value
          (sparql_pattern.join
            (sparql_pattern.join
              (sparql_pattern.union (sparql_subject_pattern p1 "node")
                (sparql_subject_pattern p2 "node"))
              (sparql_node_type "http://www.w3.org/1999/02/22-rdf-syntax-ns#Alt"))
            (sparql_pattern.triple ⟨sparql_term.var "node",
              sparql_term.uri "http://www.w3.org/1999/02/22-rdf-syntax-ns#_1",
              sparql_term.var "label"⟩)))) m [])
    (hnode : librdf_query_results_get_binding_value_by_name row "node"
      = some (librdf_node.blank id)) :
    ∃ st ∈ m, st.subject = librdf_node.blank id
      ∧ st.predicate = librdf_node.resource "http://www.w3.org/1999/02/22-rdf-syntax-ns#_1"
      ∧ librdf_query_results_get_binding_value_by_name row "label" = some st.object := by
  simp only [sparql_eval_union, sparql_eval_filter, eval_container_any, eval_container_first,
    List.mem_append, List.mem_filter, List.mem_flatMap, List.mem_map, decide_eq_true_eq]
    at hrow
  rcases hrow with ((⟨hd, _⟩ | ⟨⟨⟨st0, _, st1, ⟨_, h1⟩, st2, _, hr⟩, _⟩, _⟩)
    | ⟨⟨⟨st0, _, st1, ⟨_, h1⟩, st2, _, hr⟩, _⟩, _⟩) | ⟨⟨st0, _, st1, _, st2, ⟨hm2, h2⟩, hr⟩, _⟩
  · rw [hdirect row hd] at hnode
    cases hnode
  · subst hr
    simp [librdf_query_results_get_binding_value_by_name, List.lookup] at hnode
    have := honly st1 (by assumption) (h1.1.trans hnode) h1.2.1
    rw [h1.2.2] at this
    exact absurd this (by decide)
  · subst hr
    simp [librdf_query_results_get_binding_value_by_name, List.lookup] at hnode
    have := honly st1 (by assumption) (h1.1.trans hnode) h1.2.1
    rw [h1.2.2] at this
    exact absurd this (by decide)
  · subst hr
    simp [librdf_query_results_get_binding_value_by_name, List.lookup] at hnode
    refine ⟨st2, hm2, h2.1.trans hnode, h2.2, ?_⟩
    simp [librdf_query_results_get_binding_value_by_name, List.lookup]

theorem source_direct_no_node (m : librdf_model) :
    ∀ row ∈ sparql_eval
        (sparql_pattern.union
          (sparql_subject_pattern "http://purl.org/dc/elements/1.1/source" "label")
          (sparql_subject_pattern "http://purl.org/dc/terms/source" "label")) m [],
      librdf_query_results_get_binding_value_by_name row "node" = none := by
  intro row hrow
  simp only [sparql_eval_union, eval_subject_pattern _ "label" (by decide), List.mem_append,
    List.mem_map] at hrow
  rcases hrow with ⟨st, _, hr⟩ | ⟨st, _, hr⟩ <;> subst hr <;>
    simp [librdf_query_results_get_binding_value_by_name, List.lookup]

theorem creator_direct_no_node (m : librdf_model) :
    ∀ row ∈ sparql_eval
        (sparql_pattern.union
          (sparql_pattern.union
            (sparql_pattern.union
              (sparql_subject_pattern "http://purl.org/dc/elements/1.1/creator" "label")
              (sparql_subject_pattern "http://purl.org/dc/terms/creator" "label"))
            (sparql_subject_pattern "twitter:creator" "label"))
          (sparql_subject_pattern "cc:attributionName" "label")) m [],
      librdf_query_results_get_binding_value_by_name row "node" = none := by
  intro row hrow
  simp only [sparql_eval_union, eval_subject_pattern _ "label" (by decide), List.mem_append,
    List.mem_map] at hrow
  rcases hrow with ((⟨st, _, hr⟩ | ⟨st, _, hr⟩) | ⟨st, _, hr⟩) | ⟨st, _, hr⟩ <;> subst hr <;>
    simp [librdf_query_results_get_binding_value_by_name, List.lookup]

theorem alt_row_exists (p1 p2 : String) (direct : sparql_pattern) (m : librdf_model)
    (id : String) (s v : librdf_node) (hv : ∀ b, v ≠ librdf_node.blank b)
    (h0 : (⟨s, librdf_node.resource p1, librdf_node.blank id⟩ : librdf_statement) ∈ m)
    (h1 : (⟨librdf_node.blank id,
        librdf_node.resource "http://www.w3.org/1999/02/22-rdf-syntax-ns#type",
        librdf_node.resource "http://www.w3.org/1999/02/22-rdf-syntax-ns#Alt"⟩ :
        librdf_statement) ∈ m)
    (h2 : (⟨librdf_node.blank id,
        librdf_node.resource "http://www.w3.org/1999/02/22-rdf-syntax-ns#_1", v⟩ :
        librdf_statement) ∈ m) :
    [("subject", s), ("node", librdf_node.blank id), ("label", v)] ∈ sparql_eval
      (sparql_pattern.union
        (sparql_pattern.union
          (sparql_pattern.union
            (sparql_pattern.filter sparql_label_is_value direct)
            (sparql_pattern.filter
              (sparql_expr.ne_uri "label" "http://www.w3.org/1999/02/22-rdf-syntax-ns#Seq")
              (sparql_pattern.filter sparql_label_is_value
                (sparql_pattern.join
                  (sparql_pattern.join
                    (sparql_pattern.union (sparql_subject_pattern p1 "node")
                      (sparql_subject_pattern p2 "node"))
                    (sparql_node_type "http://www.w3.org/1999/02/22-rdf-syntax-ns#Seq"))
                  (sparql_pattern.triple ⟨sparql_term.var "node", sparql_term.var "pred",
                    sparql_term.var "label"⟩)))))
          (sparql_pattern.filter
            (sparql_expr.ne_uri "label" "http://www.w3.org/1999/02/22-rdf-syntax-ns#Bag")
            (sparql_pattern.filter sparql_label_is_value
              (sparql_pattern.join
                (sparql_pattern.join
                  (sparql_pattern.union (sparql_subject_pattern p1 "node")
                    (sparql_subject_pattern p2 "node"))
                  (sparql_node_type "http://www.w3.org/1999/02/22-rdf-syntax-ns#Bag"))
                (sparql_pattern.triple ⟨sparql_term.var "node", sparql_term.var "pred",
                  sparql_term.var "label"⟩)))))
        (sparql_pattern.filter sparql_label_is_value
          (sparql_pattern.join
            (sparql_pattern.join
              (sparql_pattern.union (sparql_subject_pattern p1 "node")
                (sparql_subject_pattern p2 "node"))
              (sparql_node_type "http://www.w3.org/1999/02/22-rdf-syntax-ns#Alt"))
            (sparql_pattern.triple ⟨sparql_term.var "node",
              sparql_term.uri "http://www.w3.org/1999/02/22-rdf-syntax-ns#_1",
              sparql_term.var "label"⟩)))) m [] := by
  rw [sparql_eval_union]
  apply List.mem_append_right
  rw [sparql_eval_filter, List.mem_filter]
  constructor
  · rw [eval_container_first]
    simp only [List.mem_flatMap, List.mem_append, List.mem_filter, List.mem_map,
      decide_eq_true_eq]
    exact ⟨_, Or.inl ⟨h0, rfl⟩, _, ⟨h1, rfl, rfl, rfl⟩, _, ⟨h2, rfl, rfl⟩, rfl⟩
  · cases v with
    | resource u =>
      simp [sparql_expr_holds, sparql_label_is_value,
        librdf_query_results_get_binding_value_by_name, List.lookup]
    | literal x d l =>
      simp [sparql_expr_holds, sparql_label_is_value,
        librdf_query_results_get_binding_value_by_name, List.lookup]
    | blank b => exact absurd rfl (hv b)

/-- C20: in a model in which the blank node `N` is typed only rdf:Alt, every
row that the source query, and every row that the creator query, obtains
through `?node` = `N` binds `label` to the object of a member statement
(N, rdf:_1, v), hence to no value that only rdf:_2 ... rdf:_n have; and when `N`
is the dc:source (dc:creator) object of a subject, is typed rdf:Alt and has a
member (N, rdf:_1, v) with `v` a literal or a resource, such a row exists. -/
theorem rdf_alt_first_member_only (m : librdf_model) (id : String)
    (honly : ∀ st ∈ m, st.subject = librdf_node.blank id →
      st.predicate = librdf_node.resource "http://www.w3.org/1999/02/22-rdf-syntax-ns#type" →
      st.object = librdf_node.resource "http://www.w3.org/1999/02/22-rdf-syntax-ns#Alt") :
    (∀ row ∈ sparql_eval source_query.pattern m [],
      librdf_query_results_get_binding_value_by_name row "node"
          = some (librdf_node.blank id) →
        ∃ st ∈ m, st.subject = librdf_node.blank id
          ∧ st.predicate
              = librdf_node.resource "http://www.w3.org/1999/02/22-rdf-syntax-ns#_1"
          ∧ librdf_query_results_get_binding_value_by_name row "label" = some st.object)
    ∧ (∀ row ∈ sparql_eval creator_query.pattern m [],
      librdf_query_results_get_binding_value_by_name row "node"
          = some (librdf_node.blank id) →
        ∃ st ∈ m, st.subject = librdf_node.blank id
          ∧ st.predicate
              = librdf_node.resource "http://www.w3.org/1999/02/22-rdf-syntax-ns#_1"
          ∧ librdf_query_results_get_binding_value_by_name row "label" = some st.object)
    ∧ (∀ s v : librdf_node, (∀ b, v ≠ librdf_node.blank b) →
        (⟨s, librdf_node.resource "http://purl.org/dc/elements/1.1/source",
          librdf_node.blank id⟩ : librdf_statement) ∈ m →
        (⟨librdf_node.blank id,
          librdf_node.resource "http://www.w3.org/1999/02/22-rdf-syntax-ns#type",
          librdf_node.resource "http://www.w3.org/1999/02/22-rdf-syntax-ns#Alt"⟩ :
          librdf_statement) ∈ m →
        (⟨librdf_node.blank id,
          librdf_node.resource "http://www.w3.org/1999/02/22-rdf-syntax-ns#_1", v⟩ :
          librdf_statement) ∈ m →
        [("subject", s), ("node", librdf_node.blank id), ("label", v)]
            ∈ sparql_eval source_query.pattern m []
          ∧ [("subject", s), ("label", v)] ∈ librdf_model_query_execute m source_query)
    ∧ (∀ s v : librdf_node, (∀ b, v ≠ librdf_node.blank b) →
        (⟨s, librdf_node.resource "http://purl.org/dc/elements/1.1/creator",
          librdf_node.blank id⟩ : librdf_statement) ∈ m →
        (⟨librdf_node.blank id,
          librdf_node.resource "http://www.w3.org/1999/02/22-rdf-syntax-ns#type",
          librdf_node.resource "http://www.w3.org/1999/02/22-rdf-syntax-ns#Alt"⟩ :
          librdf_statement) ∈ m →
        (⟨librdf_node.blank id,
          librdf_node.resource "http://www.w3.org/1999/02/22-rdf-syntax-ns#_1", v⟩ :
          librdf_statement) ∈ m →
        [("subject", s), ("node", librdf_node.blank id), ("label", v)]
            ∈ sparql_eval creator_query.pattern m []
          ∧ [("subject", s), ("label", v)] ∈ librdf_model_query_execute m creator_query) := by
  refine ⟨?_, ?_, ?_, ?_⟩
  · intro row hrow hnode
    exact alt_rows_of_pattern _ _ _ m id (source_direct_no_node m) honly row hrow hnode
  · intro row hrow hnode
    exact alt_rows_of_pattern _ _ _ m id (creator_direct_no_node m) honly row hrow hnode
  · intro s v hv h0 h1 h2
    have hmem := alt_row_exists "http://purl.org/dc/elements/1.1/source"
      "http://purl.org/dc/terms/source"
      (sparql_pattern.union
        (sparql_subject_pattern "http://purl.org/dc/elements/1.1/source" "label")
        (sparql_subject_pattern "http://purl.org/dc/terms/source" "label"))
      m id s v hv h0 h1 h2
    refine ⟨hmem, ?_⟩
    unfold librdf_model_query_execute
    rw [List.mem_map]
    exact ⟨_, hmem, by simp [source_query, creator_query, List.filter]⟩
  · intro s v hv h0 h1 h2
    have hmem := alt_row_exists "http://purl.org/dc/elements/1.1/creator"
      "http://purl.org/dc/terms/creator"
      (sparql_pattern.union
        (sparql_pattern.union
          (sparql_pattern.union
            (sparql_subject_pattern "http://purl.org/dc/elements/1.1/creator" "label")
            (sparql_subject_pattern "http://purl.org/dc/terms/creator" "label"))
          (sparql_subject_pattern "twitter:creator" "label"))
        (sparql_subject_pattern "cc:attributionName" "label"))
      m id s v hv h0 h1 h2
    refine ⟨hmem, ?_⟩
    unfold librdf_model_query_execute
    rw [List.mem_map]
    exact ⟨_, hmem, by simp [source_query, creator_query, List.filter]⟩

theorem rdf_alt_first_member_only_witness :
    (∀ st ∈ ([⟨librdf_node.resource "about:this",
            librdf_node.resource "http://purl.org/dc/elements/1.1/source",
            librdf_node.blank "n"⟩,
          ⟨librdf_node.blank "n",
            librdf_node.resource "http://www.w3.org/1999/02/22-rdf-syntax-ns#type",
            librdf_node.resource "http://www.w3.org/1999/02/22-rdf-syntax-ns#Alt"⟩,
          ⟨librdf_node.blank "n",
            librdf_node.resource "http://www.w3.org/1999/02/22-rdf-syntax-ns#_1",
            librdf_node.literal "a" none none⟩,
          ⟨librdf_node.blank "n",
            librdf_node.resource "http://www.w3.org/1999/02/22-rdf-syntax-ns#_2",
            librdf_node.literal "b" none none⟩] : librdf_model),
        st.subject = librdf_node.blank "n" →
        st.predicate
          = librdf_node.resource "http://www.w3.org/1999/02/22-rdf-syntax-ns#type" →
        st.object = librdf_node.resource "http://www.w3.org/1999/02/22-rdf-syntax-ns#Alt")
    ∧ (∀ row ∈ sparql_eval source_query.pattern
          [⟨librdf_node.resource "about:this",
            librdf_node.resource "http://purl.org/dc/elements/1.1/source",
            librdf_node.blank "n"⟩,
          ⟨librdf_node.blank "n",
            librdf_node.resource "http://www.w3.org/1999/02/22-rdf-syntax-ns#type",
            librdf_node.resource "http://www.w3.org/1999/02/22-rdf-syntax-ns#Alt"⟩,
          ⟨librdf_node.blank "n",
            librdf_node.resource "http://www.w3.org/1999/02/22-rdf-syntax-ns#_1",
            librdf_node.literal "a" none none⟩,
          ⟨librdf_node.blank "n",
            librdf_node.resource "http://www.w3.org/1999/02/22-rdf-syntax-ns#_2",
            librdf_node.literal "b" none none⟩] [],
        librdf_query_results_get_binding_value_by_name row "node"
            = some (librdf_node.blank "n") →
          ∃ st ∈ ([⟨librdf_node.resource "about:this",
            librdf_node.resource "http://purl.org/dc/elements/1.1/source",
            librdf_node.blank "n"⟩,
          ⟨librdf_node.blank "n",
            librdf_node.resource "http://www.w3.org/1999/02/22-rdf-syntax-ns#type",
            librdf_node.resource "http://www.w3.org/1999/02/22-rdf-syntax-ns#Alt"⟩,
          ⟨librdf_node.blank "n",
            librdf_node.resource "http://www.w3.org/1999/02/22-rdf-syntax-ns#_1",
            librdf_node.literal "a" none none⟩,
          ⟨librdf_node.blank "n",
            librdf_node.resource "http://www.w3.org/1999/02/22-rdf-syntax-ns#_2",
            librdf_node.literal "b" none none⟩] : librdf_model),
            st.subject = librdf_node.blank "n"
            ∧ st.predicate
                = librdf_node.resource "http://www.w3.org/1999/02/22-rdf-syntax-ns#_1"
            ∧ librdf_query_results_get_binding_value_by_name row "label" = some st.object)
    ∧ librdf_model_query_execute
          [⟨librdf_node.resource "about:this",
            librdf_node.resource "http://purl.org/dc/elements/1.1/source",
            librdf_node.blank "n"⟩,
          ⟨librdf_node.blank "n",
            librdf_node.resource "http://www.w3.org/1999/02/22-rdf-syntax-ns#type",
            librdf_node.resource "http://www.w3.org/1999/02/22-rdf-syntax-ns#Alt"⟩,
          ⟨librdf_node.blank "n",
            librdf_node.resource "http://www.w3.org/1999/02/22-rdf-syntax-ns#_1",
            librdf_node.literal "a" none none⟩,
          ⟨librdf_node.blank "n",
            librdf_node.resource "http://www.w3.org/1999/02/22-rdf-syntax-ns#_2",
            librdf_node.literal "b" none none⟩] source_query
        = [[("subject", librdf_node.resource "about:this"),
            ("label", librdf_node.literal "a" none none)]] :=
  ⟨by decide,
    (rdf_alt_first_member_only
      [⟨librdf_node.resource "about:this",
            librdf_node.resource "http://purl.org/dc/elements/1.1/source",
            librdf_node.blank "n"⟩,
          ⟨librdf_node.blank "n",
            librdf_node.resource "http://www.w3.org/1999/02/22-rdf-syntax-ns#type",
            librdf_node.resource "http://www.w3.org/1999/02/22-rdf-syntax-ns#Alt"⟩,
          ⟨librdf_node.blank "n",
            librdf_node.resource "http://www.w3.org/1999/02/22-rdf-syntax-ns#_1",
            librdf_node.literal "a" none none⟩,
          ⟨librdf_node.blank "n",
            librdf_node.resource "http://www.w3.org/1999/02/22-rdf-syntax-ns#_2",
            librdf_node.literal "b" none none⟩] "n" (by decide)).1,
    by decide⟩

/-- C17, counterexample: with `N` the resource rdf:Seq itself, on the model
(about:this, dc:source, N), (N, rdf:type, rdf:Seq), (N, rdf:_1, "a"),
(N, rdf:_2, "b") the first group of the source query returns a row that binds
`label` to the rdf:Seq URI. -/
theorem source_query_returns_seq_uri :
    ∃ row ∈ librdf_model_query_execute
        [⟨librdf_node.resource "about:this",
            librdf_node.resource "http://purl.org/dc/elements/1.1/source",
            librdf_node.resource "http://www.w3.org/1999/02/22-rdf-syntax-ns#Seq"⟩,
          ⟨librdf_node.resource "http://www.w3.org/1999/02/22-rdf-syntax-ns#Seq",
            librdf_node.resource "http://www.w3.org/1999/02/22-rdf-syntax-ns#type",
            librdf_node.resource "http://www.w3.org/1999/02/22-rdf-syntax-ns#Seq"⟩,
          ⟨librdf_node.resource "http://www.w3.org/1999/02/22-rdf-syntax-ns#Seq",
            librdf_node.resource "http://www.w3.org/1999/02/22-rdf-syntax-ns#_1",
            librdf_node.literal "a" none none⟩,
          ⟨librdf_node.resource "http://www.w3.org/1999/02/22-rdf-syntax-ns#Seq",
            librdf_node.resource "http://www.w3.org/1999/02/22-rdf-syntax-ns#_2",
            librdf_node.literal "b" none none⟩] source_query,
      librdf_query_results_get_binding_value_by_name row "label"
        = some (librdf_node.resource "http://www.w3.org/1999/02/22-rdf-syntax-ns#Seq") := by
  decide

theorem label_of_projection (sel : List String) (hsel : "label" ∈ sel)
    (row : sparql_binding) :
    librdf_query_results_get_binding_value_by_name
        (row.filter (fun b => sel.contains b.1)) "label"
      = librdf_query_results_get_binding_value_by_name row "label" := by
  unfold librdf_query_results_get_binding_value_by_name
  induction row with
  | nil => rfl
  | cons b rest ih =>
    obtain ⟨k, v⟩ := b
    by_cases hk : k = "label"
    · subst hk
      simp [List.filter_cons, hsel, List.lookup]
    · have hkb : ("label" == k) = false := by
        simpa using fun h : "label" = k => hk h.symm
      by_cases hc : k ∈ sel
      · simpa [List.filter_cons, hc, List.lookup, hkb] using ih
      · simpa [List.filter_cons, hc, List.lookup, hkb] using ih

theorem source_rows_label (m : librdf_model) (row : sparql_binding)
    (hrow : row ∈ sparql_eval source_query.pattern m []) :
    (∃ st ∈ m, (st.predicate = librdf_node.resource "http://purl.org/dc/elements/1.1/source"
          ∨ st.predicate = librdf_node.resource "http://purl.org/dc/terms/source")
        ∧ librdf_query_results_get_binding_value_by_name row "label" = some st.object)
    ∨ librdf_query_results_get_binding_value_by_name row "label"
        ≠ some (librdf_node.resource "http://www.w3.org/1999/02/22-rdf-syntax-ns#Seq")
    ∨ (∃ st ∈ m,
        st.predicate = librdf_node.resource "http://www.w3.org/1999/02/22-rdf-syntax-ns#type"
        ∧ st.object = librdf_node.resource "http://www.w3.org/1999/02/22-rdf-syntax-ns#Bag")
    ∨ (∃ st ∈ m,
        st.predicate = librdf_node.resource "http://www.w3.org/1999/02/22-rdf-syntax-ns#type"
        ∧ st.object
            = librdf_node.resource "http://www.w3.org/1999/02/22-rdf-syntax-ns#Alt") := by
  simp only [source_query, sparql_eval_union, sparql_eval_filter, eval_container_any,
    eval_container_first, eval_subject_pattern _ "label" (by decide),
    List.mem_append, List.mem_filter, List.mem_flatMap, List.mem_map, decide_eq_true_eq]
    at hrow
  rcases hrow with ((⟨hd, _⟩ | ⟨_, hne⟩) | ⟨⟨⟨st0, _, st1, ⟨hm1, h1⟩, _⟩, _⟩, _⟩)
    | ⟨⟨st0, _, st1, ⟨hm1, h1⟩, _⟩, _⟩
  · left
    rcases hd with ⟨st, ⟨hm, hp⟩, hr⟩ | ⟨st, ⟨hm, hp⟩, hr⟩
    · subst hr
      exact ⟨st, hm, Or.inl hp,
        by simp [librdf_query_results_get_binding_value_by_name, List.lookup]⟩
    · subst hr
      exact ⟨st, hm, Or.inr hp,
        by simp [librdf_query_results_get_binding_value_by_name, List.lookup]⟩
  · right; left
    intro hl
    simp [sparql_expr_holds, hl] at hne
  · right; right; left
    exact ⟨st1, hm1, h1.2.1, h1.2.2⟩
  · right; right; right
    exact ⟨st1, hm1, h1.2.1, h1.2.2⟩

theorem source_row_of_seq_member (m : librdf_model) (s n p : librdf_node) (v : String)
    (h0 : (⟨s, librdf_node.resource "http://purl.org/dc/elements/1.1/source", n⟩ :
      librdf_statement) ∈ m)
    (h1 : (⟨n, librdf_node.resource "http://www.w3.org/1999/02/22-rdf-syntax-ns#type",
        librdf_node.resource "http://www.w3.org/1999/02/22-rdf-syntax-ns#Seq"⟩ :
        librdf_statement) ∈ m)
    (h2 : (⟨n, p, librdf_node.literal v none none⟩ : librdf_statement) ∈ m) :
    [("subject", s), ("label", librdf_node.literal v none none)]
      ∈ librdf_model_query_execute m source_query := by
  unfold librdf_model_query_execute
  rw [List.mem_map]
  refine ⟨[("subject", s), ("node", n), ("pred", p),
    ("label", librdf_node.literal v none none)], ?_, by simp [source_query, List.filter]⟩
  simp only [source_query, sparql_eval_union]
  apply List.mem_append_left
  apply List.mem_append_left
  apply List.mem_append_right
  rw [sparql_eval_filter, List.mem_filter, sparql_eval_filter, List.mem_filter]
  refine ⟨⟨?_, ?_⟩, ?_⟩
  · rw [eval_container_any]
    simp only [List.mem_flatMap, List.mem_append, List.mem_filter, List.mem_map,
      decide_eq_true_eq]
    exact ⟨_, Or.inl ⟨h0, rfl⟩, _, ⟨h1, rfl, rfl, rfl⟩, _, ⟨h2, rfl⟩, rfl⟩
  · simp [sparql_expr_holds, sparql_label_is_value,
      librdf_query_results_get_binding_value_by_name, List.lookup]
  · simp [sparql_expr_holds, librdf_query_results_get_binding_value_by_name, List.lookup]

/-- C17, amended: for every subject `S`, literals "a" and "b" and every node `N`
other than the resource rdf:Seq itself, on the model (S, dc:source, N),
(N, rdf:type, rdf:Seq), (N, rdf:_1, "a"), (N, rdf:_2, "b") the source query
returns a row that binds `label` to "a" and a row that binds `label` to "b",
and no row binds `label` to the rdf:Seq URI. -/
theorem source_query_seq_rows (S N : librdf_node) (a b : String)
    (hN : N ≠ librdf_node.resource "http://www.w3.org/1999/02/22-rdf-syntax-ns#Seq") :
    [("subject", S), ("label", librdf_node.literal a none none)]
      ∈ librdf_model_query_execute
        [⟨S, librdf_node.resource "http://purl.org/dc/elements/1.1/source", N⟩,
          ⟨N, librdf_node.resource "http://www.w3.org/1999/02/22-rdf-syntax-ns#type",
            librdf_node.resource "http://www.w3.org/1999/02/22-rdf-syntax-ns#Seq"⟩,
          ⟨N, librdf_node.resource "http://www.w3.org/1999/02/22-rdf-syntax-ns#_1",
            librdf_node.literal a none none⟩,
          ⟨N, librdf_node.resource "http://www.w3.org/1999/02/22-rdf-syntax-ns#_2",
            librdf_node.literal b none none⟩] source_query
    ∧ [("subject", S), ("label", librdf_node.literal b none none)]
      ∈ librdf_model_query_execute
        [⟨S, librdf_node.resource "http://purl.org/dc/elements/1.1/source", N⟩,
          ⟨N, librdf_node.resource "http://www.w3.org/1999/02/22-rdf-syntax-ns#type",
            librdf_node.resource "http://www.w3.org/1999/02/22-rdf-syntax-ns#Seq"⟩,
          ⟨N, librdf_node.resource "http://www.w3.org/1999/02/22-rdf-syntax-ns#_1",
            librdf_node.literal a none none⟩,
          ⟨N, librdf_node.resource "http://www.w3.org/1999/02/22-rdf-syntax-ns#_2",
            librdf_node.literal b none none⟩] source_query
    ∧ (∀ row ∈ librdf_model_query_execute
        [⟨S, librdf_node.resource "http://purl.org/dc/elements/1.1/source", N⟩,
          ⟨N, librdf_node.resource "http://www.w3.org/1999/02/22-rdf-syntax-ns#type",
            librdf_node.resource "http://www.w3.org/1999/02/22-rdf-syntax-ns#Seq"⟩,
          ⟨N, librdf_node.resource "http://www.w3.org/1999/02/22-rdf-syntax-ns#_1",
            librdf_node.literal a none none⟩,
          ⟨N, librdf_node.resource "http://www.w3.org/1999/02/22-rdf-syntax-ns#_2",
            librdf_node.literal b none none⟩] source_query,
      librdf_query_results_get_binding_value_by_name row "label"
        ≠ some (librdf_node.resource "http://www.w3.org/1999/02/22-rdf-syntax-ns#Seq")) := by
  refine ⟨?_, ?_, ?_⟩
  · exact source_row_of_seq_member _ S N
      (librdf_node.resource "http://www.w3.org/1999/02/22-rdf-syntax-ns#_1") a
      (by simp) (by simp) (by simp)
  · exact source_row_of_seq_member _ S N
      (librdf_node.resource "http://www.w3.org/1999/02/22-rdf-syntax-ns#_2") b
      (by simp) (by simp) (by simp)
  · intro row hrow
    unfold librdf_model_query_execute at hrow
    rw [List.mem_map] at hrow
    obtain ⟨μ, hμ, rfl⟩ := hrow
    rw [label_of_projection _ (by simp [source_query])]
    rcases source_rows_label _ μ hμ with ⟨st, hm, hp, hl⟩ | hne | ⟨st, hm, hp, ho⟩
      | ⟨st, hm, hp, ho⟩
    · rw [hl]
      simp only [List.mem_cons, List.mem_singleton, List.not_mem_nil, or_false] at hm
      rcases hm with rfl | rfl | rfl | rfl
      · simpa using hN
      · simp at hp
      · simp at hp
      · simp at hp
    · exact hne
    · simp only [List.mem_cons, List.mem_singleton, List.not_mem_nil, or_false] at hm
      rcases hm with rfl | rfl | rfl | rfl <;> simp at hp ho
    · simp only [List.mem_cons, List.mem_singleton, List.not_mem_nil, or_false] at hm
      rcases hm with rfl | rfl | rfl | rfl <;> simp at hp ho

theorem rdf_li_ne (k : Nat) (u : String)
    (hu : ¬ "http://www.w3.org/1999/02/22-rdf-syntax-ns#_".data <+: u.data) :
    rdf_li k ≠ u := by
  intro h
  apply hu
  rw [← h, rdf_li, String.data_append]
  exact List.prefix_append _ _

theorem container_any_empty (p1 p2 c : String) (m : librdf_model)
    (h : ∀ st ∈ m, ¬ (st.predicate
          = librdf_node.resource "http://www.w3.org/1999/02/22-rdf-syntax-ns#type"
        ∧ st.object = librdf_node.resource c)) :
    sparql_eval
        (sparql_pattern.join
          (sparql_pattern.join
            (sparql_pattern.union (sparql_subject_pattern p1 "node")
              (sparql_subject_pattern p2 "node"))
            (sparql_node_type c))
          (sparql_pattern.triple ⟨sparql_term.var "node", sparql_term.var "pred",
            sparql_term.var "label"⟩)) m [] = [] := by
  rw [eval_container_any]
  apply List.eq_nil_iff_forall_not_mem.mpr
  intro row hrow
  simp only [List.mem_flatMap, List.mem_filter, decide_eq_true_eq] at hrow
  obtain ⟨_, _, st1, ⟨hm1, h1⟩, _⟩ := hrow
  exact h st1 hm1 ⟨h1.2.1, h1.2.2⟩

theorem container_first_empty (p1 p2 c q : String) (m : librdf_model)
    (h : ∀ st ∈ m, ¬ (st.predicate
          = librdf_node.resource "http://www.w3.org/1999/02/22-rdf-syntax-ns#type"
        ∧ st.object = librdf_node.resource c)) :
    sparql_eval
        (sparql_pattern.join
          (sparql_pattern.join
            (sparql_pattern.union (sparql_subject_pattern p1 "node")
              (sparql_subject_pattern p2 "node"))
            (sparql_node_type c))
          (sparql_pattern.triple ⟨sparql_term.var "node", sparql_term.uri q,
            sparql_term.var "label"⟩)) m [] = [] := by
  rw [eval_container_first]
  apply List.eq_nil_iff_forall_not_mem.mpr
  intro row hrow
  simp only [List.mem_flatMap, List.mem_filter, decide_eq_true_eq] at hrow
  obtain ⟨_, _, st1, ⟨hm1, h1⟩, _⟩ := hrow
  exact h st1 hm1 ⟨h1.2.1, h1.2.2⟩

theorem direct_rows_empty (q : String) (m : librdf_model)
    (h : ∀ st ∈ m, st.predicate = librdf_node.resource q → ∃ b, st.object = librdf_node.blank b) :
    (sparql_eval (sparql_subject_pattern q "label") m []).filter
        (fun r => sparql_expr_holds r sparql_label_is_value) = [] := by
  rw [eval_subject_pattern q "label" (by decide), List.filter_eq_nil_iff]
  intro row hrow
  rw [List.mem_map] at hrow
  obtain ⟨st, hst, rfl⟩ := hrow
  rw [List.mem_filter, decide_eq_true_eq] at hst
  obtain ⟨b, hb⟩ := h st hst.1 hst.2
  simp [sparql_expr_holds, sparql_label_is_value,
    librdf_query_results_get_binding_value_by_name, List.lookup, hb]

/-! ## Metadata -/

theorem append_scan_none (value : String) (values : List String) (k : Nat)
    (h : value ∈ values) : gimp_metadata_append_tag_value_scan value values k = none := by
  induction values generalizing k with
  | nil => cases h
  | cons v rest ih =>
    by_cases hv : v = value
    · simp [gimp_metadata_append_tag_value_scan, hv]
    · have : value ∈ rest := by
        rcases List.mem_cons.mp h with h1 | h1
        · exact absurd h1.symm hv
        · exact h1
      simp [gimp_metadata_append_tag_value_scan, hv, ih k.succ this]

theorem append_scan_some (value : String) (values : List String) (k : Nat)
    (h : value ∉ values) :
    gimp_metadata_append_tag_value_scan value values k = some (k + values.length) := by
  induction values generalizing k with
  | nil => simp [gimp_metadata_append_tag_value_scan]
  | cons v rest ih =>
    have hv : ¬ v = value := fun e => h (by simp [e])
    have hr : value ∉ rest := fun e => h (List.mem_cons_of_mem _ e)
    simp only [gimp_metadata_append_tag_value_scan, hv, if_false, ih (k + 1) hr,
      List.length_cons]
    congr 1
    omega

theorem append_tag_value_same (metadata : GExiv2Metadata) (tagname value : String) :
    (gimp_metadata_append_tag_value metadata tagname value) tagname
      = if value ∈ metadata tagname then metadata tagname
        else metadata tagname ++ [value] := by
  unfold gimp_metadata_append_tag_value gexiv2_metadata_get_tag_multiple
  by_cases h : value ∈ metadata tagname
  · simp [append_scan_none value _ 1 h, h]
  · simp [append_scan_some value _ 1 h, h, gexiv2_metadata_set_tag_multiple]

theorem append_tag_value_other (metadata : GExiv2Metadata) (tagname value t : String)
    (ht : t ≠ tagname) :
    (gimp_metadata_append_tag_value metadata tagname value) t = metadata t := by
  unfold gimp_metadata_append_tag_value gexiv2_metadata_get_tag_multiple
  by_cases h : value ∈ metadata tagname
  · simp [append_scan_none value _ 1 h]
  · simp [append_scan_some value _ 1 h, gexiv2_metadata_set_tag_multiple, ht]

theorem write_metadata_rows_eq_foldl (tagname : String) (rows : List sparql_binding)
    (metadata : GExiv2Metadata) :
    gimp_attribution_write_metadata_rows tagname rows metadata
      = (rows.filterMap (fun row => gimp_attribution_write_metadata_value
            (librdf_query_results_get_binding_value_by_name row "label"))).foldl
          (fun md value => gimp_metadata_append_tag_value md tagname value) metadata := by
  induction rows generalizing metadata with
  | nil => rfl
  | cons row rest ih =>
    rw [gimp_attribution_write_metadata_rows, List.filterMap_cons]
    cases hv : gimp_attribution_write_metadata_value
        (librdf_query_results_get_binding_value_by_name row "label") with
    | none => simp only [ih]
    | some v => simp only [ih, List.foldl_cons]

theorem write_metadata_rows_other (tagname t : String) (ht : t ≠ tagname)
    (rows : List sparql_binding) (metadata : GExiv2Metadata) :
    (gimp_attribution_write_metadata_rows tagname rows metadata) t = metadata t := by
  induction rows generalizing metadata with
  | nil => rfl
  | cons row rest ih =>
    rw [gimp_attribution_write_metadata_rows]
    cases hv : gimp_attribution_write_metadata_value
        (librdf_query_results_get_binding_value_by_name row "label") with
    | none => simp only [ih]
    | some v => simp only [ih, append_tag_value_other _ _ _ _ ht]

theorem foldl_append_tag_value_nodup (tagname : String) (values : List String)
    (metadata : GExiv2Metadata) (hnd : values.Nodup)
    (hnew : ∀ v ∈ values, v ∉ metadata tagname) :
    (values.foldl (fun md value => gimp_metadata_append_tag_value md tagname value)
        metadata) tagname = metadata tagname ++ values := by
  induction values generalizing metadata with
  | nil => simp
  | cons v rest ih =>
    rw [List.foldl_cons]
    have hv : v ∉ metadata tagname := hnew v (List.mem_cons_self _ _)
    have hstep : (gimp_metadata_append_tag_value metadata tagname v) tagname
        = metadata tagname ++ [v] := by
      rw [append_tag_value_same]; simp [hv]
    rw [ih _ (List.nodup_cons.mp hnd).2, hstep]
    · simp
    · intro w hw
      rw [hstep]
      intro hmem
      rcases List.mem_append.mp hmem with h1 | h1
      · exact hnew w (List.mem_cons_of_mem _ hw) h1
      · have : w = v := by simpa using h1
        subst this
        exact (List.nodup_cons.mp hnd).1 hw

/-- C18: in a result loop of `gimp_attribution_write_metadata` a literal bound
to `label` gives its string value, a resource its URI string, and a blank node
no value; each row is handled in turn, a value is passed to
`gimp_metadata_append_tag_value` and a row without value changes nothing, so the
loop amounts to appending, in row order, the values of the rows that have one,
and it touches no other tag.  For the rows "a", a blank node, http://example.org/x
the tag becomes "a", http://example.org/x. -/
theorem gimp_attribution_write_metadata_binding_values :
    (∀ value datatype language,
      gimp_attribution_write_metadata_value
        (some (librdf_node.literal value datatype language)) = some value)
    ∧ (∀ uri,
      gimp_attribution_write_metadata_value (some (librdf_node.resource uri)) = some uri)
    ∧ (∀ id, gimp_attribution_write_metadata_value (some (librdf_node.blank id)) = none)
    ∧ (∀ (tagname : String) (row : sparql_binding) (rest : List sparql_binding)
        (metadata : GExiv2Metadata),
      gimp_attribution_write_metadata_rows tagname (row :: rest) metadata
        = gimp_attribution_write_metadata_rows tagname rest
            (match gimp_attribution_write_metadata_value
                (librdf_query_results_get_binding_value_by_name row "label") with
              | some value => gimp_metadata_append_tag_value metadata tagname value
              | none => metadata))
    ∧ (∀ (tagname : String) (rows : List sparql_binding) (metadata : GExiv2Metadata),
      gimp_attribution_write_metadata_rows tagname rows metadata
        = (rows.filterMap (fun row => gimp_attribution_write_metadata_value
              (librdf_query_results_get_binding_value_by_name row "label"))).foldl
            (fun md value => gimp_metadata_append_tag_value md tagname value) metadata)
    ∧ (∀ (attrib : GimpAttribution) (metadata : GExiv2Metadata),
      gimp_attribution_write_metadata attrib metadata
        = gimp_attribution_write_metadata_rows "Xmp.dc.creator"
            (librdf_model_query_execute attrib.model creator_query)
            (gexiv2_metadata_clear_tag
              (gimp_attribution_write_metadata_rows "Xmp.dc.source"
                (librdf_model_query_execute attrib.model source_query)
                (gexiv2_metadata_clear_tag metadata "Xmp.dc.source"))
              "Xmp.dc.creator"))
    ∧ (∀ (tagname : String) (rows : List sparql_binding) (metadata : GExiv2Metadata)
        (t : String), t ≠ tagname →
      (gimp_attribution_write_metadata_rows tagname rows metadata) t = metadata t)
    ∧ (gimp_attribution_write_metadata_rows "Xmp.dc.source"
        [[("subject", librdf_node.resource "about:this"),
            ("label", librdf_node.literal "a" none none)],
          [("subject", librdf_node.resource "about:this"), ("label", librdf_node.blank "n")],
          [("subject", librdf_node.resource "about:this"),
            ("label", librdf_node.resource "http://example.org/x")]]
        (fun _ => [])) "Xmp.dc.source" = ["a", "http://example.org/x"] := by
  refine ⟨fun _ _ _ => rfl, fun _ => rfl, fun _ => rfl, fun _ _ _ _ => rfl, ?_, fun _ _ => rfl,
    ?_, by decide⟩
  · exact write_metadata_rows_eq_foldl
  · intro tagname rows metadata t ht
    exact write_metadata_rows_other tagname t ht rows metadata

theorem write_metadata_source_tag (attrib : GimpAttribution) (metadata : GExiv2Metadata) :
    (gimp_attribution_write_metadata attrib metadata) "Xmp.dc.source"
      = (gimp_attribution_write_metadata_rows "Xmp.dc.source"
          (librdf_model_query_execute attrib.model source_query)
          (gexiv2_metadata_clear_tag metadata "Xmp.dc.source")) "Xmp.dc.source" := by
  unfold gimp_attribution_write_metadata
  rw [write_metadata_rows_other "Xmp.dc.creator" "Xmp.dc.source" (by decide)]
  simp [gexiv2_metadata_clear_tag]

theorem write_metadata_creator_tag (attrib : GimpAttribution) (metadata : GExiv2Metadata) :
    (gimp_attribution_write_metadata attrib metadata) "Xmp.dc.creator"
      = (gimp_attribution_write_metadata_rows "Xmp.dc.creator"
          (librdf_model_query_execute attrib.model creator_query)
          (fun _ => [])) "Xmp.dc.creator" := by
  unfold gimp_attribution_write_metadata
  rw [write_metadata_rows_eq_foldl, write_metadata_rows_eq_foldl "Xmp.dc.creator" _ (fun _ => [])]
  generalize (List.filterMap (fun row => gimp_attribution_write_metadata_value
    (librdf_query_results_get_binding_value_by_name row "label"))
    (librdf_model_query_execute attrib.model creator_query)) = vals
  generalize (gimp_attribution_write_metadata_rows "Xmp.dc.source"
    (librdf_model_query_execute attrib.model source_query)
    (gexiv2_metadata_clear_tag metadata "Xmp.dc.source")) = md0
  have key : ∀ (vals : List String) (mdA mdB : GExiv2Metadata),
      mdA "Xmp.dc.creator" = mdB "Xmp.dc.creator" →
      (vals.foldl (fun md value => gimp_metadata_append_tag_value md "Xmp.dc.creator" value)
          mdA) "Xmp.dc.creator"
        = (vals.foldl (fun md value => gimp_metadata_append_tag_value md "Xmp.dc.creator" value)
          mdB) "Xmp.dc.creator" := by
    intro vals
    induction vals with
    | nil => intro mdA mdB h; simpa using h
    | cons v rest ih =>
      intro mdA mdB h
      rw [List.foldl_cons, List.foldl_cons]
      apply ih
      rw [append_tag_value_same, append_tag_value_same, h]
  apply key
  simp [gexiv2_metadata_clear_tag]

/-- C19, counterexample: with the members of the rdf:Seq node inserted as
(N, rdf:_2, "b") before (N, rdf:_1, "a"), `gimp_attribution_write_metadata`
leaves Xmp.dc.source as "b", "a"; and with the members inserted in index order
after a statement (about:this, dc:source, "b"), it leaves "b", "a" as well.
The loop itself keeps the order of the rows it is given: for a row of "b"
followed by a row of "a" it leaves "b", "a". -/
theorem gimp_attribution_write_metadata_seq_not_index_order :
    (gimp_attribution_write_metadata
        ⟨[⟨librdf_node.resource "about:this",
            librdf_node.resource "http://purl.org/dc/elements/1.1/source",
            librdf_node.blank "n"⟩,
          ⟨librdf_node.blank "n",
            librdf_node.resource "http://www.w3.org/1999/02/22-rdf-syntax-ns#type",
            librdf_node.resource "http://www.w3.org/1999/02/22-rdf-syntax-ns#Seq"⟩,
          ⟨librdf_node.blank "n",
            librdf_node.resource "http://www.w3.org/1999/02/22-rdf-syntax-ns#_2",
            librdf_node.literal "b" none none⟩,
          ⟨librdf_node.blank "n",
            librdf_node.resource "http://www.w3.org/1999/02/22-rdf-syntax-ns#_1",
            librdf_node.literal "a" none none⟩]⟩ (fun _ => [])) "Xmp.dc.source" = ["b", "a"]
    ∧ (gimp_attribution_write_metadata
        ⟨[⟨librdf_node.resource "about:this",
            librdf_node.resource "http://purl.org/dc/elements/1.1/source",
            librdf_node.literal "b" none none⟩,
          ⟨librdf_node.resource "about:this",
            librdf_node.resource "http://purl.org/dc/elements/1.1/source",
            librdf_node.blank "n"⟩,
          ⟨librdf_node.blank "n",
            librdf_node.resource "http://www.w3.org/1999/02/22-rdf-syntax-ns#type",
            librdf_node.resource "http://www.w3.org/1999/02/22-rdf-syntax-ns#Seq"⟩,
          ⟨librdf_node.blank "n",
            librdf_node.resource "http://www.w3.org/1999/02/22-rdf-syntax-ns#_1",
            librdf_node.literal "a" none none⟩,
          ⟨librdf_node.blank "n",
            librdf_node.resource "http://www.w3.org/1999/02/22-rdf-syntax-ns#_2",
            librdf_node.literal "b" none none⟩]⟩ (fun _ => [])) "Xmp.dc.source"
        = ["b", "a"]
    ∧ (gimp_attribution_write_metadata_rows "Xmp.dc.source"
        [[("subject", librdf_node.resource "about:this"),
            ("label", librdf_node.literal "b" none none)],
          [("subject", librdf_node.resource "about:this"),
            ("label", librdf_node.literal "a" none none)]]
        (fun _ => [])) "Xmp.dc.source" = ["b", "a"] := by
  refine ⟨by decide, by decide, by decide⟩

theorem source_query_seq_rows_witness :
    [("subject", librdf_node.resource "about:this"), ("label", librdf_node.literal "a" none none)]
      ∈ librdf_model_query_execute
        [⟨librdf_node.resource "about:this",
            librdf_node.resource "http://purl.org/dc/elements/1.1/source",
            librdf_node.blank "n"⟩,
          ⟨librdf_node.blank "n",
            librdf_node.resource "http://www.w3.org/1999/02/22-rdf-syntax-ns#type",
            librdf_node.resource "http://www.w3.org/1999/02/22-rdf-syntax-ns#Seq"⟩,
          ⟨librdf_node.blank "n",
            librdf_node.resource "http://www.w3.org/1999/02/22-rdf-syntax-ns#_1",
            librdf_node.literal "a" none none⟩,
          ⟨librdf_node.blank "n",
            librdf_node.resource "http://www.w3.org/1999/02/22-rdf-syntax-ns#_2",
            librdf_node.literal "b" none none⟩] source_query
    ∧ [("subject", librdf_node.resource "about:this"),
        ("label", librdf_node.literal "b" none none)]
      ∈ librdf_model_query_execute
        [⟨librdf_node.resource "about:this",
            librdf_node.resource "http://purl.org/dc/elements/1.1/source",
            librdf_node.blank "n"⟩,
          ⟨librdf_node.blank "n",
            librdf_node.resource "http://www.w3.org/1999/02/22-rdf-syntax-ns#type",
            librdf_node.resource "http://www.w3.org/1999/02/22-rdf-syntax-ns#Seq"⟩,
          ⟨librdf_node.blank "n",
            librdf_node.resource "http://www.w3.org/1999/02/22-rdf-syntax-ns#_1",
            librdf_node.literal "a" none none⟩,
          ⟨librdf_node.blank "n",
            librdf_node.resource "http://www.w3.org/1999/02/22-rdf-syntax-ns#_2",
            librdf_node.literal "b" none none⟩] source_query
    ∧ (∀ row ∈ librdf_model_query_execute
        [⟨librdf_node.resource "about:this",
            librdf_node.resource "http://purl.org/dc/elements/1.1/source",
            librdf_node.blank "n"⟩,
          ⟨librdf_node.blank "n",
            librdf_node.resource "http://www.w3.org/1999/02/22-rdf-syntax-ns#type",
            librdf_node.resource "http://www.w3.org/1999/02/22-rdf-syntax-ns#Seq"⟩,
          ⟨librdf_node.blank "n",
            librdf_node.resource "http://www.w3.org/1999/02/22-rdf-syntax-ns#_1",
            librdf_node.literal "a" none none⟩,
          ⟨librdf_node.blank "n",
            librdf_node.resource "http://www.w3.org/1999/02/22-rdf-syntax-ns#_2",
            librdf_node.literal "b" none none⟩] source_query,
      librdf_query_results_get_binding_value_by_name row "label"
        ≠ some (librdf_node.resource "http://www.w3.org/1999/02/22-rdf-syntax-ns#Seq")) :=
  source_query_seq_rows (librdf_node.resource "about:this") (librdf_node.blank "n") "a" "b"
    (by decide)

/-! ## Tag support, combine_check frame, load_from_xmp link statement -/

/-- C22: `gimp_metadata_is_tag_supported (tag, mime_type)` is `FALSE` exactly
when the tag begins with an entry of `unsupported_tags`, or the mime type is
image/jpeg and the tag begins with an entry of `tiff_tags`, or the mime type is
image/tiff and the tag begins with an entry of `jpeg_tags`; for every other
mime type it is `FALSE` exactly when the tag begins with an entry of
`unsupported_tags`. -/
theorem gimp_metadata_is_tag_supported_iff (tag mime_type : String) :
    (gimp_metadata_is_tag_supported tag mime_type = false
      ↔ (∃ entry ∈ unsupported_tags, entry.data <+: tag.data)
        ∨ (mime_type = "image/jpeg" ∧ ∃ entry ∈ tiff_tags, entry.data <+: tag.data)
        ∨ (mime_type = "image/tiff" ∧ ∃ entry ∈ jpeg_tags, entry.data <+: tag.data))
    ∧ (mime_type ≠ "image/jpeg" → mime_type ≠ "image/tiff" →
        (gimp_metadata_is_tag_supported tag mime_type = false
          ↔ ∃ entry ∈ unsupported_tags, entry.data <+: tag.data)) := by
  have hany : ∀ table : List String,
      (table.any (fun entry => g_str_has_prefix tag entry) = true
        ↔ ∃ entry ∈ table, entry.data <+: tag.data) := by
    intro table
    simp only [List.any_eq_true, g_str_has_prefix, List.isPrefixOf_iff_prefix]
  have hjt : ("image/jpeg" : String) ≠ "image/tiff" := by decide
  constructor
  · unfold gimp_metadata_is_tag_supported
    by_cases hu : unsupported_tags.any (fun entry => g_str_has_prefix tag entry) = true
    · simp only [hu, if_true, true_iff]
      exact Or.inl ((hany _).mp hu)
    · have hu' : ¬ ∃ entry ∈ unsupported_tags, entry.data <+: tag.data :=
        fun h => hu ((hany _).mpr h)
      simp only [hu, Bool.false_eq_true, if_false, hu', false_or]
      by_cases hj : mime_type = "image/jpeg"
      · subst hj
        by_cases ht : tiff_tags.any (fun entry => g_str_has_prefix tag entry) = true
        · have := (hany _).mp ht
          simp [ht, this]
        · have : ¬ ∃ entry ∈ tiff_tags, entry.data <+: tag.data :=
            fun h => ht ((hany _).mpr h)
          simp [ht, this]
      · by_cases hti : mime_type = "image/tiff"
        · subst hti
          by_cases ht : jpeg_tags.any (fun entry => g_str_has_prefix tag entry) = true
          · have := (hany _).mp ht
            simp [ht, this]
          · have : ¬ ∃ entry ∈ jpeg_tags, entry.data <+: tag.data :=
              fun h => ht ((hany _).mpr h)
            simp [ht, this]
        · simp [hj, hti]
  · intro hj hti
    unfold gimp_metadata_is_tag_supported
    by_cases hu : unsupported_tags.any (fun entry => g_str_has_prefix tag entry) = true
    · simp only [hu, if_true, true_iff]
      exact (hany _).mp hu
    · have hu' : ¬ ∃ entry ∈ unsupported_tags, entry.data <+: tag.data :=
        fun h => hu ((hany _).mpr h)
      simp [hu, hj, hti, hu']

/-- C23: `gimp_attribution_combine_check (attrib, other)` leaves `other` as it
was: every statement of the stream of `other` is contained in `other`, so the
loop adds nothing to it, and the statement sequence of `other` after the call
is the one before. -/
theorem gimp_attribution_combine_check_keeps_other :
    (∀ attrib other : GimpAttribution,
      (gimp_attribution_combine_check attrib other).2 = other
        ∧ (gimp_attribution_combine_check attrib other).2.model = other.model)
    ∧ (∀ (other : GimpAttribution) (st : librdf_statement),
        st ∈ (librdf_model_as_stream other.model).pending →
          librdf_model_contains_statement other.model st = true)
    ∧ (∀ other : GimpAttribution,
        (gimp_attribution_combine_check_loop (librdf_model_as_stream other.model).pending
          other.model).1 = other.model) := by
  refine ⟨fun attrib other => ?_, fun other st hst => ?_, fun other => ?_⟩
  · rw [combine_check_eq]
    exact ⟨rfl, rfl⟩
  · simpa [librdf_model_contains_statement, librdf_model_as_stream] using hst
  · show (gimp_attribution_combine_check_loop other.model other.model).1 = other.model
    rw [combine_check_loop_of_subset other.model other.model (fun _ h => h)]

/-- C24: on every path on which `gimp_attribution_load_from_xmp` returns a
result, the statement (about:this, dc:source, base_uri) was added before the
parser ran; a parser that keeps the statements already in the model leaves it
there, whether the result is `TRUE` or `FALSE`, and when the parser fails
without adding anything the model after the call is the old model followed by
that statement. -/
theorem gimp_attribution_load_from_xmp_link_statement
    (parse : List Char → Option String → librdf_model → Int × librdf_model)
    (attrib : GimpAttribution) (packet : List Char) (base_uri : String)
    (hkeep : ∀ text uri m st, st ∈ m → st ∈ (parse text uri m).2)
    (result : Bool) (after : GimpAttribution)
    (hret : gimp_attribution_load_from_xmp parse attrib packet base_uri
      = Except.ok (result, after)) :
    (⟨librdf_node.resource "about:this",
        librdf_node.resource "http://purl.org/dc/elements/1.1/source",
        librdf_node.resource base_uri⟩ : librdf_statement) ∈ after.model
    ∧ (∀ st ∈ attrib.model, st ∈ after.model)
    ∧ ∃ rdf : List Char,
        after.model = (parse rdf (some base_uri)
          (attrib.model ++ [⟨librdf_node.resource "about:this",
            librdf_node.resource "http://purl.org/dc/elements/1.1/source",
            librdf_node.resource base_uri⟩])).2
        ∧ result = ((parse rdf (some base_uri)
          (attrib.model ++ [⟨librdf_node.resource "about:this",
            librdf_node.resource "http://purl.org/dc/elements/1.1/source",
            librdf_node.resource base_uri⟩])).1 == 0) := by
  unfold gimp_attribution_load_from_xmp at hret
  cases hl : g_strrstr packet "</rdf:RDF>".toList with
  | none => rw [hl] at hret; cases hret
  | some last =>
    rw [hl] at hret
    cases hs : g_strstr_len packet "<rdf:RDF".toList with
    | none => rw [hs] at hret; cases hret
    | some start =>
      rw [hs] at hret
      simp only [Option.map_some', gimp_attribution_load_from_string_with_uri,
        librdf_model_add, librdf_model_add_statement, librdf_new_node_from_uri_string,
        librdf_new_uri, Except.ok.injEq, Prod.mk.injEq] at hret
      obtain ⟨hres, hafter⟩ := hret
      subst hafter
      refine ⟨?_, ?_, _, rfl, hres.symm⟩
      · exact hkeep _ _ _ _ (by simp)
      · intro st hst
        exact hkeep _ _ _ _ (by simp [hst])

theorem gimp_attribution_load_from_xmp_link_statement_witness :
    (⟨librdf_node.resource "about:this",
        librdf_node.resource "http://purl.org/dc/elements/1.1/source",
        librdf_node.resource "about:that"⟩ : librdf_statement)
      ∈ (⟨[⟨librdf_node.resource "about:this",
            librdf_node.resource "http://purl.org/dc/elements/1.1/source",
            librdf_node.resource "about:that"⟩]⟩ : GimpAttribution).model
    ∧ gimp_attribution_load_from_xmp (fun _ _ m => (1, m)) gimp_attribution_new
        "<x><rdf:RDF></rdf:RDF></x>".toList "about:that"
      = Except.ok (false, ⟨[⟨librdf_node.resource "about:this",
            librdf_node.resource "http://purl.org/dc/elements/1.1/source",
            librdf_node.resource "about:that"⟩]⟩) :=
  ⟨(gimp_attribution_load_from_xmp_link_statement (fun _ _ m => (1, m))
      gimp_attribution_new "<x><rdf:RDF></rdf:RDF></x>".toList "about:that"
      (fun _ _ _ _ h => h) false
      ⟨[⟨librdf_node.resource "about:this",
            librdf_node.resource "http://purl.org/dc/elements/1.1/source",
            librdf_node.resource "about:that"⟩]⟩
      rfl).1,
    rfl⟩

/-! ## Append without duplicates, literal IRIs of the creator query -/

theorem foldl_append_tag_value_list (tagname : String) (values : List String)
    (metadata : GExiv2Metadata) :
    (values.foldl (fun md value => gimp_metadata_append_tag_value md tagname value)
        metadata) tagname
      = values.foldl (fun l value => if value ∈ l then l else l ++ [value])
          (metadata tagname) := by
  induction values generalizing metadata with
  | nil => rfl
  | cons v rest ih =>
    rw [List.foldl_cons, List.foldl_cons, ih, append_tag_value_same]

theorem foldl_first_occurrences (values : List String) :
    values.foldl (fun l value => if value ∈ l then l else l ++ [value]) []
      = values.reverse.dedup.reverse := by
  induction values using List.reverseRecOn with
  | nil => rfl
  | append_singleton vs v ih =>
    rw [List.foldl_append, List.foldl_cons, List.foldl_nil, ih, List.reverse_append,
      List.reverse_singleton, List.singleton_append]
    by_cases hv : v ∈ vs
    · have h1 : v ∈ vs.reverse.dedup.reverse := by simpa using hv
      have h2 : v ∈ vs.reverse := by simpa using hv
      rw [if_pos h1, List.dedup_cons_of_mem h2]
    · have h1 : v ∉ vs.reverse.dedup.reverse := by simpa using hv
      have h2 : v ∉ vs.reverse := by simpa using hv
      rw [if_neg h1, List.dedup_cons_of_not_mem h2, List.reverse_cons]

/-- C25: the static `gimp_metadata_append_tag_value` of gimpattribution.c leaves
the list of the tag as it is when the value is in it and otherwise sets it to
the old list followed by the value, and changes no other tag; so after
`gimp_attribution_write_metadata` the lists of Xmp.dc.source and Xmp.dc.creator
hold each value of the query rows once, at the place of its first occurrence
among the rows. -/
theorem gimp_metadata_append_tag_value_no_duplicates :
    (∀ (metadata : GExiv2Metadata) (tagname value : String),
      (gimp_metadata_append_tag_value metadata tagname value) tagname
        = if value ∈ metadata tagname then metadata tagname
          else metadata tagname ++ [value])
    ∧ (∀ (metadata : GExiv2Metadata) (tagname value t : String), t ≠ tagname →
      (gimp_metadata_append_tag_value metadata tagname value) t = metadata t)
    ∧ (∀ (attrib : GimpAttribution) (metadata : GExiv2Metadata),
      (gimp_attribution_write_metadata attrib metadata) "Xmp.dc.source"
          = (((librdf_model_query_execute attrib.model source_query).filterMap
              (fun row => gimp_attribution_write_metadata_value
                (librdf_query_results_get_binding_value_by_name row "label"))).reverse.dedup).reverse
        ∧ ((gimp_attribution_write_metadata attrib metadata) "Xmp.dc.source").Nodup)
    ∧ (∀ (attrib : GimpAttribution) (metadata : GExiv2Metadata),
      (gimp_attribution_write_metadata attrib metadata) "Xmp.dc.creator"
          = (((librdf_model_query_execute attrib.model creator_query).filterMap
              (fun row => gimp_attribution_write_metadata_value
                (librdf_query_results_get_binding_value_by_name row "label"))).reverse.dedup).reverse
        ∧ ((gimp_attribution_write_metadata attrib metadata) "Xmp.dc.creator").Nodup) := by
  refine ⟨append_tag_value_same, ?_, ?_, ?_⟩
  · intro metadata tagname value t ht
    exact append_tag_value_other metadata tagname value t ht
  · intro attrib metadata
    have h : (gimp_attribution_write_metadata attrib metadata) "Xmp.dc.source"
        = (((librdf_model_query_execute attrib.model source_query).filterMap
            (fun row => gimp_attribution_write_metadata_value
              (librdf_query_results_get_binding_value_by_name row "label"))).reverse.dedup).reverse := by
      rw [write_metadata_source_tag, write_metadata_rows_eq_foldl, foldl_append_tag_value_list]
      have : (gexiv2_metadata_clear_tag metadata "Xmp.dc.source") "Xmp.dc.source" = [] := by
        simp [gexiv2_metadata_clear_tag]
      rw [this, foldl_first_occurrences]
    refine ⟨h, ?_⟩
    rw [h, List.nodup_reverse]
    exact List.nodup_dedup _
  · intro attrib metadata
    have h : (gimp_attribution_write_metadata attrib metadata) "Xmp.dc.creator"
        = (((librdf_model_query_execute attrib.model creator_query).filterMap
            (fun row => gimp_attribution_write_metadata_value
              (librdf_query_results_get_binding_value_by_name row "label"))).reverse.dedup).reverse := by
      rw [write_metadata_creator_tag, write_metadata_rows_eq_foldl, foldl_append_tag_value_list,
        foldl_first_occurrences]
    refine ⟨h, ?_⟩
    rw [h, List.nodup_reverse]
    exact List.nodup_dedup _

theorem creator_query_single_statement (S : librdf_node) (p L : String)
    (hp : p ≠ "http://www.w3.org/1999/02/22-rdf-syntax-ns#type") :
    librdf_model_query_execute [⟨S, librdf_node.resource p, librdf_node.literal L none none⟩]
        creator_query
      = if p = "http://purl.org/dc/elements/1.1/creator" ∨ p = "http://purl.org/dc/terms/creator"
            ∨ p = "twitter:creator" ∨ p = "cc:attributionName"
        then [[("subject", S), ("label", librdf_node.literal L none none)]] else [] := by
  have htyped : ∀ c : String, ∀ st ∈ [(⟨S, librdf_node.resource p,
      librdf_node.literal L none none⟩ : librdf_statement)],
      ¬ (st.predicate
          = librdf_node.resource "http://www.w3.org/1999/02/22-rdf-syntax-ns#type"
        ∧ st.object = librdf_node.resource c) := by
    intro c st hst
    simp only [List.mem_singleton] at hst
    subst hst
    simp
  have hdirect : ∀ q : String,
      (sparql_eval (sparql_subject_pattern q "label")
        [⟨S, librdf_node.resource p, librdf_node.literal L none none⟩] []).filter
          (fun r => sparql_expr_holds r sparql_label_is_value)
        = if p = q then [[("subject", S), ("label", librdf_node.literal L none none)]]
          else [] := by
    intro q
    rw [eval_subject_pattern q "label" (by decide)]
    by_cases hpq : p = q
    · simp [List.filter, hpq, sparql_expr_holds, sparql_label_is_value,
        librdf_query_results_get_binding_value_by_name, List.lookup]
    · simp [List.filter, hpq]
  unfold librdf_model_query_execute
  simp only [creator_query]
  rw [sparql_eval_union, sparql_eval_union, sparql_eval_union]
  rw [sparql_eval_filter (a := sparql_pattern.union _ _), sparql_eval_union, sparql_eval_union,
    sparql_eval_union, List.filter_append, List.filter_append, List.filter_append,
    hdirect, hdirect, hdirect, hdirect]
  rw [sparql_eval_filter, sparql_eval_filter, container_any_empty _ _ _ _ (htyped _)]
  rw [sparql_eval_filter, sparql_eval_filter, container_any_empty _ _ _ _ (htyped _)]
  rw [sparql_eval_filter, container_first_empty _ _ _ _ _ (htyped _)]
  by_cases h1 : p = "http://purl.org/dc/elements/1.1/creator"
  · subst h1; simp [List.filter]
  · by_cases h2 : p = "http://purl.org/dc/terms/creator"
    · subst h2; simp [List.filter]
    · by_cases h3 : p = "twitter:creator"
      · subst h3; simp [List.filter]
      · by_cases h4 : p = "cc:attributionName"
        · subst h4; simp [List.filter]
        · simp [h1, h2, h3, h4]

/-- C26: the creator query matches `<cc:attributionName>` and
`<twitter:creator>` as they are written: the statement
(S, http://creativecommons.org/ns#attributionName, "L") alone gives no result
row and leaves Xmp.dc.creator empty, whereas (S, cc:attributionName, "L") and
(S, twitter:creator, "L") each give one row and the list "L". -/
theorem creator_query_unexpanded_iris (S : librdf_node) (L : String)
    (metadata : GExiv2Metadata) :
    librdf_model_query_execute
        [⟨S, librdf_node.resource "http://creativecommons.org/ns#attributionName",
          librdf_node.literal L none none⟩] creator_query = []
    ∧ (gimp_attribution_write_metadata
        ⟨[⟨S, librdf_node.resource "http://creativecommons.org/ns#attributionName",
          librdf_node.literal L none none⟩]⟩ metadata) "Xmp.dc.creator" = []
    ∧ librdf_model_query_execute
        [⟨S, librdf_node.resource "cc:attributionName", librdf_node.literal L none none⟩]
        creator_query
      = [[("subject", S), ("label", librdf_node.literal L none none)]]
    ∧ (gimp_attribution_write_metadata
        ⟨[⟨S, librdf_node.resource "cc:attributionName",
          librdf_node.literal L none none⟩]⟩ metadata) "Xmp.dc.creator" = [L]
    ∧ librdf_model_query_execute
        [⟨S, librdf_node.resource "twitter:creator", librdf_node.literal L none none⟩]
        creator_query
      = [[("subject", S), ("label", librdf_node.literal L none none)]]
    ∧ (gimp_attribution_write_metadata
        ⟨[⟨S, librdf_node.resource "twitter:creator",
          librdf_node.literal L none none⟩]⟩ metadata) "Xmp.dc.creator" = [L] := by
  have e1 := creator_query_single_statement S
    "http://creativecommons.org/ns#attributionName" L (by decide)
  have e2 := creator_query_single_statement S "cc:attributionName" L (by decide)
  have e3 := creator_query_single_statement S "twitter:creator" L (by decide)
  simp only [String.reduceEq, or_self, or_true, true_or, if_true, if_false] at e1 e2 e3
  have hone : ∀ rows : List sparql_binding,
      rows = [[("subject", S), ("label", librdf_node.literal L none none)]] →
      (gimp_attribution_write_metadata_rows "Xmp.dc.creator" rows (fun _ => []))
        "Xmp.dc.creator" = [L] := by
    intro rows hr
    subst hr
    simp [gimp_attribution_write_metadata_rows, gimp_attribution_write_metadata_value,
      librdf_query_results_get_binding_value_by_name, List.lookup, append_tag_value_same]
  refine ⟨e1, ?_, e2, ?_, e3, ?_⟩
  · rw [write_metadata_creator_tag]
    simp only [e1]
    rfl
  · rw [write_metadata_creator_tag]
    exact hone _ e2
  · rw [write_metadata_creator_tag]
    exact hone _ e3

/-! ## Property values of the dialog -/

theorem set_property_value_loop_cons (ys : List librdf_statement) (x : librdf_statement)
    (rest : librdf_model) (hx : x ∉ ys) :
    attrib_dialog_set_property_value_loop ys (x :: rest)
      = x :: attrib_dialog_set_property_value_loop ys rest := by
  induction ys generalizing rest with
  | nil => rfl
  | cons y ys ih =>
    have hxy : ¬ x = y := fun h => hx (by simp [h])
    have hxys : x ∉ ys := fun h => hx (List.mem_cons_of_mem _ h)
    have hb : (x == y) = false := by simpa using hxy
    rw [attrib_dialog_set_property_value_loop, attrib_dialog_set_property_value_loop,
      librdf_model_remove_statement, librdf_model_remove_statement,
      List.erase_cons_tail (by simp [hb]), ih _ hxys]

theorem set_property_value_loop_filter (p : librdf_statement → Bool) (m : librdf_model) :
    attrib_dialog_set_property_value_loop (m.filter p) m = m.filter (fun st => !p st) := by
  induction m with
  | nil => rfl
  | cons x rest ih =>
    by_cases hpx : p x = true
    · rw [List.filter_cons_of_pos hpx, attrib_dialog_set_property_value_loop,
        librdf_model_remove_statement, List.erase_cons_head, ih]
      simp [List.filter_cons, hpx]
    · have hx : x ∉ rest.filter p := by
        intro h
        exact hpx (List.mem_filter.mp h).2
      rw [List.filter_cons_of_neg hpx, set_property_value_loop_cons _ _ _ hx, ih]
      simp [List.filter_cons, hpx]

theorem property_match_iff (uri : String) (st : librdf_statement) :
    librdf_statement_match st
        (librdf_new_statement_from_nodes (some (librdf_new_node_from_uri_string "about:this"))
          (some (librdf_new_node_from_uri_string uri)) none)
      = decide (st.subject = librdf_node.resource "about:this"
          ∧ st.predicate = librdf_node.resource uri) := by
  simp [librdf_statement_match, librdf_node_match, librdf_new_statement_from_nodes,
    librdf_new_node_from_uri_string]

/-- C27: `attrib_dialog_set_property_value (attrib, uri, v)` removes every
statement with subject about:this and predicate `uri`, keeps all other
statements in their order and adds (about:this, uri, literal v) behind them;
afterwards exactly that one statement has this subject and predicate, and
`attrib_dialog_get_property_value (attrib, uri)` returns `v`. -/
theorem attrib_dialog_set_property_value_replaces (attrib : GimpAttribution)
    (uri v : String) :
    (attrib_dialog_set_property_value attrib uri v).model
      = attrib.model.filter (fun st => !decide (st.subject = librdf_node.resource "about:this"
            ∧ st.predicate = librdf_node.resource uri))
        ++ [⟨librdf_node.resource "about:this", librdf_node.resource uri,
              librdf_node.literal v none none⟩]
    ∧ (attrib_dialog_set_property_value attrib uri v).model.filter
        (fun st => decide (st.subject = librdf_node.resource "about:this"
            ∧ st.predicate = librdf_node.resource uri))
      = [⟨librdf_node.resource "about:this", librdf_node.resource uri,
            librdf_node.literal v none none⟩]
    ∧ attrib_dialog_get_property_value (attrib_dialog_set_property_value attrib uri v) uri
      = some v
    ∧ (attrib_dialog_set_property_value attrib uri v).model.filter
        (fun st => !decide (st.subject = librdf_node.resource "about:this"
            ∧ st.predicate = librdf_node.resource uri))
      = attrib.model.filter
        (fun st => !decide (st.subject = librdf_node.resource "about:this"
            ∧ st.predicate = librdf_node.resource uri)) := by
  have hmodel : (attrib_dialog_set_property_value attrib uri v).model
      = attrib.model.filter (fun st => !decide (st.subject = librdf_node.resource "about:this"
            ∧ st.predicate = librdf_node.resource uri))
        ++ [⟨librdf_node.resource "about:this", librdf_node.resource uri,
              librdf_node.literal v none none⟩] := by
    unfold attrib_dialog_set_property_value
    simp only [librdf_model_find_statements, librdf_model_add_statement,
      librdf_new_node_from_uri_string]
    rw [set_property_value_loop_filter]
    congr 1
    apply List.filter_congr
    intro st _
    have := property_match_iff uri st
    simp only [librdf_new_node_from_uri_string] at this
    rw [this]
  have hfilter : (attrib_dialog_set_property_value attrib uri v).model.filter
        (fun st => decide (st.subject = librdf_node.resource "about:this"
            ∧ st.predicate = librdf_node.resource uri))
      = [⟨librdf_node.resource "about:this", librdf_node.resource uri,
            librdf_node.literal v none none⟩] := by
    rw [hmodel, List.filter_append, List.filter_filter]
    simp [List.filter]
  refine ⟨hmodel, hfilter, ?_, ?_⟩
  · unfold attrib_dialog_get_property_value
    simp only [librdf_model_find_statements, librdf_stream_get_object]
    have hcongr : List.filter (fun st => librdf_statement_match st
          (librdf_new_statement_from_nodes (some (librdf_new_node_from_uri_string "about:this"))
            (some (librdf_new_node_from_uri_string uri)) none))
        (attrib_dialog_set_property_value attrib uri v).model
        = (attrib_dialog_set_property_value attrib uri v).model.filter
          (fun st => decide (st.subject = librdf_node.resource "about:this"
            ∧ st.predicate = librdf_node.resource uri)) := by
      apply List.filter_congr
      intro st _
      exact property_match_iff uri st
    rw [hcongr, hfilter]
    rfl
  · rw [hmodel, List.filter_append, List.filter_filter]
    simp [List.filter]

/-! ## Tag values of gimpmetadata.c -/

theorem libgimpbase_length_of_strv (vs : List String) (rest : List (Option String))
    (k : Nat) :
    libgimpbase_append_tag_value_length (vs.map some ++ none :: rest) k = k + vs.length := by
  induction vs generalizing k with
  | nil => simp [libgimpbase_append_tag_value_length]
  | cons v vs ih =>
    show libgimpbase_append_tag_value_length (vs.map some ++ none :: rest) (k + 1)
      = k + (vs.length + 1)
    rw [ih]
    omega

theorem g_strv_values_of_strv (vs : List String) (rest : List (Option String)) :
    g_strv_values (vs.map some ++ none :: rest) = vs := by
  induction vs with
  | nil => simp [g_strv_values]
  | cons v vs ih => simp [g_strv_values, ih]

theorem libgimpbase_temp_eq (vs : List String) (beyond : Nat → Option String)
    (value : String) :
    (((List.range (vs.length + 2)).map
        (fun i => g_strv_read (g_strv_of_values vs) beyond i)).set
          vs.length (some value)).set (vs.length + 1) none
      = (vs ++ [value]).map some ++ [none] := by
  apply List.ext_getElem
  · simp
  · intro i h1 h2
    simp only [List.length_set, List.length_map, List.length_range] at h1
    rcases Nat.lt_or_ge i vs.length with hlt | hge
    · have hne1 : ¬ vs.length + 1 = i := by omega
      have hne2 : ¬ vs.length = i := by omega
      simp [List.getElem_set, hne1, hne2, g_strv_read, g_strv_of_values,
        List.getElem_append, hlt, Nat.lt_succ_of_lt hlt]
    · rcases Nat.eq_or_lt_of_le hge with heq | hgt
      · subst heq
        simp [List.getElem_set, List.getElem_append]
      · have hi : i = vs.length + 1 := by omega
        subst hi
        simp [List.getElem_set, List.getElem_append]

theorem libgimpbase_append_tag_value_eq (beyond : Nat → Option String)
    (metadata : GExiv2Metadata) (tagname value : String) :
    libgimpbase_gimp_metadata_append_tag_value beyond metadata tagname value
      = (gexiv2_metadata_set_tag_multiple metadata tagname (metadata tagname ++ [value]),
          List.range ((metadata tagname).length + 2)) := by
  unfold libgimpbase_gimp_metadata_append_tag_value
  simp only [gexiv2_metadata_get_tag_multiple]
  have hlen : libgimpbase_append_tag_value_length (g_strv_of_values (metadata tagname)) 1
      = (metadata tagname).length + 1 := by
    unfold g_strv_of_values
    rw [libgimpbase_length_of_strv]
    omega
  rw [hlen]
  simp only [Nat.add_sub_cancel]
  rw [show (metadata tagname).length + 1 + 1 = (metadata tagname).length + 2 from rfl,
    libgimpbase_temp_eq, g_strv_values_of_strv]

/-- C29: for a tag with the `n` values `metadata tagname`, whose array
`g_strv_of_values` has the `n + 1` entries of the indices `0..n`, the copy loop
of `gimp_metadata_append_tag_value` in gimpmetadata.c reads the indices
`0..n + 1`: it reads index `n + 1`, which is no index of the array.  The list
of the tag after the call is the `n` old values followed by `value`, whatever
lies behind the array, and the other tags keep their lists. -/
theorem libgimpbase_gimp_metadata_append_tag_value_reads_beyond
    (beyond : Nat → Option String) (metadata : GExiv2Metadata) (tagname value : String) :
    (g_strv_of_values (gexiv2_metadata_get_tag_multiple metadata tagname)).length
        = (metadata tagname).length + 1
    ∧ (libgimpbase_gimp_metadata_append_tag_value beyond metadata tagname value).2
        = List.range ((metadata tagname).length + 2)
    ∧ (metadata tagname).length + 1
        ∈ (libgimpbase_gimp_metadata_append_tag_value beyond metadata tagname value).2
    ∧ ¬ (∀ i ∈ (libgimpbase_gimp_metadata_append_tag_value beyond metadata tagname value).2,
          i ≤ (metadata tagname).length)
    ∧ (libgimpbase_gimp_metadata_append_tag_value beyond metadata tagname value).1 tagname
        = metadata tagname ++ [value]
    ∧ ∀ other, other ≠ tagname →
        (libgimpbase_gimp_metadata_append_tag_value beyond metadata tagname value).1 other
          = metadata other := by
  rw [libgimpbase_append_tag_value_eq]
  refine ⟨by simp [g_strv_of_values, gexiv2_metadata_get_tag_multiple], rfl,
    by simp, ?_, by simp [gexiv2_metadata_set_tag_multiple], ?_⟩
  · intro h
    have := h ((metadata tagname).length + 1) (by simp)
    omega
  · intro other hne
    simp [gexiv2_metadata_set_tag_multiple, hne]

theorem foldl_libgimpbase_append (beyond : Nat → Option String) (tagname : String)
    (values : List String) (metadata : GExiv2Metadata) :
    values.foldl
        (fun md value =>
          (libgimpbase_gimp_metadata_append_tag_value beyond md tagname value).1) metadata
      = gexiv2_metadata_set_tag_multiple metadata tagname (metadata tagname ++ values) := by
  induction values generalizing metadata with
  | nil =>
    funext t
    by_cases h : t = tagname <;> simp [gexiv2_metadata_set_tag_multiple, h]
  | cons v vs ih =>
    rw [List.foldl_cons, ih, libgimpbase_append_tag_value_eq]
    funext t
    by_cases h : t = tagname <;> simp [gexiv2_metadata_set_tag_multiple, h]

/-- C30: `gimp_metadata_merge_creator (metadata1, metadata2)` leaves in the
Xmp.dc.creator list of `metadata1` its old values, then the Xmp.dc.creator
values of `metadata2` in order, then the Xmp.dc.source values of `metadata2` in
order; every other tag of `metadata1`, Xmp.dc.source among them, and all of
`metadata2` are unchanged. -/
theorem gimp_metadata_merge_creator_appends (beyond : Nat → Option String)
    (metadata1 metadata2 : GExiv2Metadata) :
    (gimp_metadata_merge_creator beyond metadata1 metadata2).1 "Xmp.dc.creator"
      = metadata1 "Xmp.dc.creator" ++ metadata2 "Xmp.dc.creator" ++ metadata2 "Xmp.dc.source"
    ∧ (gimp_metadata_merge_creator beyond metadata1 metadata2).1 "Xmp.dc.source"
      = metadata1 "Xmp.dc.source"
    ∧ (∀ tag, tag ≠ "Xmp.dc.creator" →
        (gimp_metadata_merge_creator beyond metadata1 metadata2).1 tag = metadata1 tag)
    ∧ (gimp_metadata_merge_creator beyond metadata1 metadata2).2 = metadata2 := by
  have h1 : (gimp_metadata_merge_creator beyond metadata1 metadata2).1
      = gexiv2_metadata_set_tag_multiple metadata1 "Xmp.dc.creator"
          (metadata1 "Xmp.dc.creator" ++ metadata2 "Xmp.dc.creator"
            ++ metadata2 "Xmp.dc.source") := by
    unfold gimp_metadata_merge_creator
    simp only [gexiv2_metadata_get_tag_multiple]
    rw [foldl_libgimpbase_append, foldl_libgimpbase_append]
    funext t
    by_cases h : t = "Xmp.dc.creator" <;> simp [gexiv2_metadata_set_tag_multiple, h]
  rw [h1]
  refine ⟨by simp [gexiv2_metadata_set_tag_multiple], ?_, ?_, rfl⟩
  · have hne : ¬ "Xmp.dc.source" = "Xmp.dc.creator" := by decide
    simp only [gexiv2_metadata_set_tag_multiple, hne, if_false]
  · intro tag hne
    simp [gexiv2_metadata_set_tag_multiple, hne]

/-! ## Order of the namespace search -/

theorem find_perm_of_unique {α : Type} (p : α → Bool) (l l' : List α) (hperm : l'.Perm l)
    (huniq : ∀ a ∈ l, ∀ b ∈ l, p a = true → p b = true → a = b) :
    l'.find? p = l.find? p := by
  cases h : l.find? p with
  | none =>
    have hall := List.find?_eq_none.mp h
    exact List.find?_eq_none.mpr (fun x hx => hall x (hperm.mem_iff.mp hx))
  | some a =>
    have ha : a ∈ l := List.mem_of_find?_eq_some h
    have hpa : p a = true := List.find?_some h
    cases h2 : l'.find? p with
    | none =>
      exfalso
      exact List.find?_eq_none.mp h2 a (hperm.mem_iff.mpr ha) hpa
    | some b =>
      have hb : b ∈ l := hperm.mem_iff.mp (List.mem_of_find?_eq_some h2)
      have hpb : p b = true := List.find?_some h2
      rw [huniq b hb a ha hpb hpa]

theorem prefix_unique_of_no_prefix (nstack : raptor_namespace_stack)
    (hnp : ∀ a ∈ nstack, ∀ b ∈ nstack, a.uri.data <+: b.uri.data → a = b)
    (uri : String) (a : raptor_namespace) (ha : a ∈ nstack) (b : raptor_namespace)
    (hb : b ∈ nstack) (hpa : a.uri.data <+: uri.data) (hpb : b.uri.data <+: uri.data) :
    a = b := by
  rcases Nat.le_total a.uri.data.length b.uri.data.length with hle | hle
  · exact hnp a ha b hb (List.prefix_of_prefix_length_le hpa hpb hle)
  · exact (hnp b hb a ha (List.prefix_of_prefix_length_le hpb hpa hle)).symm

theorem gimp_vocab_init_five_no_prefix :
    ∀ a ∈ (gimp_vocab_init (fun _ => [])).namespaces,
      ∀ b ∈ (gimp_vocab_init (fun _ => [])).namespaces,
        a.uri.data <+: b.uri.data → a = b := by
  decide

theorem gimp_vocab_init_namespaces_eq (raptor_new_namespaces : Nat → raptor_namespace_stack) :
    (gimp_vocab_init raptor_new_namespaces).namespaces
      = (gimp_vocab_init (fun _ => [])).namespaces ++ raptor_new_namespaces 3 :=
  rfl

/-- C28: of the five namespaces that `gimp_vocab_init` starts, no URI is an
initial part of the URI of another.  When this also holds between the
namespaces that the library call `raptor_new_namespaces (world, 3)` supplies and
all registered ones, then no registered namespace URI is an initial part of
another, for every URI at most one registered namespace URI is an initial part
of it, the namespace that `raptor_new_qname_from_namespace_uri` finds has the
longest URI among them, and `gimp_vocab_get_short_uri` gives the same result
for every order of the registered namespaces. -/
theorem gimp_vocab_get_short_uri_order_independent
    (raptor_new_namespaces : Nat → raptor_namespace_stack) (check : String → Nat → Bool)
    (hlib : ∀ a ∈ raptor_new_namespaces 3,
      ∀ b ∈ (gimp_vocab_init raptor_new_namespaces).namespaces,
        (a.uri.data <+: b.uri.data → a = b) ∧ (b.uri.data <+: a.uri.data → b = a)) :
    (∀ a ∈ (gimp_vocab_init raptor_new_namespaces).namespaces,
      ∀ b ∈ (gimp_vocab_init raptor_new_namespaces).namespaces,
        a.uri.data <+: b.uri.data → a = b)
    ∧ (∀ uri : String, ∀ a ∈ (gimp_vocab_init raptor_new_namespaces).namespaces,
        ∀ b ∈ (gimp_vocab_init raptor_new_namespaces).namespaces,
          a.uri.data <+: uri.data → b.uri.data <+: uri.data → a = b)
    ∧ (∀ (uri : String) (qname : raptor_qname),
        raptor_new_qname_from_namespace_uri check
            (gimp_vocab_init raptor_new_namespaces).namespaces (raptor_new_uri uri) 10
          = some qname →
        ∀ b ∈ (gimp_vocab_init raptor_new_namespaces).namespaces,
          b.uri.data <+: uri.data → b.uri.data.length ≤ qname.nspace.uri.data.length)
    ∧ (∀ (searched : raptor_namespace_stack),
        searched.Perm (gimp_vocab_init raptor_new_namespaces).namespaces →
        ∀ uri : String,
          gimp_vocab_get_short_uri check ⟨searched⟩ uri
            = gimp_vocab_get_short_uri check (gimp_vocab_init raptor_new_namespaces) uri) := by
  have hnp : ∀ a ∈ (gimp_vocab_init raptor_new_namespaces).namespaces,
      ∀ b ∈ (gimp_vocab_init raptor_new_namespaces).namespaces,
        a.uri.data <+: b.uri.data → a = b := by
    intro a ha b hb hab
    have ha2 := ha
    have hb2 := hb
    rw [gimp_vocab_init_namespaces_eq, List.mem_append] at ha2 hb2
    rcases ha2 with ha5 | haD
    · rcases hb2 with hb5 | hbD
      · exact gimp_vocab_init_five_no_prefix a ha5 b hb5 hab
      · exact ((hlib b hbD a ha).2 hab)
    · exact (hlib a haD b hb).1 hab
  have huniq : ∀ uri : String, ∀ a ∈ (gimp_vocab_init raptor_new_namespaces).namespaces,
      ∀ b ∈ (gimp_vocab_init raptor_new_namespaces).namespaces,
        a.uri.data <+: uri.data → b.uri.data <+: uri.data → a = b :=
    fun uri a ha b hb hpa hpb =>
      prefix_unique_of_no_prefix _ hnp uri a ha b hb hpa hpb
  refine ⟨hnp, huniq, ?_, ?_⟩
  · intro uri qname hq b hb hpb
    unfold raptor_new_qname_from_namespace_uri raptor_new_uri at hq
    by_cases hu : uri = ""
    · simp [hu] at hq
    · simp only [hu, if_false, Option.map_eq_some'] at hq
      obtain ⟨a, hf, hqa⟩ := hq
      have ha : a ∈ (gimp_vocab_init raptor_new_namespaces).namespaces :=
        List.mem_of_find?_eq_some hf
      have hPa := List.find?_some hf
      simp only [Bool.and_eq_true, decide_eq_true_eq, List.isPrefixOf_iff_prefix] at hPa
      have hba : b = a := huniq uri b hb a ha hpb hPa.1.2
      rw [← hqa, hba]
  · intro searched hperm uri
    unfold gimp_vocab_get_short_uri raptor_new_qname_from_namespace_uri raptor_new_uri
    by_cases hu : uri = ""
    · simp [hu]
    · simp only [hu, if_false]
      rw [find_perm_of_unique _ (gimp_vocab_init raptor_new_namespaces).namespaces searched
        hperm]
      intro a ha b hb hPa hPb
      simp only [Bool.and_eq_true, decide_eq_true_eq, List.isPrefixOf_iff_prefix] at hPa hPb
      exact huniq uri a ha b hb hPa.1.2 hPb.1.2

theorem gimp_vocab_get_short_uri_order_independent_witness :
    gimp_vocab_get_short_uri (fun name _ => name.data.all Char.isAlphanum)
        ⟨(gimp_vocab_init (fun _ =>
          [⟨"owl", "http://www.w3.org/2002/07/owl#"⟩,
           ⟨"xsd", "http://www.w3.org/2001/XMLSchema#"⟩,
           ⟨"rdfs", "http://www.w3.org/2000/01/rdf-schema#"⟩,
           ⟨"rdf", "http://www.w3.org/1999/02/22-rdf-syntax-ns#"⟩,
           ⟨"xml", "http://www.w3.org/XML/1998/namespace"⟩])).namespaces.reverse⟩
        "http://purl.org/dc/terms/creator"
      = gimp_vocab_get_short_uri (fun name _ => name.data.all Char.isAlphanum)
        (gimp_vocab_init (fun _ =>
          [⟨"owl", "http://www.w3.org/2002/07/owl#"⟩,
           ⟨"xsd", "http://www.w3.org/2001/XMLSchema#"⟩,
           ⟨"rdfs", "http://www.w3.org/2000/01/rdf-schema#"⟩,
           ⟨"rdf", "http://www.w3.org/1999/02/22-rdf-syntax-ns#"⟩,
           ⟨"xml", "http://www.w3.org/XML/1998/namespace"⟩]))
        "http://purl.org/dc/terms/creator" :=
  (gimp_vocab_get_short_uri_order_independent
    (fun _ =>
      [⟨"owl", "http://www.w3.org/2002/07/owl#"⟩,
       ⟨"xsd", "http://www.w3.org/2001/XMLSchema#"⟩,
       ⟨"rdfs", "http://www.w3.org/2000/01/rdf-schema#"⟩,
       ⟨"rdf", "http://www.w3.org/1999/02/22-rdf-syntax-ns#"⟩,
       ⟨"xml", "http://www.w3.org/XML/1998/namespace"⟩])
    (fun name _ => name.data.all Char.isAlphanum)
    (by decide)).2.2.2 _ (List.reverse_perm _) "http://purl.org/dc/terms/creator"

/-! ## The display traversal on cyclic models -/

theorem fill_model_cyclic_source (check : String → Nat → Bool) (vocab : GimpVocab)
    (depth : Nat) :
    ∀ (store : GtkTreeStore) (iter : Option Nat),
      attrib_dialog_fill_model check depth
          ⟨[⟨librdf_node.resource "about:this",
              librdf_node.resource "http://purl.org/dc/elements/1.1/source",
              librdf_node.resource "http://example.org/x"⟩,
            ⟨librdf_node.resource "http://example.org/x",
              librdf_node.resource "http://purl.org/dc/elements/1.1/source",
              librdf_node.resource "about:this"⟩]⟩
          (librdf_node.resource "about:this") store iter vocab = none
      ∧ attrib_dialog_fill_model check depth
          ⟨[⟨librdf_node.resource "about:this",
              librdf_node.resource "http://purl.org/dc/elements/1.1/source",
              librdf_node.resource "http://example.org/x"⟩,
            ⟨librdf_node.resource "http://example.org/x",
              librdf_node.resource "http://purl.org/dc/elements/1.1/source",
              librdf_node.resource "about:this"⟩]⟩
          (librdf_node.resource "http://example.org/x") store iter vocab = none := by
  induction depth with
  | zero =>
    intro store iter
    exact ⟨by rw [attrib_dialog_fill_model], by rw [attrib_dialog_fill_model]⟩
  | succ depth ih =>
    intro store iter
    constructor
    · rw [attrib_dialog_fill_model]
      simp [librdf_model_find_statements, librdf_statement_match, librdf_node_match,
        librdf_new_statement_from_nodes, librdf_new_node_from_uri_string, List.filter,
        (ih _ _).2]
    · rw [attrib_dialog_fill_model]
      simp [librdf_model_find_statements, librdf_statement_match, librdf_node_match,
        librdf_new_statement_from_nodes, librdf_new_node_from_uri_string, List.filter,
        (ih _ _).1]

theorem fill_model_blank_loop (check : String → Nat → Bool) (vocab : GimpVocab)
    (depth : Nat) :
    ∀ (store : GtkTreeStore) (iter : Option Nat),
      attrib_dialog_fill_model check depth
          ⟨[⟨librdf_node.resource "about:this",
              librdf_node.resource "http://purl.org/dc/terms/creator",
              librdf_node.blank "b"⟩,
            ⟨librdf_node.blank "b",
              librdf_node.resource "http://purl.org/dc/terms/relation",
              librdf_node.blank "b"⟩]⟩
          (librdf_node.blank "b") store iter vocab = none := by
  induction depth with
  | zero =>
    intro store iter
    rw [attrib_dialog_fill_model]
  | succ depth ih =>
    intro store iter
    rw [attrib_dialog_fill_model]
    simp [librdf_model_find_statements, librdf_statement_match, librdf_node_match,
      librdf_new_statement_from_nodes, librdf_new_node_from_uri_string, List.filter, ih]

/-- C21: `attrib_dialog_fill_model` does not terminate on every finite model.
On the model of the two statements (about:this, dc:source, X) and
(X, dc:source, about:this) the call for about:this and the call for X do not
return within any bound on the depth of the calls, and on a model in which the
blank node b has a statement with object b neither the call for b nor the call
for about:this, which reaches b, does.  On the model of the one statement
(about:this, dc:source, X) the call for about:this returns within the depth 2,
with the two rows of that statement. -/
theorem attrib_dialog_fill_model_cycle_never_returns (check : String → Nat → Bool)
    (vocab : GimpVocab) (depth : Nat) (store : GtkTreeStore) (iter : Option Nat) :
    attrib_dialog_fill_model check depth
        ⟨[⟨librdf_node.resource "about:this",
            librdf_node.resource "http://purl.org/dc/elements/1.1/source",
            librdf_node.resource "http://example.org/x"⟩,
          ⟨librdf_node.resource "http://example.org/x",
            librdf_node.resource "http://purl.org/dc/elements/1.1/source",
            librdf_node.resource "about:this"⟩]⟩
        (librdf_node.resource "about:this") store iter vocab = none
    ∧ attrib_dialog_fill_model check depth
        ⟨[⟨librdf_node.resource "about:this",
            librdf_node.resource "http://purl.org/dc/elements/1.1/source",
            librdf_node.resource "http://example.org/x"⟩,
          ⟨librdf_node.resource "http://example.org/x",
            librdf_node.resource "http://purl.org/dc/elements/1.1/source",
            librdf_node.resource "about:this"⟩]⟩
        (librdf_node.resource "http://example.org/x") store iter vocab = none
    ∧ attrib_dialog_fill_model check depth
        ⟨[⟨librdf_node.resource "about:this",
            librdf_node.resource "http://purl.org/dc/terms/creator",
            librdf_node.blank "b"⟩,
          ⟨librdf_node.blank "b",
            librdf_node.resource "http://purl.org/dc/terms/relation",
            librdf_node.blank "b"⟩]⟩
        (librdf_node.blank "b") store iter vocab = none
    ∧ attrib_dialog_fill_model check depth
        ⟨[⟨librdf_node.resource "about:this",
            librdf_node.resource "http://purl.org/dc/terms/creator",
            librdf_node.blank "b"⟩,
          ⟨librdf_node.blank "b",
            librdf_node.resource "http://purl.org/dc/terms/relation",
            librdf_node.blank "b"⟩]⟩
        (librdf_node.resource "about:this") store iter vocab = none
    ∧ attrib_dialog_fill_model check 2
        ⟨[⟨librdf_node.resource "about:this",
            librdf_node.resource "http://purl.org/dc/elements/1.1/source",
            librdf_node.resource "http://example.org/x"⟩]⟩
        (librdf_node.resource "about:this") store iter vocab
      = some (store ++
          [⟨iter,
             some (gimp_vocab_get_short_uri check vocab
               "http://purl.org/dc/elements/1.1/source"),
             some (gimp_vocab_get_short_uri check vocab "http://example.org/x")⟩,
           ⟨none, some "(source)",
             some (gimp_vocab_get_short_uri check vocab "http://example.org/x")⟩]) := by
  refine ⟨(fill_model_cyclic_source check vocab depth store iter).1,
    (fill_model_cyclic_source check vocab depth store iter).2,
    fill_model_blank_loop check vocab depth store iter, ?_, ?_⟩
  · cases depth with
    | zero => rw [attrib_dialog_fill_model]
    | succ depth =>
      rw [attrib_dialog_fill_model]
      simp [librdf_model_find_statements, librdf_statement_match, librdf_node_match,
        librdf_new_statement_from_nodes, librdf_new_node_from_uri_string, List.filter,
        fill_model_blank_loop]
  · rw [attrib_dialog_fill_model]
    simp [librdf_model_find_statements, librdf_statement_match, librdf_node_match,
      librdf_new_statement_from_nodes, librdf_new_node_from_uri_string, List.filter,
      librdf_node_get_uri, gtk_tree_store_append_set, attrib_dialog_fill_model]

/-! ## Order of the values of rdf:Seq members -/

theorem first_occurrences_filter (s : String → Bool) (values acc : List String) :
    (values.foldl (fun l value => if value ∈ l then l else l ++ [value]) acc).filter s
      = (values.filter s).foldl (fun l value => if value ∈ l then l else l ++ [value])
          (acc.filter s) := by
  induction values generalizing acc with
  | nil => rfl
  | cons v rest ih =>
    rw [List.foldl_cons, ih]
    by_cases hs : s v = true
    · rw [List.filter_cons_of_pos hs, List.foldl_cons]
      congr 1
      by_cases hv : v ∈ acc
      · have hv2 : v ∈ acc.filter s := List.mem_filter.mpr ⟨hv, hs⟩
        rw [if_pos hv, if_pos hv2]
      · have hv2 : v ∉ acc.filter s := fun h => hv (List.mem_filter.mp h).1
        rw [if_neg hv, if_neg hv2, List.filter_append, List.filter_cons_of_pos hs,
          List.filter_nil]
    · rw [List.filter_cons_of_neg hs]
      congr 1
      by_cases hv : v ∈ acc
      · rw [if_pos hv]
      · rw [if_neg hv, List.filter_append, List.filter_cons_of_neg hs, List.filter_nil,
          List.append_nil]

theorem first_occurrences_absorb (vals W : List String) (hW : ∀ w ∈ W, w ∈ vals) :
    W.foldl (fun l value => if value ∈ l then l else l ++ [value]) vals = vals := by
  induction W with
  | nil => rfl
  | cons w rest ih =>
    rw [List.foldl_cons, if_pos (hW w (List.mem_cons_self _ _))]
    exact ih (fun x hx => hW x (List.mem_cons_of_mem _ hx))

theorem first_occurrences_of_nodup (vals : List String) (hnd : vals.Nodup) :
    vals.foldl (fun l value => if value ∈ l then l else l ++ [value]) [] = vals := by
  rw [foldl_first_occurrences, List.Nodup.dedup (List.nodup_reverse.mpr hnd),
    List.reverse_reverse]

theorem first_occurrences_mem (values : List String) (v : String) :
    v ∈ values.foldl (fun l value => if value ∈ l then l else l ++ [value]) []
      ↔ v ∈ values := by
  rw [foldl_first_occurrences]
  simp

theorem first_occurrences_nodup (values : List String) :
    (values.foldl (fun l value => if value ∈ l then l else l ++ [value]) []).Nodup := by
  rw [foldl_first_occurrences]
  exact List.nodup_reverse.mpr (List.nodup_dedup _)

theorem first_occurrences_restrict (V vals W : List String) (hnd : vals.Nodup)
    (hV : V.filter (fun v => decide (v ∈ vals)) = vals ++ W) :
    (V.foldl (fun l value => if value ∈ l then l else l ++ [value]) []).filter
        (fun v => decide (v ∈ vals)) = vals := by
  rw [first_occurrences_filter, hV, List.filter_nil, List.foldl_append,
    first_occurrences_of_nodup vals hnd]
  apply first_occurrences_absorb
  intro w hw
  have : w ∈ V.filter (fun v => decide (v ∈ vals)) := by
    rw [hV]; exact List.mem_append_right _ hw
  simpa using (List.mem_filter.mp this).2

theorem flatMap_starts_with {α : Type} (vals : List String) (l : List α)
    (g : α → List String)
    (hall : ∀ x ∈ l, g x = [] ∨ ∃ W, g x = vals ++ W)
    (hex : ∃ x ∈ l, ∃ W, g x = vals ++ W) :
    ∃ W, l.flatMap g = vals ++ W := by
  by_cases hvals : vals = []
  · exact ⟨l.flatMap g, by rw [hvals, List.nil_append]⟩
  · induction l with
    | nil =>
      obtain ⟨x, hx, _⟩ := hex
      cases hx
    | cons a rest ih =>
      rw [List.flatMap_cons]
      rcases hall a (List.mem_cons_self _ _) with hnil | ⟨W, hW⟩
      · rw [hnil, List.nil_append]
        apply ih (fun x hx => hall x (List.mem_cons_of_mem _ hx))
        obtain ⟨x, hx, W, hW⟩ := hex
        rcases List.mem_cons.mp hx with rfl | hx
        · exfalso
          rw [hnil] at hW
          exact hvals (List.append_eq_nil.mp hW.symm).1
        · exact ⟨x, hx, W, hW⟩
      · exact ⟨W ++ rest.flatMap g, by rw [hW, List.append_assoc]⟩

theorem container_row_value (vals : List String) (c : String) (hc : c ∉ vals)
    (a b : librdf_node) (st2 : librdf_statement) :
    (if sparql_expr_holds [("subject", a), ("node", b), ("pred", st2.predicate),
          ("label", st2.object)] sparql_label_is_value = true then
        (if sparql_expr_holds [("subject", a), ("node", b), ("pred", st2.predicate),
            ("label", st2.object)] (sparql_expr.ne_uri "label" c) = true then
          (gimp_attribution_write_metadata_value
            (librdf_query_results_get_binding_value_by_name
              [("subject", a), ("node", b), ("pred", st2.predicate), ("label", st2.object)]
              "label")).filter (fun v => decide (v ∈ vals))
        else none)
      else none)
      = (gimp_attribution_write_metadata_value (some st2.object)).filter
          (fun v => decide (v ∈ vals)) := by
  obtain ⟨s, p, o⟩ := st2
  cases o with
  | literal value datatype language =>
    simp [sparql_expr_holds, sparql_label_is_value,
      librdf_query_results_get_binding_value_by_name, List.lookup]
  | resource uri =>
    by_cases hu : uri = c
    · subst hu
      simp [sparql_expr_holds, sparql_label_is_value,
        librdf_query_results_get_binding_value_by_name, List.lookup,
        gimp_attribution_write_metadata_value, Option.filter, hc]
    · simp [sparql_expr_holds, sparql_label_is_value,
        librdf_query_results_get_binding_value_by_name, List.lookup, hu]
  | blank id =>
    simp [sparql_expr_holds, sparql_label_is_value,
      librdf_query_results_get_binding_value_by_name, List.lookup,
      gimp_attribution_write_metadata_value, Option.filter]

theorem object_value_none (m : librdf_model) (N : librdf_node) (vals : List String)
    (hsubj : ∀ st ∈ m, ∀ v ∈ vals,
      gimp_attribution_write_metadata_value (some st.object) = some v → st.subject = N)
    (st : librdf_statement) (hst : st ∈ m) (hne : st.subject ≠ N) :
    (gimp_attribution_write_metadata_value (some st.object)).filter
        (fun v => decide (v ∈ vals)) = none := by
  cases hv : gimp_attribution_write_metadata_value (some st.object) with
  | none => rfl
  | some v =>
    by_cases hmem : v ∈ vals
    · exact absurd (hsubj st hst v hmem hv) hne
    · simp [Option.filter, hmem]

theorem subject_values (m : librdf_model) (N n : librdf_node) (vals : List String)
    (hsubj : ∀ st ∈ m, ∀ v ∈ vals,
      gimp_attribution_write_metadata_value (some st.object) = some v → st.subject = N)
    (hord : (m.filterMap
        (fun st => gimp_attribution_write_metadata_value (some st.object))).filter
          (fun v => decide (v ∈ vals)) = vals) :
    (m.filter (fun st => decide (st.subject = n))).filterMap
        (fun st => (gimp_attribution_write_metadata_value (some st.object)).filter
          (fun v => decide (v ∈ vals)))
      = if n = N then vals else [] := by
  by_cases h : n = N
  · subst h
    rw [if_pos rfl, List.filterMap_filter]
    have hcongr : List.filterMap
        (fun st : librdf_statement => if decide (st.subject = n) = true then
            (gimp_attribution_write_metadata_value (some st.object)).filter
              (fun v => decide (v ∈ vals))
          else none) m
        = List.filterMap
          (fun st : librdf_statement =>
            (gimp_attribution_write_metadata_value (some st.object)).filter
              (fun v => decide (v ∈ vals))) m := by
      apply List.filterMap_congr
      intro st hst
      by_cases hs : st.subject = n
      · simp [hs]
      · simp only [hs, decide_False, Bool.false_eq_true, if_false]
        exact (object_value_none m n vals hsubj st hst hs).symm
    rw [hcongr, ← List.filter_filterMap]
    exact hord
  · rw [if_neg h, List.filterMap_eq_nil_iff]
    intro st hst
    have hmem := List.mem_filter.mp hst
    have hs : st.subject = n := by simpa using hmem.2
    exact object_value_none m N vals hsubj st hmem.1 (fun e => h (hs.symm.trans e))

theorem seq_group_values (p1 p2 c : String) (m : librdf_model) (N : librdf_node)
    (vals : List String) (hc : c ∉ vals)
    (hsubj : ∀ st ∈ m, ∀ v ∈ vals,
      gimp_attribution_write_metadata_value (some st.object) = some v → st.subject = N)
    (hord : (m.filterMap
        (fun st => gimp_attribution_write_metadata_value (some st.object))).filter
          (fun v => decide (v ∈ vals)) = vals) :
    (sparql_eval
        (sparql_pattern.filter (sparql_expr.ne_uri "label" c)
          (sparql_pattern.filter sparql_label_is_value
            (sparql_pattern.join
              (sparql_pattern.join
                (sparql_pattern.union (sparql_subject_pattern p1 "node")
                  (sparql_subject_pattern p2 "node"))
                (sparql_node_type c))
              (sparql_pattern.triple ⟨sparql_term.var "node", sparql_term.var "pred",
                sparql_term.var "label"⟩)))) m []).filterMap
        (fun row => (gimp_attribution_write_metadata_value
          (librdf_query_results_get_binding_value_by_name row "label")).filter
            (fun v => decide (v ∈ vals)))
      = (m.filter (fun st => decide (st.predicate = librdf_node.resource p1))
          ++ m.filter (fun st => decide (st.predicate = librdf_node.resource p2))).flatMap
          (fun st0 =>
            (m.filter (fun st => decide (st.subject = st0.object
              ∧ st.predicate
                  = librdf_node.resource "http://www.w3.org/1999/02/22-rdf-syntax-ns#type"
              ∧ st.object = librdf_node.resource c))).flatMap
              (fun _ => if st0.object = N then vals else [])) := by
  rw [sparql_eval_filter, sparql_eval_filter, eval_container_any, List.filterMap_filter,
    List.filterMap_filter, List.filterMap_flatMap]
  congr 1
  funext st0
  rw [List.filterMap_flatMap]
  congr 1
  funext _
  rw [List.filterMap_map, ← subject_values m N st0.object vals hsubj hord]
  apply List.filterMap_congr
  intro st2 _
  exact container_row_value vals c hc st0.subject st0.object st2

theorem starts_with_append (vals A B : List String) (h : ∃ W, A = vals ++ W) :
    ∃ W, A ++ B = vals ++ W := by
  obtain ⟨W, hW⟩ := h
  exact ⟨W ++ B, by rw [hW, List.append_assoc]⟩

theorem seq_values_start (p1 p2 : String) (direct bag alt : sparql_pattern)
    (m : librdf_model) (S N : librdf_node) (P : String) (vals : List String)
    (hP : P = p1 ∨ P = p2)
    (hlink : (⟨S, librdf_node.resource P, N⟩ : librdf_statement) ∈ m)
    (htype : (⟨N, librdf_node.resource "http://www.w3.org/1999/02/22-rdf-syntax-ns#type",
        librdf_node.resource "http://www.w3.org/1999/02/22-rdf-syntax-ns#Seq"⟩ :
        librdf_statement) ∈ m)
    (hseq : "http://www.w3.org/1999/02/22-rdf-syntax-ns#Seq" ∉ vals)
    (hsubj : ∀ st ∈ m, ∀ v ∈ vals,
      gimp_attribution_write_metadata_value (some st.object) = some v → st.subject = N)
    (hord : (m.filterMap
        (fun st => gimp_attribution_write_metadata_value (some st.object))).filter
          (fun v => decide (v ∈ vals)) = vals)
    (hdirect : (sparql_eval direct m []).filterMap
        (fun row => (gimp_attribution_write_metadata_value
          (librdf_query_results_get_binding_value_by_name row "label")).filter
            (fun v => decide (v ∈ vals))) = []) :
    ∃ W, (sparql_eval
        (sparql_pattern.union
          (sparql_pattern.union
            (sparql_pattern.union direct
              (sparql_pattern.filter
                (sparql_expr.ne_uri "label" "http://www.w3.org/1999/02/22-rdf-syntax-ns#Seq")
                (sparql_pattern.filter sparql_label_is_value
                  (sparql_pattern.join
                    (sparql_pattern.join
                      (sparql_pattern.union (sparql_subject_pattern p1 "node")
                        (sparql_subject_pattern p2 "node"))
                      (sparql_node_type "http://www.w3.org/1999/02/22-rdf-syntax-ns#Seq"))
                    (sparql_pattern.triple ⟨sparql_term.var "node", sparql_term.var "pred",
                      sparql_term.var "label"⟩)))))
            bag)
          alt) m []).filterMap
        (fun row => (gimp_attribution_write_metadata_value
          (librdf_query_results_get_binding_value_by_name row "label")).filter
            (fun v => decide (v ∈ vals)))
      = vals ++ W := by
  rw [sparql_eval_union, sparql_eval_union, sparql_eval_union, List.filterMap_append,
    List.filterMap_append, List.filterMap_append, hdirect, List.nil_append,
    seq_group_values p1 p2 _ m N vals hseq hsubj hord]
  apply starts_with_append
  apply starts_with_append
  have hblock : ∀ types : List librdf_statement, types ≠ [] →
      ∃ W, types.flatMap (fun _ => vals) = vals ++ W := by
    intro types hne
    cases types with
    | nil => exact absurd rfl hne
    | cons t rest => exact ⟨rest.flatMap (fun _ => vals), by rw [List.flatMap_cons]⟩
  apply flatMap_starts_with
  · intro st0 _
    by_cases ho : st0.object = N
    · simp only [ho, if_true]
      by_cases hty : m.filter (fun st => decide (st.subject = N
          ∧ st.predicate
              = librdf_node.resource "http://www.w3.org/1999/02/22-rdf-syntax-ns#type"
          ∧ st.object
              = librdf_node.resource "http://www.w3.org/1999/02/22-rdf-syntax-ns#Seq")) = []
      · left
        rw [hty]
        rfl
      · right
        exact hblock _ hty
    · left
      simp only [ho, if_false]
      simp
  · refine ⟨⟨S, librdf_node.resource P, N⟩, ?_, ?_⟩
    · rw [List.mem_append, List.mem_filter, List.mem_filter]
      rcases hP with h | h
      · left; exact ⟨hlink, by simp [h]⟩
      · right; exact ⟨hlink, by simp [h]⟩
    · simp only [if_true]
      apply hblock
      intro hnil
      have : (⟨N, librdf_node.resource "http://www.w3.org/1999/02/22-rdf-syntax-ns#type",
          librdf_node.resource "http://www.w3.org/1999/02/22-rdf-syntax-ns#Seq"⟩ :
          librdf_statement) ∈ m.filter (fun st => decide (st.subject = N
            ∧ st.predicate
                = librdf_node.resource "http://www.w3.org/1999/02/22-rdf-syntax-ns#type"
            ∧ st.object
                = librdf_node.resource "http://www.w3.org/1999/02/22-rdf-syntax-ns#Seq")) :=
        List.mem_filter.mpr ⟨htype, by simp⟩
      rw [hnil] at this
      exact List.not_mem_nil _ this

theorem direct_values_none (q : String) (m : librdf_model) (vals : List String)
    (hq : ∀ st ∈ m, st.predicate = librdf_node.resource q → ∀ v ∈ vals,
      gimp_attribution_write_metadata_value (some st.object) ≠ some v) :
    ∀ row ∈ sparql_eval (sparql_subject_pattern q "label") m [],
      (gimp_attribution_write_metadata_value
        (librdf_query_results_get_binding_value_by_name row "label")).filter
          (fun v => decide (v ∈ vals)) = none := by
  intro row hrow
  rw [eval_subject_pattern q "label" (by decide), List.mem_map] at hrow
  obtain ⟨st, hst, rfl⟩ := hrow
  have hmem := List.mem_filter.mp hst
  have hp : st.predicate = librdf_node.resource q := by simpa using hmem.2
  have hl : librdf_query_results_get_binding_value_by_name
      [("subject", st.subject), ("label", st.object)] "label" = some st.object := by
    simp [librdf_query_results_get_binding_value_by_name, List.lookup]
  rw [hl]
  cases hv : gimp_attribution_write_metadata_value (some st.object) with
  | none => rfl
  | some v =>
    by_cases hin : v ∈ vals
    · exact absurd hv (hq st hmem.1 hp v hin)
    · simp [Option.filter, hin]

theorem query_values (q : sparql_query) (hsel : "label" ∈ q.select) (m : librdf_model) :
    (librdf_model_query_execute m q).filterMap
        (fun row => gimp_attribution_write_metadata_value
          (librdf_query_results_get_binding_value_by_name row "label"))
      = (sparql_eval q.pattern m []).filterMap
        (fun row => gimp_attribution_write_metadata_value
          (librdf_query_results_get_binding_value_by_name row "label")) := by
  unfold librdf_model_query_execute
  rw [List.filterMap_map]
  apply List.filterMap_congr
  intro row _
  simp only [Function.comp, label_of_projection q.select hsel row]

theorem member_predicate_not (q : String)
    (hq : ¬ "http://www.w3.org/1999/02/22-rdf-syntax-ns#_".data <+: q.data)
    (m : librdf_model) (N : librdf_node) (vals : List String)
    (hmem : ∀ st ∈ m, ∀ v ∈ vals,
      gimp_attribution_write_metadata_value (some st.object) = some v →
        st.subject = N ∧ ∃ k, st.predicate = librdf_node.resource (rdf_li k)) :
    ∀ st ∈ m, st.predicate = librdf_node.resource q → ∀ v ∈ vals,
      gimp_attribution_write_metadata_value (some st.object) ≠ some v := by
  intro st hst hp v hv hval
  obtain ⟨_, k, hk⟩ := hmem st hst v hv hval
  rw [hp] at hk
  exact rdf_li_ne k q hq (librdf_node.resource.inj hk).symm

theorem source_values_start (m : librdf_model) (S N : librdf_node) (P : String)
    (vals : List String)
    (hP : P = "http://purl.org/dc/elements/1.1/source" ∨ P = "http://purl.org/dc/terms/source")
    (hlink : (⟨S, librdf_node.resource P, N⟩ : librdf_statement) ∈ m)
    (htype : (⟨N, librdf_node.resource "http://www.w3.org/1999/02/22-rdf-syntax-ns#type",
        librdf_node.resource "http://www.w3.org/1999/02/22-rdf-syntax-ns#Seq"⟩ :
        librdf_statement) ∈ m)
    (hseq : "http://www.w3.org/1999/02/22-rdf-syntax-ns#Seq" ∉ vals)
    (hmem : ∀ st ∈ m, ∀ v ∈ vals,
      gimp_attribution_write_metadata_value (some st.object) = some v →
        st.subject = N ∧ ∃ k, st.predicate = librdf_node.resource (rdf_li k))
    (hord : (m.filterMap
        (fun st => gimp_attribution_write_metadata_value (some st.object))).filter
          (fun v => decide (v ∈ vals)) = vals) :
    ∃ W, ((librdf_model_query_execute m source_query).filterMap
        (fun row => gimp_attribution_write_metadata_value
          (librdf_query_results_get_binding_value_by_name row "label"))).filter
          (fun v => decide (v ∈ vals)) = vals ++ W := by
  rw [query_values source_query (by decide) m, List.filter_filterMap]
  refine seq_values_start "http://purl.org/dc/elements/1.1/source"
    "http://purl.org/dc/terms/source" _ _ _ m S N P vals hP hlink htype hseq
    (fun st hst v hv h => (hmem st hst v hv h).1) hord ?_
  rw [sparql_eval_filter, sparql_eval_union, List.filterMap_eq_nil_iff]
  intro row hrow
  rcases List.mem_append.mp (List.mem_filter.mp hrow).1 with h | h
  · exact direct_values_none _ m vals
      (member_predicate_not _ (by decide) m N vals hmem) row h
  · exact direct_values_none _ m vals
      (member_predicate_not _ (by decide) m N vals hmem) row h

theorem creator_values_start (m : librdf_model) (S N : librdf_node) (P : String)
    (vals : List String)
    (hP : P = "http://purl.org/dc/elements/1.1/creator"
      ∨ P = "http://purl.org/dc/terms/creator")
    (hlink : (⟨S, librdf_node.resource P, N⟩ : librdf_statement) ∈ m)
    (htype : (⟨N, librdf_node.resource "http://www.w3.org/1999/02/22-rdf-syntax-ns#type",
        librdf_node.resource "http://www.w3.org/1999/02/22-rdf-syntax-ns#Seq"⟩ :
        librdf_statement) ∈ m)
    (hseq : "http://www.w3.org/1999/02/22-rdf-syntax-ns#Seq" ∉ vals)
    (hmem : ∀ st ∈ m, ∀ v ∈ vals,
      gimp_attribution_write_metadata_value (some st.object) = some v →
        st.subject = N ∧ ∃ k, st.predicate = librdf_node.resource (rdf_li k))
    (hord : (m.filterMap
        (fun st => gimp_attribution_write_metadata_value (some st.object))).filter
          (fun v => decide (v ∈ vals)) = vals) :
    ∃ W, ((librdf_model_query_execute m creator_query).filterMap
        (fun row => gimp_attribution_write_metadata_value
          (librdf_query_results_get_binding_value_by_name row "label"))).filter
          (fun v => decide (v ∈ vals)) = vals ++ W := by
  rw [query_values creator_query (by decide) m, List.filter_filterMap]
  refine seq_values_start "http://purl.org/dc/elements/1.1/creator"
    "http://purl.org/dc/terms/creator" _ _ _ m S N P vals hP hlink htype hseq
    (fun st hst v hv h => (hmem st hst v hv h).1) hord ?_
  rw [sparql_eval_filter, sparql_eval_union, sparql_eval_union, sparql_eval_union,
    List.filterMap_eq_nil_iff]
  intro row hrow
  rcases List.mem_append.mp (List.mem_filter.mp hrow).1 with h | h
  · rcases List.mem_append.mp h with h | h
    · rcases List.mem_append.mp h with h | h
      · exact direct_values_none _ m vals
          (member_predicate_not _ (by decide) m N vals hmem) row h
      · exact direct_values_none _ m vals
          (member_predicate_not _ (by decide) m N vals hmem) row h
    · exact direct_values_none _ m vals
        (member_predicate_not _ (by decide) m N vals hmem) row h
  · exact direct_values_none _ m vals
      (member_predicate_not _ (by decide) m N vals hmem) row h

theorem rows_tag_first_occurrences (tagname : String) (rows : List sparql_binding)
    (metadata : GExiv2Metadata) (hempty : metadata tagname = []) :
    (gimp_attribution_write_metadata_rows tagname rows metadata) tagname
      = (rows.filterMap (fun row => gimp_attribution_write_metadata_value
            (librdf_query_results_get_binding_value_by_name row "label"))).foldl
          (fun l value => if value ∈ l then l else l ++ [value]) [] := by
  rw [write_metadata_rows_eq_foldl, foldl_append_tag_value_list, hempty]

theorem seq_values_in_tag (tagname : String) (engine rows : List sparql_binding)
    (metadata : GExiv2Metadata) (vals : List String) (hnd : vals.Nodup)
    (hstart : ∃ W, (engine.filterMap
        (fun row => gimp_attribution_write_metadata_value
          (librdf_query_results_get_binding_value_by_name row "label"))).filter
          (fun v => decide (v ∈ vals)) = vals ++ W)
    (hempty : metadata tagname = []) :
    ((gimp_attribution_write_metadata_rows tagname engine metadata) tagname).filter
        (fun v => decide (v ∈ vals)) = vals
    ∧ List.Sublist vals ((gimp_attribution_write_metadata_rows tagname engine metadata) tagname)
    ∧ (gimp_attribution_write_metadata_rows tagname rows metadata) tagname
        = ((rows.filterMap (fun row => gimp_attribution_write_metadata_value
            (librdf_query_results_get_binding_value_by_name row "label"))).reverse.dedup).reverse
    ∧ ((gimp_attribution_write_metadata_rows tagname rows metadata) tagname).Nodup
    ∧ (rows.Perm engine →
        ∀ v ∈ vals, v ∈ (gimp_attribution_write_metadata_rows tagname rows metadata) tagname) := by
  obtain ⟨W, hW⟩ := hstart
  have hfilter : ((gimp_attribution_write_metadata_rows tagname engine metadata) tagname).filter
      (fun v => decide (v ∈ vals)) = vals := by
    rw [rows_tag_first_occurrences tagname engine metadata hempty]
    exact first_occurrences_restrict _ vals W hnd hW
  refine ⟨hfilter, ?_, ?_, ?_, ?_⟩
  · have hsub := List.filter_sublist (p := fun v => decide (v ∈ vals))
      ((gimp_attribution_write_metadata_rows tagname engine metadata) tagname)
    rw [hfilter] at hsub
    exact hsub
  · rw [rows_tag_first_occurrences tagname rows metadata hempty, foldl_first_occurrences]
  · rw [rows_tag_first_occurrences tagname rows metadata hempty]
    exact first_occurrences_nodup _
  · intro hperm v hv
    rw [rows_tag_first_occurrences tagname rows metadata hempty, first_occurrences_mem]
    have h1 : v ∈ (engine.filterMap
        (fun row => gimp_attribution_write_metadata_value
          (librdf_query_results_get_binding_value_by_name row "label"))).filter
          (fun v => decide (v ∈ vals)) := by
      rw [hW]; exact List.mem_append_left _ hv
    exact ((hperm.filterMap _).mem_iff).mpr (List.mem_filter.mp h1).1

/-- C19, amended: for every model that holds a statement (S, P, N) with `P` the
predicate dc:source or dcterms:source and the statement (N, rdf:type, rdf:Seq),
whatever else it holds and whether `N` is a blank node or a resource, let `vals`
be distinct values (strings of literals, URIs of resources, none the rdf:Seq
URI) that only member statements (N, rdf:_k, v) have as their object, listed in
the order in which these statements are stored.  Then
`gimp_attribution_write_metadata` leaves each of them once in Xmp.dc.source,
and among themselves they stand in that stored order, whatever their indices.
For rows in any order the loop leaves the values of the rows in row order with
later repeats dropped, so no value is there twice, and when the rows are those
of the query in another order each of the values is still in the list.  The
same holds for the predicates dc:creator and dcterms:creator and
Xmp.dc.creator. -/
theorem gimp_attribution_write_metadata_seq_stored_order
    (m : librdf_model) (S N : librdf_node) (P : String) (vals : List String)
    (metadata : GExiv2Metadata)
    (hlink : (⟨S, librdf_node.resource P, N⟩ : librdf_statement) ∈ m)
    (htype : (⟨N, librdf_node.resource "http://www.w3.org/1999/02/22-rdf-syntax-ns#type",
        librdf_node.resource "http://www.w3.org/1999/02/22-rdf-syntax-ns#Seq"⟩ :
        librdf_statement) ∈ m)
    (hnd : vals.Nodup)
    (hseq : "http://www.w3.org/1999/02/22-rdf-syntax-ns#Seq" ∉ vals)
    (hmem : ∀ st ∈ m, ∀ v ∈ vals,
      gimp_attribution_write_metadata_value (some st.object) = some v →
        st.subject = N ∧ ∃ k, st.predicate = librdf_node.resource (rdf_li k))
    (hord : (m.filterMap
        (fun st => gimp_attribution_write_metadata_value (some st.object))).filter
          (fun v => decide (v ∈ vals)) = vals) :
    ((P = "http://purl.org/dc/elements/1.1/source" ∨ P = "http://purl.org/dc/terms/source") →
      ((gimp_attribution_write_metadata ⟨m⟩ metadata) "Xmp.dc.source").filter
          (fun v => decide (v ∈ vals)) = vals
      ∧ List.Sublist vals ((gimp_attribution_write_metadata ⟨m⟩ metadata) "Xmp.dc.source")
      ∧ ∀ rows : List sparql_binding,
          (gimp_attribution_write_metadata_rows "Xmp.dc.source" rows
              (gexiv2_metadata_clear_tag metadata "Xmp.dc.source")) "Xmp.dc.source"
            = ((rows.filterMap (fun row => gimp_attribution_write_metadata_value
                (librdf_query_results_get_binding_value_by_name row "label"))).reverse.dedup).reverse
          ∧ ((gimp_attribution_write_metadata_rows "Xmp.dc.source" rows
              (gexiv2_metadata_clear_tag metadata "Xmp.dc.source")) "Xmp.dc.source").Nodup
          ∧ (rows.Perm (librdf_model_query_execute m source_query) →
              ∀ v ∈ vals, v ∈ (gimp_attribution_write_metadata_rows "Xmp.dc.source" rows
                (gexiv2_metadata_clear_tag metadata "Xmp.dc.source")) "Xmp.dc.source"))
    ∧ ((P = "http://purl.org/dc/elements/1.1/creator"
        ∨ P = "http://purl.org/dc/terms/creator") →
      ((gimp_attribution_write_metadata ⟨m⟩ metadata) "Xmp.dc.creator").filter
          (fun v => decide (v ∈ vals)) = vals
      ∧ List.Sublist vals ((gimp_attribution_write_metadata ⟨m⟩ metadata) "Xmp.dc.creator")
      ∧ ∀ rows : List sparql_binding,
          (gimp_attribution_write_metadata_rows "Xmp.dc.creator" rows
              (gexiv2_metadata_clear_tag metadata "Xmp.dc.creator")) "Xmp.dc.creator"
            = ((rows.filterMap (fun row => gimp_attribution_write_metadata_value
                (librdf_query_results_get_binding_value_by_name row "label"))).reverse.dedup).reverse
          ∧ ((gimp_attribution_write_metadata_rows "Xmp.dc.creator" rows
              (gexiv2_metadata_clear_tag metadata "Xmp.dc.creator")) "Xmp.dc.creator").Nodup
          ∧ (rows.Perm (librdf_model_query_execute m creator_query) →
              ∀ v ∈ vals, v ∈ (gimp_attribution_write_metadata_rows "Xmp.dc.creator" rows
                (gexiv2_metadata_clear_tag metadata "Xmp.dc.creator")) "Xmp.dc.creator")) := by
  constructor
  · intro hP
    have hstart := source_values_start m S N P vals hP hlink htype hseq hmem hord
    have hempty : (gexiv2_metadata_clear_tag metadata "Xmp.dc.source") "Xmp.dc.source" = [] := by
      simp [gexiv2_metadata_clear_tag]
    rw [write_metadata_source_tag]
    exact ⟨(seq_values_in_tag "Xmp.dc.source" _ [] _ vals hnd hstart hempty).1,
      (seq_values_in_tag "Xmp.dc.source" _ [] _ vals hnd hstart hempty).2.1,
      fun rows => (seq_values_in_tag "Xmp.dc.source" _ rows _ vals hnd hstart hempty).2.2⟩
  · intro hP
    have hstart := creator_values_start m S N P vals hP hlink htype hseq hmem hord
    have hempty : (gexiv2_metadata_clear_tag metadata "Xmp.dc.creator") "Xmp.dc.creator"
        = [] := by
      simp [gexiv2_metadata_clear_tag]
    rw [write_metadata_creator_tag]
    exact ⟨(seq_values_in_tag "Xmp.dc.creator" _ [] _ vals hnd hstart rfl).1,
      (seq_values_in_tag "Xmp.dc.creator" _ [] _ vals hnd hstart rfl).2.1,
      fun rows => (seq_values_in_tag "Xmp.dc.creator" _ rows _ vals hnd hstart hempty).2.2⟩

theorem gimp_attribution_write_metadata_seq_stored_order_witness :
    List.Sublist ["b", "http://example.org/a"]
      ((gimp_attribution_write_metadata
        ⟨[⟨librdf_node.resource "http://example.org/n",
            librdf_node.resource "http://www.w3.org/1999/02/22-rdf-syntax-ns#_2",
            librdf_node.literal "b" none none⟩,
          ⟨librdf_node.resource "http://example.org/other",
            librdf_node.resource "http://purl.org/dc/elements/1.1/title",
            librdf_node.literal "T" none none⟩,
          ⟨librdf_node.resource "http://example.org/n",
            librdf_node.resource "http://www.w3.org/1999/02/22-rdf-syntax-ns#_1",
            librdf_node.resource "http://example.org/a"⟩,
          ⟨librdf_node.resource "http://example.org/n",
            librdf_node.resource "http://www.w3.org/1999/02/22-rdf-syntax-ns#type",
            librdf_node.resource "http://www.w3.org/1999/02/22-rdf-syntax-ns#Seq"⟩,
          ⟨librdf_node.resource "about:this",
            librdf_node.resource "http://purl.org/dc/terms/source",
            librdf_node.resource "http://example.org/n"⟩]⟩
        (fun _ => ["old"])) "Xmp.dc.source")
    ∧ (gimp_attribution_write_metadata
        ⟨[⟨librdf_node.resource "http://example.org/n",
            librdf_node.resource "http://www.w3.org/1999/02/22-rdf-syntax-ns#_2",
            librdf_node.literal "b" none none⟩,
          ⟨librdf_node.resource "http://example.org/other",
            librdf_node.resource "http://purl.org/dc/elements/1.1/title",
            librdf_node.literal "T" none none⟩,
          ⟨librdf_node.resource "http://example.org/n",
            librdf_node.resource "http://www.w3.org/1999/02/22-rdf-syntax-ns#_1",
            librdf_node.resource "http://example.org/a"⟩,
          ⟨librdf_node.resource "http://example.org/n",
            librdf_node.resource "http://www.w3.org/1999/02/22-rdf-syntax-ns#type",
            librdf_node.resource "http://www.w3.org/1999/02/22-rdf-syntax-ns#Seq"⟩,
          ⟨librdf_node.resource "about:this",
            librdf_node.resource "http://purl.org/dc/terms/source",
            librdf_node.resource "http://example.org/n"⟩]⟩
        (fun _ => ["old"])) "Xmp.dc.source"
      = ["http://example.org/n", "b", "http://example.org/a"]
    ∧ ((gimp_attribution_write_metadata
        ⟨[⟨librdf_node.resource "about:this",
            librdf_node.resource "http://purl.org/dc/elements/1.1/creator",
            librdf_node.blank "n"⟩,
          ⟨librdf_node.blank "n",
            librdf_node.resource "http://www.w3.org/1999/02/22-rdf-syntax-ns#type",
            librdf_node.resource "http://www.w3.org/1999/02/22-rdf-syntax-ns#Seq"⟩,
          ⟨librdf_node.blank "n",
            librdf_node.resource "http://www.w3.org/1999/02/22-rdf-syntax-ns#_2",
            librdf_node.literal "Bob" none none⟩,
          ⟨librdf_node.blank "n",
            librdf_node.resource "http://www.w3.org/1999/02/22-rdf-syntax-ns#_1",
            librdf_node.literal "Alice" none none⟩]⟩
        (fun _ => ["old"])) "Xmp.dc.creator").filter
          (fun v => decide (v ∈ ["Bob", "Alice"])) = ["Bob", "Alice"] :=
  ⟨((gimp_attribution_write_metadata_seq_stored_order
      [⟨librdf_node.resource "http://example.org/n",
          librdf_node.resource "http://www.w3.org/1999/02/22-rdf-syntax-ns#_2",
          librdf_node.literal "b" none none⟩,
        ⟨librdf_node.resource "http://example.org/other",
          librdf_node.resource "http://purl.org/dc/elements/1.1/title",
          librdf_node.literal "T" none none⟩,
        ⟨librdf_node.resource "http://example.org/n",
          librdf_node.resource "http://www.w3.org/1999/02/22-rdf-syntax-ns#_1",
          librdf_node.resource "http://example.org/a"⟩,
        ⟨librdf_node.resource "http://example.org/n",
          librdf_node.resource "http://www.w3.org/1999/02/22-rdf-syntax-ns#type",
          librdf_node.resource "http://www.w3.org/1999/02/22-rdf-syntax-ns#Seq"⟩,
        ⟨librdf_node.resource "about:this",
          librdf_node.resource "http://purl.org/dc/terms/source",
          librdf_node.resource "http://example.org/n"⟩]
      (librdf_node.resource "about:this") (librdf_node.resource "http://example.org/n")
      "http://purl.org/dc/terms/source" ["b", "http://example.org/a"] (fun _ => ["old"])
      (by decide) (by decide) (by decide) (by decide)
      (by
        intro st hst v hv hval
        simp only [List.mem_cons, List.mem_singleton, List.not_mem_nil, or_false] at hst hv
        rcases hst with rfl | rfl | rfl | rfl | rfl <;> rcases hv with rfl | rfl <;>
          first
            | exact ⟨rfl, 2, rfl⟩
            | exact ⟨rfl, 1, rfl⟩
            | exact absurd hval (by decide))
      (by decide)).1 (Or.inr rfl)).2.1,
    by decide,
    ((gimp_attribution_write_metadata_seq_stored_order
      [⟨librdf_node.resource "about:this",
          librdf_node.resource "http://purl.org/dc/elements/1.1/creator",
          librdf_node.blank "n"⟩,
        ⟨librdf_node.blank "n",
          librdf_node.resource "http://www.w3.org/1999/02/22-rdf-syntax-ns#type",
          librdf_node.resource "http://www.w3.org/1999/02/22-rdf-syntax-ns#Seq"⟩,
        ⟨librdf_node.blank "n",
          librdf_node.resource "http://www.w3.org/1999/02/22-rdf-syntax-ns#_2",
          librdf_node.literal "Bob" none none⟩,
        ⟨librdf_node.blank "n",
          librdf_node.resource "http://www.w3.org/1999/02/22-rdf-syntax-ns#_1",
          librdf_node.literal "Alice" none none⟩]
      (librdf_node.resource "about:this") (librdf_node.blank "n")
      "http://purl.org/dc/elements/1.1/creator" ["Bob", "Alice"] (fun _ => ["old"])
      (by decide) (by decide) (by decide) (by decide)
      (by
        intro st hst v hv hval
        simp only [List.mem_cons, List.mem_singleton, List.not_mem_nil, or_false] at hst hv
        rcases hst with rfl | rfl | rfl | rfl <;> rcases hv with rfl | rfl <;>
          first
            | exact ⟨rfl, 2, rfl⟩
            | exact ⟨rfl, 1, rfl⟩
            | exact absurd hval (by decide))
      (by decide)).2 (Or.inl rfl)).1⟩
